import Mathlib

/-!
# IPPool reconciliation of vm-dhcp-controller

A shallow embedding of `pkg/controllers/ippool/controller.go` (the handlers
`OnChange`, `OnRemove`, `DeployAgent`, `BuildCache` and `MonitorAgent`, the event
fan-out of `Register` and the helpers they call) and of the workload constructor
of `pkg/controller/ippool/common.go`, together with the parts of the libraries
they rely on: the condition helpers of `rancher/wrangler`, `reflect.DeepEqual`,
and the Kubernetes object shapes. The allocator of `pkg/ipam` and the validator of
`pkg/webhook/ippool`, whose sources are not at hand, are modelled from the spec.

Conventions of the embedding.

* A Go pointer that may be `nil` is an `Option`; a Go `map[string]string`
  that may be `nil` is an `Option StringMap`, so that the nil map and the
  empty map stay distinct, as they are for `reflect.DeepEqual`.
* `DeepCopy` is the identity and `reflect.DeepEqual` is equality: the
  structures below are plain values and `StringMap` is extensional.
* Calls that leave the process (status writes, workload creation, cache
  lookups) and the packages whose source is not part of the controller
  package (`pkg/ipam`) are fields of `Handler`; every request that changes
  the cluster is recorded in the result of the handler that issued it.
-/

namespace ippool

/-! ## Basic values -/

/-- Go `map[string]string`, compared by content. -/
abbrev StringMap := Finmap (fun _ : String => String)

/-- Number of keys, Go `len(m)`. -/
def StringMap.len (m : StringMap) : Nat := m.keys.card

/-- Instants of `metav1.Time`; `0` is the zero time. -/
abbrev Time := Nat

/-- A Go `error` as the handlers can tell errors apart: the status reason that
`apierrors.ReasonForError` reports (empty, `StatusReasonUnknown`, for an error
that does not come from the API server) and the message. -/
structure Error where
  reason : String
  message : String
deriving DecidableEq, Repr

/-- The reason `metav1.StatusReasonAlreadyExists`. -/
def StatusReasonAlreadyExists : String := "AlreadyExists"

/-- Plain error carrying a formatted message, `fmt.Errorf`. -/
def Errorf (message : String) : Error := { reason := "", message := message }

/-- Test `apierrors.IsAlreadyExists`. -/
def IsAlreadyExists (err : Error) : Bool := err.reason == StatusReasonAlreadyExists

/-- Modelled from the spec: the constant `util.ExcludedMark` (package `pkg/util`
is not among the sources); the spec gives the sentinel as the literal string
`"EXCLUDED"`. -/
def ExcludedMark : String := "EXCLUDED"

/-! ## The pool resource -/

/-- Element of `spec.ipv4.pool.exclude`. The controller only calls `String()` on
such a value; the element is represented by the text that call returns. -/
structure IPv4Addr where
  text : String
deriving DecidableEq, Repr

/-- Method `String()` of an excluded address. -/
def IPv4Addr.String (v : IPv4Addr) : String := v.text

structure Pool where
  Start : String
  End : String
  Exclude : List IPv4Addr
deriving DecidableEq

structure IPv4Config where
  ServerIP : String
  CIDR : String
  Pool : Pool
  Router : String
deriving DecidableEq

structure IPPoolSpec where
  IPv4Config : IPv4Config
  NetworkName : String
  Paused : Option Bool
deriving DecidableEq

structure PodReference where
  Namespace : String
  Name : String
deriving DecidableEq, Repr

structure IPv4Status where
  Allocated : Option StringMap
  Used : Int
  Available : Int
deriving DecidableEq

/-- Condition record `genericcondition.GenericCondition` of wrangler. -/
structure Condition where
  Type' : String
  Status : String
  LastUpdateTime : String
  LastTransitionTime : String
  Reason : String
  Message : String
deriving DecidableEq, Repr

structure IPPoolStatus where
  LastUpdate : Time
  IPv4 : Option IPv4Status
  AgentPodRef : Option PodReference
  Conditions : List Condition
deriving DecidableEq

/-- The fields of `metav1.ObjectMeta` that the controller reads or sets. -/
structure ObjectMeta where
  Name : String
  Namespace : String
  Labels : Option StringMap
  Annotations : Option StringMap
  DeletionTimestamp : Option Time
deriving DecidableEq

structure IPPool where
  ObjectMeta : ObjectMeta
  Spec : IPPoolSpec
  Status : IPPoolStatus
deriving DecidableEq

/-- The zero value `new(networkv1.IPv4Status)`. -/
def IPv4Status.zero : IPv4Status := { Allocated := none, Used := 0, Available := 0 }

/-! ## Condition helpers (wrangler `pkg/condition`) -/

/-- Name of the cache condition, `networkv1.CacheReady`. -/
def CacheReady : String := "CacheReady"

/-- First condition of the given type, `findCond`. -/
def findCond (conds : List Condition) (condName : String) : Option Condition :=
  conds.find? (fun c => c.Type' == condName)

/-- Append a fresh `Unknown` condition of the given type unless one is present,
`findOrCreateCond`. -/
def findOrCreateCond (conds : List Condition) (condName : String) : List Condition :=
  match findCond conds condName with
  | some _ => conds
  | none =>
    conds ++ [{ Type' := condName, Status := "Unknown", LastUpdateTime := "",
                LastTransitionTime := "", Reason := "", Message := "" }]

/-- Apply `f` in place to the first condition of the given type: the Go helpers
write through the pointer that `findCond` returns. -/
def modifyCond (condName : String) (f : Condition → Condition) :
    List Condition → List Condition
  | [] => []
  | c :: cs => if c.Type' == condName then f c :: cs else c :: modifyCond condName f cs

/-- Status setter `setStatus` (through `setValue`): a changed status also stamps
`LastUpdateTime` (`touchTS`), an unchanged one leaves the condition as it is. -/
def setStatus (stamp : String) (conds : List Condition) (condName status : String) :
    List Condition :=
  modifyCond condName
    (fun c => if c.Status != status then { c with Status := status, LastUpdateTime := stamp } else c)
    (findOrCreateCond conds condName)

/-- Reason setter `Cond.Reason`: the field is overwritten, no time stamp. -/
def setReason (conds : List Condition) (condName reason : String) : List Condition :=
  modifyCond condName (fun c => { c with Reason := reason }) (findOrCreateCond conds condName)

/-- Message setter `Cond.Message` (through `setValue`). -/
def setMessage (stamp : String) (conds : List Condition) (condName message : String) :
    List Condition :=
  modifyCond condName
    (fun c => if c.Message != message then { c with Message := message, LastUpdateTime := stamp } else c)
    (findOrCreateCond conds condName)

/-- Replace the condition list of a pool. -/
def IPPool.withConditions (p : IPPool) (conds : List Condition) : IPPool :=
  { p with Status := { p.Status with Conditions := conds } }

/-- Method `Cond.False` on a pool. -/
def Cond.False (stamp : String) (c : String) (obj : IPPool) : IPPool :=
  obj.withConditions (setStatus stamp obj.Status.Conditions c "False")

/-- Method `Cond.SetStatus` on a pool. -/
def Cond.SetStatus (stamp : String) (c : String) (obj : IPPool) (status : String) : IPPool :=
  obj.withConditions (setStatus stamp obj.Status.Conditions c status)

/-- Method `Cond.Reason` on a pool. -/
def Cond.Reason (c : String) (obj : IPPool) (reason : String) : IPPool :=
  obj.withConditions (setReason obj.Status.Conditions c reason)

/-- Method `Cond.Message` on a pool. -/
def Cond.Message (stamp : String) (c : String) (obj : IPPool) (message : String) : IPPool :=
  obj.withConditions (setMessage stamp obj.Status.Conditions c message)

/-! ## Workloads and network attachments

The Kubernetes object shapes, restricted to the fields the controller sets. -/

structure NodeSelectorRequirement where
  Key : String
  Operator : String
  Values : List String
deriving DecidableEq

structure NodeSelectorTerm where
  MatchExpressions : List NodeSelectorRequirement
deriving DecidableEq

structure NodeSelector where
  NodeSelectorTerms : List NodeSelectorTerm
deriving DecidableEq

structure NodeAffinity where
  RequiredDuringSchedulingIgnoredDuringExecution : Option NodeSelector
deriving DecidableEq

structure Affinity where
  NodeAffinity : Option NodeAffinity
deriving DecidableEq

structure Capabilities where
  Add : List String
deriving DecidableEq

structure SecurityContext where
  RunAsUser : Option Int
  RunAsGroup : Option Int
  Capabilities : Option Capabilities
deriving DecidableEq

structure EnvVar where
  Name : String
  Value : String
deriving DecidableEq

/-- Value `intstr.IntOrString`. -/
inductive IntOrString where
  | FromInt (val : Int)
  | FromString (val : String)
deriving DecidableEq

structure HTTPGetAction where
  Path : String
  Port : IntOrString
deriving DecidableEq

structure ProbeHandler where
  HTTPGet : Option HTTPGetAction
deriving DecidableEq

structure Probe where
  ProbeHandler : ProbeHandler
deriving DecidableEq

structure Container where
  Name : String
  Image : String
  Command : List String
  Args : List String
  Env : List EnvVar
  SecurityContext : Option SecurityContext
  LivenessProbe : Option Probe
  ReadinessProbe : Option Probe
deriving DecidableEq

structure PodSpec where
  Affinity : Option Affinity
  ServiceAccountName : String
  InitContainers : List Container
  Containers : List Container
deriving DecidableEq

structure PodCondition where
  Type' : String
  Status : String
deriving DecidableEq

structure PodStatus where
  Conditions : List PodCondition
deriving DecidableEq

structure Pod where
  ObjectMeta : ObjectMeta
  Spec : PodSpec
  Status : PodStatus
deriving DecidableEq

/-- Record `cniv1.NetworkAttachmentDefinition`; the controller reads its labels. -/
structure NetworkAttachmentDefinition where
  ObjectMeta : ObjectMeta
deriving DecidableEq

/-- Entry of the multus networks list of the agent workload. -/
structure Network where
  Namespace : String
  Name : String
  InterfaceName : String
deriving DecidableEq

/-- Result `*net.IPNet` of `net.ParseCIDR`: address and mask as byte lists. -/
structure IPNet where
  IP : List Nat
  Mask : List Nat
deriving DecidableEq

/-- Image reference `*config.Image`, represented by the text of its `String()`. -/
structure Image where
  text : String
deriving DecidableEq

/-- Method `String()` of the agent image. -/
def Image.String (i : Image) : String := i.text

/-! ## Constants of the controller package -/

/-- Modelled from the spec: group name `network.GroupName` of package
`pkg/apis/network.harvesterhci.io`, which is not among the sources; the spec
writes it `<group>`. Its value is the name of that package, which is also the
group the watch of `Register` spells out in its label
`network.harvesterhci.io/vm-dhcp-controller` (line 127). -/
def GroupName : String := "network.harvesterhci.io"

def multusNetworksAnnotationKey : String := "k8s.v1.cni.cncf.io/networks"

def ipPoolNamespaceLabelKey : String := GroupName ++ "/ippool-namespace"

def ipPoolNameLabelKey : String := GroupName ++ "/ippool-name"

def vmDHCPControllerLabelKey : String := GroupName ++ "/vm-dhcp-controller"

def clusterNetworkLabelKey : String := GroupName ++ "/clusternetwork"

def runAsUserID : Int := 0

def runAsGroupID : Int := 0

/-- The format `setIPAddrScript` applied to its two arguments (`%s`, `%d`). -/
def setIPAddrScript (serverIP : String) (prefixLength : Int) : String :=
  "\n#!/usr/bin/env sh\nset -ex\n\nip address flush dev eth1\nip address add "
    ++ serverIP ++ "/" ++ toString prefixLength ++ " dev eth1\n"

/-! ## Library helpers -/

/-- Predicate `unicode.IsSpace`. -/
def isSpace (c : Char) : Bool :=
  let n := c.toNat
  n == 0x09 || n == 0x0A || n == 0x0B || n == 0x0C || n == 0x0D || n == 0x20 ||
  n == 0x85 || n == 0xA0 || n == 0x1680 || (0x2000 ≤ n && n ≤ 0x200A) ||
  n == 0x2028 || n == 0x2029 || n == 0x202F || n == 0x205F || n == 0x3000

/-- Function `strings.TrimSpace` on a character list. -/
def trimSpace (cs : List Char) : List Char :=
  ((cs.dropWhile isSpace).reverse.dropWhile isSpace).reverse

/-- Cut a character list at the first occurrence of `sep`,
`strings.SplitN(s, sep, 2)` for a one-character separator. -/
def splitFirst (sep : Char) : List Char → Option (List Char × List Char)
  | [] => none
  | c :: cs =>
    if c = sep then some ([], cs)
    else match splitFirst sep cs with
      | some (a, b) => some (c :: a, b)
      | none => none

/-- Helper `kv.RSplit(s, "/")` of wrangler: both parts trimmed, and an empty first
part when there is no separator. -/
def RSplit (s : String) : String × String :=
  match splitFirst '/' s.data with
  | none => ("", String.mk (trimSpace s.data))
  | some (a, b) => (String.mk (trimSpace a), String.mk (trimSpace b))

/-- Leading one bits of a mask byte and what is left after them (`v <<= 1`
while the top bit is set). -/
def leadingOnes : Nat → Nat → Nat × Nat
  | 0, v => (0, v % 256)
  | fuel + 1, v =>
    if v % 256 ≥ 128 then
      let r := leadingOnes fuel ((v * 2) % 256)
      (r.1 + 1, r.2)
    else (0, v % 256)

/-- Function `simpleMaskLength` of package `net`; `none` stands for `-1`. -/
def simpleMaskLength : List Nat → Option Nat
  | [] => some 0
  | v :: rest =>
    if v = 0xff then (simpleMaskLength rest).map (· + 8)
    else
      let r := leadingOnes 8 v
      if r.2 ≠ 0 then none
      else if rest.all (· == 0) then some r.1 else none

/-- Method `IPMask.Size`: the number of leading ones and the number of bits, or
`(0, 0)` for a mask that is not in canonical form. -/
def IPMaskSize (mask : List Nat) : Int × Int :=
  match simpleMaskLength mask with
  | some ones => (ones, mask.length * 8)
  | none => (0, 0)

/-! ## The handler and its collaborators -/

/-- The queries of `ipam.IPAllocator` that `OnChange` calls. Package `pkg/ipam` is
not among the sources, so the allocator is a parameter of the handler. -/
structure IPAllocator where
  IsNetworkInitialized : String → Bool
  GetUsed : String → Except Error Int
  GetAvailable : String → Except Error Int

/-- Client `ctlnetworkv1.IPPoolClient`: `UpdateStatus` answers with a pool pointer
and an error, both handed on unchanged by the caller. -/
structure IPPoolClient where
  UpdateStatus : IPPool → Option IPPool × Option Error

/-- Client `ctlcorev1.PodClient`; `Delete` takes the namespace and the name. -/
structure PodClient where
  Create : Pod → Except Error Pod
  Delete : String → String → Option Error

/-- Cache `ctlcorev1.PodCache`; `List` takes the namespace and the label set whose
selector it applies. -/
structure PodCache where
  Get : String → String → Except Error Pod
  List : String → StringMap → Except Error (List Pod)

/-- The call of `cache.CacheAllocator` that `BuildCache` makes. Package `pkg/cache`
is not among the sources; the answer of the call is a parameter of the handler. -/
structure CacheAllocator where
  NewMACIPMap : String → Option Error

/-- Cache `ctlcniv1.NetworkAttachmentDefinitionCache`. -/
structure NADCache where
  Get : String → String → Except Error NetworkAttachmentDefinition

/-- What the handlers take from the process and the Go standard library: the clock
(`metav1.Now()` and the RFC 3339 text that wrangler's `touchTS` writes),
`net.ParseCIDR` and `json.Marshal` on the networks list. -/
structure Runtime where
  Now : Time
  stamp : String
  ParseCIDR : String → Except Error IPNet
  Marshal : List Network → Except Error String

/-- The fields of the Go `Handler` that the handlers use; `runtime` is not a field
of the Go struct. `ipAllocator` answers the queries of `OnChange`; the handlers
that change the allocator (`BuildCache`, `OnRemove`) take its state as an
argument and return the state they leave. -/
structure Handler where
  agentNamespace : String
  agentImage : Image
  agentServiceAccountName : String
  noAgent : Bool
  noDHCP : Bool
  cacheAllocator : CacheAllocator
  ipAllocator : IPAllocator
  ippoolClient : IPPoolClient
  podClient : PodClient
  podCache : PodCache
  nadCache : NADCache
  runtime : Runtime

/-! ## OnChange -/

/-- What one call of `OnChange` did: the pools it handed to
`ippoolClient.UpdateStatus`, in order, and the pair it returned. -/
structure OnChangeResult where
  written : List IPPool
  ret : Option IPPool × Option Error

/-- Lines 159-162 of `OnChange`: record `CacheReady=False`, reason
`NotInitialized`, empty message on the copy. -/
def markNotInitialized (stamp : String) (ipPoolCpy : IPPool) : IPPool :=
  let ipPoolCpy := Cond.False stamp CacheReady ipPoolCpy
  let ipPoolCpy := Cond.SetStatus stamp CacheReady ipPoolCpy "False"
  let ipPoolCpy := Cond.Reason CacheReady ipPoolCpy "NotInitialized"
  Cond.Message stamp CacheReady ipPoolCpy ""

/-- Lines 188-199 of `OnChange`: start from the copied map (a fresh one when it is
nil), mark every excluded address, and turn an empty result into the nil map. -/
def markExcluded (exclude : List IPv4Addr) (allocated : Option StringMap) : Option StringMap :=
  let allocated : StringMap := allocated.getD ∅
  let allocated := exclude.foldl (fun m v => m.insert v.String ExcludedMark) allocated
  if allocated.len = 0 then none else some allocated

/-- Handler `OnChange`. The key is only logged. -/
def Handler.OnChange (h : Handler) (_key : String) (ipPool : Option IPPool) : OnChangeResult :=
  match ipPool with
  | none => { written := [], ret := (none, none) }
  | some ipPool =>
    if ipPool.ObjectMeta.DeletionTimestamp.isSome then { written := [], ret := (none, none) }
    else
      let notInitialized := !h.ipAllocator.IsNetworkInitialized ipPool.Spec.NetworkName
      let ipPoolCpy := if notInitialized then markNotInitialized h.runtime.stamp ipPool else ipPool
      if notInitialized && decide (ipPoolCpy ≠ ipPool) then
        { written := [ipPoolCpy], ret := h.ippoolClient.UpdateStatus ipPoolCpy }
      else
        let ipv4Status := ipPoolCpy.Status.IPv4.getD IPv4Status.zero
        match h.ipAllocator.GetUsed ipPool.Spec.NetworkName with
        | .error err => { written := [], ret := (none, some err) }
        | .ok used =>
          let ipv4Status := { ipv4Status with Used := used }
          match h.ipAllocator.GetAvailable ipPool.Spec.NetworkName with
          | .error err => { written := [], ret := (none, some err) }
          | .ok available =>
            let ipv4Status := { ipv4Status with Available := available }
            let allocated := markExcluded ipPool.Spec.IPv4Config.Pool.Exclude ipv4Status.Allocated
            let ipv4Status := { ipv4Status with Allocated := allocated }
            let ipPoolCpy := { ipPoolCpy with Status := { ipPoolCpy.Status with IPv4 := some ipv4Status } }
            if ipPoolCpy ≠ ipPool then
              let ipPoolCpy :=
                { ipPoolCpy with Status := { ipPoolCpy.Status with LastUpdate := h.runtime.Now } }
              { written := [ipPoolCpy], ret := h.ippoolClient.UpdateStatus ipPoolCpy }
            else { written := [], ret := (some ipPool, none) }

/-! ## DeployAgent -/

/-- Method `Handler.prepareAgentPod`. -/
def Handler.prepareAgentPod (h : Handler) (ipPool : IPPool) (clusterNetwork : String) :
    Except Error Pod :=
  let name := ipPool.ObjectMeta.Namespace ++ "-" ++ ipPool.ObjectMeta.Name ++ "-agent"
  let nad := RSplit ipPool.Spec.NetworkName
  let networks : List Network := [{ Namespace := nad.1, Name := nad.2, InterfaceName := "eth1" }]
  match h.runtime.Marshal networks with
  | .error err => .error err
  | .ok networksStr =>
    match h.runtime.ParseCIDR ipPool.Spec.IPv4Config.CIDR with
    | .error err => .error err
    | .ok ipNet =>
      let prefixLength := (IPMaskSize ipNet.Mask).1
      let args := ["--ippool-ref", ipPool.ObjectMeta.Namespace ++ "/" ++ ipPool.ObjectMeta.Name]
      let args := if h.noDHCP then args ++ ["--dry-run"] else args
      let securityContext : SecurityContext :=
        { RunAsUser := some runAsUserID, RunAsGroup := some runAsGroupID,
          Capabilities := some { Add := ["NET_ADMIN"] } }
      .ok
        { ObjectMeta :=
            { Annotations := some ((∅ : StringMap).insert multusNetworksAnnotationKey networksStr),
              Labels := some ((((∅ : StringMap).insert vmDHCPControllerLabelKey "agent").insert
                ipPoolNamespaceLabelKey ipPool.ObjectMeta.Namespace).insert
                ipPoolNameLabelKey ipPool.ObjectMeta.Name),
              Name := name,
              Namespace := h.agentNamespace,
              DeletionTimestamp := none },
          Spec :=
            { Affinity := some { NodeAffinity := some {
                RequiredDuringSchedulingIgnoredDuringExecution := some {
                  NodeSelectorTerms := [{ MatchExpressions := [{
                    Key := GroupName ++ "/" ++ clusterNetwork,
                    Operator := "In",
                    Values := ["true"] }] }] } } },
              ServiceAccountName := h.agentServiceAccountName,
              InitContainers := [{
                Name := "ip-setter",
                Image := "busybox",
                Command := ["/bin/sh", "-c",
                  setIPAddrScript ipPool.Spec.IPv4Config.ServerIP prefixLength],
                Args := [],
                Env := [],
                SecurityContext := some securityContext,
                LivenessProbe := none,
                ReadinessProbe := none }],
              Containers := [{
                Name := "agent",
                Image := h.agentImage.String,
                Command := [],
                Args := args,
                Env := [{ Name := "VM_DHCP_AGENT_NAME", Value := name }],
                SecurityContext := some securityContext,
                LivenessProbe := some { ProbeHandler := { HTTPGet := some {
                  Path := "/healthz", Port := IntOrString.FromInt 8080 } } },
                ReadinessProbe := some { ProbeHandler := { HTTPGet := some {
                  Path := "/readyz", Port := IntOrString.FromInt 8080 } } } }] },
          Status := { Conditions := [] } }

/-- What one call of `DeployAgent` did: the workloads it handed to
`podClient.Create` (the only request to the cluster it can issue), the status
and the error it returned. -/
structure DeployAgentResult where
  created : List Pod
  status : IPPoolStatus
  err : Option Error

/-- Handler `DeployAgent`. -/
def Handler.DeployAgent (h : Handler) (ipPool : IPPool) (status : IPPoolStatus) :
    DeployAgentResult :=
  if h.noAgent then { created := [], status := status, err := none }
  else
    let nadKey := RSplit ipPool.Spec.NetworkName
    match h.nadCache.Get nadKey.1 nadKey.2 with
    | .error err => { created := [], status := status, err := some err }
    | .ok nad =>
      match nad.ObjectMeta.Labels with
      | none =>
        { created := [], status := status,
          err := some (Errorf ("could not find clusternetwork for nad " ++ ipPool.Spec.NetworkName)) }
      | some labels =>
        match labels.lookup clusterNetworkLabelKey with
        | none =>
          { created := [], status := status,
            err := some (Errorf ("could not find clusternetwork for nad " ++ ipPool.Spec.NetworkName)) }
        | some clusterNetwork =>
          match h.prepareAgentPod ipPool clusterNetwork with
          | .error err => { created := [], status := status, err := some err }
          | .ok agent =>
            match h.podClient.Create agent with
            | .error err =>
              if IsAlreadyExists err then { created := [agent], status := status, err := none }
              else { created := [agent], status := status, err := some err }
            | .ok agentPod =>
              { created := [agent],
                status := { status with AgentPodRef := some {
                  Namespace := agentPod.ObjectMeta.Namespace,
                  Name := agentPod.ObjectMeta.Name } },
                err := none }

/-! ## Reading a pool and a result -/

/-- Entry of a map that may be nil, Go `m[k]` with its presence flag. -/
def lookupIn (m : Option StringMap) (k : String) : Option String :=
  match m with
  | none => none
  | some m => m.lookup k

/-- Entry `status.ipv4.allocated[ip]` of a pool, if there is one. -/
def IPPool.allocatedAt (p : IPPool) (ip : String) : Option String :=
  match p.Status.IPv4 with
  | none => none
  | some s => lookupIn s.Allocated ip

/-- The pool a call of `OnChange` leaves behind is `q`: a pool it wrote, or the
pool it returned when it wrote nothing. -/
def OnChangeResult.Resulting (r : OnChangeResult) (q : IPPool) : Prop :=
  q ∈ r.written ∨ (r.written = [] ∧ r.ret.1 = some q)

/-- The counters of `q` are the ones the allocator reports for the network. -/
def ReflectsIPAM (a : IPAllocator) (networkName : String) (q : IPPool) : Prop :=
  ∃ s, q.Status.IPv4 = some s ∧ a.GetUsed networkName = .ok s.Used ∧
    a.GetAvailable networkName = .ok s.Available

/-- The `CacheReady` condition of `q` is `False` with reason `NotInitialized` and
an empty message. -/
def CacheNotInitialized (q : IPPool) : Prop :=
  ∃ c, findCond q.Status.Conditions CacheReady = some c ∧ c.Status = "False" ∧
    c.Reason = "NotInitialized" ∧ c.Message = ""

/-- The conditions of a pool other than `CacheReady`, in order. -/
def otherConditions (p : IPPool) : List Condition :=
  p.Status.Conditions.filter (fun c => !(c.Type' == CacheReady))

/-! ## Normal forms of the handler steps

The definitions below restate parts of `OnChange` as functions of their own, so
that lemmas can be stated about them; `OnChange_initialized` and
`OnChange_uninitialized` relate them to the handler. -/

/-- A map that may be nil is in normal form when it is not the empty map:
`OnChange` turns an empty map into the nil map "for DeepEqual". -/
def NormalMap (a : Option StringMap) : Prop := ∀ m, a = some m → m ≠ ∅

/-- The four writes of `markNotInitialized` as they act on one condition. -/
def notInitializedCond (stamp : String) (c : Condition) : Condition :=
  let c := if c.Status != "False" then { c with Status := "False", LastUpdateTime := stamp } else c
  let c := if c.Status != "False" then { c with Status := "False", LastUpdateTime := stamp } else c
  let c := { c with Reason := "NotInitialized" }
  if c.Message != "" then { c with Message := "", LastUpdateTime := stamp } else c

/-- The pool `OnChange` computes from the copy `cpy` of `p` and the two counters
(lines 171-201). -/
def derivedPool (p cpy : IPPool) (used available : Int) : IPPool :=
  { cpy with Status := { cpy.Status with IPv4 := some (
      { Allocated := markExcluded p.Spec.IPv4Config.Pool.Exclude
          (cpy.Status.IPv4.getD IPv4Status.zero).Allocated,
        Used := used, Available := available } : IPv4Status) } }

/-- The pool with `last_update` set (line 205). -/
def IPPool.withLastUpdate (p : IPPool) (t : Time) : IPPool :=
  { p with Status := { p.Status with LastUpdate := t } }

/-- The second half of `OnChange` (from line 171 on) for the copy `cpy` of `p`. -/
def Handler.deriveAndWrite (h : Handler) (p cpy : IPPool) : OnChangeResult :=
  match h.ipAllocator.GetUsed p.Spec.NetworkName with
  | .error err => { written := [], ret := (none, some err) }
  | .ok used =>
    match h.ipAllocator.GetAvailable p.Spec.NetworkName with
    | .error err => { written := [], ret := (none, some err) }
    | .ok available =>
      if derivedPool p cpy used available ≠ p then
        { written := [(derivedPool p cpy used available).withLastUpdate h.runtime.Now],
          ret := h.ippoolClient.UpdateStatus
            ((derivedPool p cpy used available).withLastUpdate h.runtime.Now) }
      else { written := [], ret := (some p, none) }

/-- The cluster network `DeployAgent` reads from the attachment of the pool, when
every step up to the construction of the workload succeeds. -/
def ResolvesTo (h : Handler) (p : IPPool) (clusterNetwork : String) : Prop :=
  h.noAgent = false ∧
  ∃ nad labels,
    h.nadCache.Get (RSplit p.Spec.NetworkName).1 (RSplit p.Spec.NetworkName).2 = .ok nad ∧
    nad.ObjectMeta.Labels = some labels ∧
    labels.lookup clusterNetworkLabelKey = some clusterNetwork

/-! ## Addresses

An IPv4 address is the number its four octets spell in base 256. The spec names
IPv6 a non-goal; text in IPv6 notation does not parse here. -/

/-- The scan of `netip.ParseAddr` over the characters of a dotted quad: `val` and
`digLen` describe the octet being read, `fields` the octets read so far,
`start` whether the character is the first one and `afterDot` whether the
previous one was a dot. The error is the message of the `ParseAddr` error. -/
def parseIPv4Fields : List Char → Bool → Bool → Nat → Nat → List Nat → Except String (List Nat)
  | [], _, _, val, _, fields =>
    if fields.length < 3 then .error "IPv4 address too short" else .ok (fields ++ [val])
  | c :: cs, start, afterDot, val, digLen, fields =>
    if c.isDigit then
      if digLen = 1 ∧ val = 0 then .error "IPv4 field has octet with leading zero"
      else if val * 10 + (c.toNat - 48) > 255 then .error "IPv4 field has value >255"
      else parseIPv4Fields cs false false (val * 10 + (c.toNat - 48)) (digLen + 1) fields
    else if c = '.' then
      if start ∨ cs = [] ∨ afterDot then .error "IPv4 field must have at least one digit"
      else if fields.length = 3 then .error "IPv4 address too long"
      else parseIPv4Fields cs false true 0 0 (fields ++ [val])
    else .error "unexpected character"

/-- Value of a list of octets in base 256. -/
def octetsValue (fields : List Nat) : Nat := fields.foldl (fun acc o => acc * 256 + o) 0

/-- Modelled from the spec: "parse as address". The text is read as `netip.ParseAddr`
reads an IPv4 address (the tests pin its message for an octet above 255); the
result is the address as a number, or the message of the parse error. -/
def parseAddr (s : String) : Except String Nat :=
  if s.data.all (fun c => c != '.') then .error "unable to parse IP"
  else (parseIPv4Fields s.data true false 0 0 []).map octetsValue

/-- A network in CIDR form: an address and a prefix length. -/
structure Prefix where
  addr : Nat
  bits : Nat
deriving DecidableEq, Repr

/-- Decimal value of a non-empty run of digits, `none` for anything else. -/
def parseDecimal (cs : List Char) : Option Nat :=
  if cs = [] ∨ ¬ cs.all Char.isDigit then none
  else some (cs.foldl (fun acc c => acc * 10 + (c.toNat - 48)) 0)

/-- Modelled from the spec: "cidr parses". The text is `<address>/<length>` with an
IPv4 address and a decimal length of at most 32. -/
def parseCIDR (s : String) : Except String Prefix :=
  match splitFirst '/' s.data with
  | none => .error ("invalid CIDR address: " ++ s)
  | some (a, b) =>
    match parseAddr (String.mk a), parseDecimal b with
    | .ok addr, some bits =>
      if bits ≤ 32 then .ok { addr := addr, bits := bits }
      else .error ("invalid CIDR address: " ++ s)
    | _, _ => .error ("invalid CIDR address: " ++ s)

/-- The network address of a prefix: the host bits cleared. -/
def Prefix.networkIP (p : Prefix) : Nat := p.addr / 2 ^ (32 - p.bits) * 2 ^ (32 - p.bits)

/-- The broadcast address of a prefix: the host bits set. -/
def Prefix.broadcastIP (p : Prefix) : Nat := p.networkIP + 2 ^ (32 - p.bits) - 1

/-- The address lies inside the prefix. -/
def Prefix.Contains (p : Prefix) (ip : Nat) : Bool :=
  decide (p.networkIP ≤ ip) && decide (ip ≤ p.broadcastIP)

/-! ## IPAM

Package `pkg/ipam` is not among the sources. The allocator state and its
operations follow sections 3 and 4.1 of the spec. -/

/-- Modelled from the spec: an IPAM subnet of package `pkg/ipam`, which is not among
the sources. It holds the CIDR, the bounds of the range, and the counters `used`
and `available`; the free set is `[start, end]` without the addresses revoked or
allocated so far. -/
structure IPSubnet where
  cidr : Prefix
  start : Nat
  End : Nat
  revoked : List Nat
  allocated : List Nat
  used : Int
  available : Int
deriving DecidableEq, Repr

/-- Modelled from the spec: the free set of a subnet (package `pkg/ipam` is not
among the sources): the addresses of `[start, end]` neither revoked nor
allocated. -/
def IPSubnet.isFree (s : IPSubnet) (ip : Nat) : Bool :=
  decide (s.start ≤ ip) && decide (ip ≤ s.End) && !s.revoked.contains ip &&
    !s.allocated.contains ip

/-- Modelled from the spec: the state of `ipam.IPAllocator` (package `pkg/ipam` is
not among the sources), the subnets keyed by network name. -/
abbrev IPAM := String → Option IPSubnet

/-- The allocator that knows no network, `ipam.New()`. -/
def IPAM.empty : IPAM := fun _ => none

/-- Overwrite the subnet of one network. -/
def IPAM.set (a : IPAM) (name : String) (s : Option IPSubnet) : IPAM :=
  fun n => if n = name then s else a n

/-- Modelled from the spec: bound of a range given as text (package `pkg/ipam` is not
among the sources): the default when the text is empty, else the parsed address,
which must lie inside the CIDR. -/
def rangeBound (cidr : Prefix) (text : String) (dflt : Nat) : Except Error Nat :=
  if text = "" then .ok dflt
  else match parseAddr text with
    | .error msg => .error (Errorf ("ParseAddr(\"" ++ text ++ "\"): " ++ msg))
    | .ok ip =>
      if cidr.Contains ip then .ok ip
      else .error (Errorf ("ip " ++ text ++ " is not within subnet"))

/-- Modelled from the spec: `new_subnet(name, cidr, start, end)` of package
`pkg/ipam`, which is not among the sources. It fails if `name` already exists, if
`cidr` is malformed, or if `start` or `end` is outside `cidr`; an empty `start` is
`network + 1`, an empty `end` is `broadcast - 1`; the free set becomes
`[start, end]` with `used = 0` and `available = end - start + 1`. -/
def IPAM.NewIPSubnet (a : IPAM) (name cidr start End : String) : Except Error IPAM :=
  match a name with
  | some _ => .error (Errorf ("network " ++ name ++ " already exists"))
  | none =>
    match parseCIDR cidr with
    | .error msg => .error (Errorf msg)
    | .ok pfx =>
      match rangeBound pfx start (pfx.networkIP + 1) with
      | .error err => .error err
      | .ok lo =>
        match rangeBound pfx End (pfx.broadcastIP - 1) with
        | .error err => .error err
        | .ok hi =>
          .ok (a.set name (some
            { cidr := pfx, start := lo, End := hi, revoked := [], allocated := [],
              used := 0, available := (hi : Int) - lo + 1 }))

/-- Modelled from the spec: `revoke(name, ip)` of package `pkg/ipam`, which is not
among the sources: the address leaves the free set without being marked used, and
`available` is decremented. It fails for an unknown network and for text that is
not an address. -/
def IPAM.RevokeIP (a : IPAM) (name ip : String) : Except Error IPAM :=
  match a name with
  | none => .error (Errorf ("network " ++ name ++ " does not exist"))
  | some s =>
    match parseAddr ip with
    | .error msg => .error (Errorf ("ParseAddr(\"" ++ ip ++ "\"): " ++ msg))
    | .ok addr =>
      .ok (a.set name (some { s with revoked := addr :: s.revoked, available := s.available - 1 }))

/-- Modelled from the spec: `allocate(name, ip)` of package `pkg/ipam`, which is not
among the sources. It fails if `ip` is outside `[start, end]` or already allocated
(and for an unknown network or text that is not an address); otherwise the
address is marked used, `used` is incremented and `available` decremented. -/
def IPAM.AllocateIP (a : IPAM) (name ip : String) : Except Error IPAM :=
  match a name with
  | none => .error (Errorf ("network " ++ name ++ " does not exist"))
  | some s =>
    match parseAddr ip with
    | .error msg => .error (Errorf ("ParseAddr(\"" ++ ip ++ "\"): " ++ msg))
    | .ok addr =>
      if addr < s.start ∨ s.End < addr then
        .error (Errorf ("ip " ++ ip ++ " is out of range of network " ++ name))
      else if addr ∈ s.allocated then
        .error (Errorf ("ip " ++ ip ++ " is already allocated in network " ++ name))
      else
        .ok (a.set name (some
          { s with allocated := addr :: s.allocated, used := s.used + 1,
                   available := s.available - 1 }))

/-- Modelled from the spec: `delete_subnet(name)` of package `pkg/ipam`, which is not
among the sources: all state of the network is dropped. -/
def IPAM.DeleteIPSubnet (a : IPAM) (name : String) : IPAM := a.set name none

/-- Modelled from the spec: the queries `is_initialized`, `used` and `available` of
package `pkg/ipam`, which is not among the sources, on a given state; `used` and
`available` fail for a network without subnet. -/
def IPAM.queries (a : IPAM) : IPAllocator :=
  { IsNetworkInitialized := fun name => (a name).isSome,
    GetUsed := fun name =>
      match a name with
      | some s => .ok s.used
      | none => .error (Errorf ("network " ++ name ++ " does not exist")),
    GetAvailable := fun name =>
      match a name with
      | some s => .ok s.available
      | none => .error (Errorf ("network " ++ name ++ " does not exist")) }

/-! ## BuildCache -/

/-- Method `Cond.IsTrue` on a pool: the status of the first condition of that type
is `"True"`. -/
def Cond.IsTrue (c : String) (obj : IPPool) : Bool :=
  match findCond obj.Status.Conditions c with
  | some cond => cond.Status == "True"
  | none => false

/-- What one call of `BuildCache` did: the allocator state it leaves, the names
it handed to `cacheAllocator.NewMACIPMap`, the status and the error it returned. -/
structure BuildCacheResult where
  ipam : IPAM
  newMaps : List String
  status : IPPoolStatus
  err : Option Error

/-- Lines 302-307 of `BuildCache`: revoke the excluded addresses in order, stopping
at the first error; the revocations made before it stay. -/
def revokeExcluded (a : IPAM) (name : String) : List IPv4Addr → IPAM × Option Error
  | [] => (a, none)
  | ip :: rest =>
    match a.RevokeIP name ip.String with
    | .error err => (a, some err)
    | .ok a => revokeExcluded a name rest

/-- Lines 312-320 of `BuildCache`: allocate again every entry that is not marked
EXCLUDED, in the order the entries are visited, stopping at the first error. -/
def allocateRecorded (a : IPAM) (name : String) : List (String × String) → IPAM × Option Error
  | [] => (a, none)
  | (ip, mac) :: rest =>
    if mac = ExcludedMark then allocateRecorded a name rest
    else
      match a.AllocateIP name ip with
      | .error err => (a, some err)
      | .ok a => allocateRecorded a name rest

/-- The entries of `status.ipv4.allocated` as `BuildCache` visits them: none when the
ipv4 status or the map is nil, else the given order of visit (Go leaves the order
of `range` over a map open). -/
def visitedEntries (ipPool : IPPool) (order : List (String × String)) : List (String × String) :=
  match ipPool.Status.IPv4 with
  | none => []
  | some s =>
    match s.Allocated with
    | none => []
    | some _ => order

/-- Handler `BuildCache`, run on the allocator state `a`; `order` is the order in
which `range` visits the entries of `status.ipv4.allocated`. -/
def Handler.BuildCache (h : Handler) (a : IPAM) (order : List (String × String))
    (ipPool : IPPool) (status : IPPoolStatus) : BuildCacheResult :=
  if Cond.IsTrue CacheReady ipPool then
    { ipam := a, newMaps := [], status := status, err := none }
  else
    match a.NewIPSubnet ipPool.Spec.NetworkName ipPool.Spec.IPv4Config.CIDR
        ipPool.Spec.IPv4Config.Pool.Start ipPool.Spec.IPv4Config.Pool.End with
    | .error err => { ipam := a, newMaps := [], status := status, err := some err }
    | .ok a =>
      match revokeExcluded a ipPool.Spec.NetworkName ipPool.Spec.IPv4Config.Pool.Exclude with
      | (a, some err) => { ipam := a, newMaps := [], status := status, err := some err }
      | (a, none) =>
        match allocateRecorded a ipPool.Spec.NetworkName (visitedEntries ipPool order) with
        | (a, some err) => { ipam := a, newMaps := [], status := status, err := some err }
        | (a, none) =>
          match h.cacheAllocator.NewMACIPMap ipPool.Spec.NetworkName with
          | some err =>
            { ipam := a, newMaps := [ipPool.Spec.NetworkName], status := status, err := some err }
          | none =>
            { ipam := a, newMaps := [ipPool.Spec.NetworkName], status := status, err := none }

/-! ## MonitorAgent -/

/-- Condition type `corev1.PodReady`. -/
def PodReady : String := "Ready"

/-- Function `isPodReady`: the status of the first condition of type `Ready`. -/
def isPodReady (pod : Pod) : Bool :=
  match pod.Status.Conditions.find? (fun c => c.Type' == PodReady) with
  | some c => c.Status == "True"
  | none => false

/-- What one call of `MonitorAgent` did: the workloads it looked up in the pod cache
by namespace and name, the status and the error it returned. -/
structure MonitorAgentResult where
  inspected : List (String × String)
  status : IPPoolStatus
  err : Option Error

/-- Handler `MonitorAgent`. -/
def Handler.MonitorAgent (h : Handler) (ipPool : IPPool) (status : IPPoolStatus) :
    MonitorAgentResult :=
  if h.noAgent then { inspected := [], status := status, err := none }
  else
    match ipPool.Status.AgentPodRef with
    | none =>
      { inspected := [], status := status,
        err := some (Errorf ("agent for ippool " ++ ipPool.ObjectMeta.Namespace ++ "/"
          ++ ipPool.ObjectMeta.Name ++ " is not deployed")) }
    | some ref =>
      match h.podCache.Get ref.Namespace ref.Name with
      | .error err =>
        { inspected := [(ref.Namespace, ref.Name)], status := status, err := some err }
      | .ok agentPod =>
        if !isPodReady agentPod then
          { inspected := [(ref.Namespace, ref.Name)], status := status,
            err := some (Errorf ("agent for ippool " ++ agentPod.ObjectMeta.Namespace ++ "/"
              ++ agentPod.ObjectMeta.Name ++ " is not ready")) }
        else { inspected := [(ref.Namespace, ref.Name)], status := status, err := none }

/-! ## OnRemove -/

/-- What one call of `OnRemove` did: the allocator state it leaves, the workloads
it asked `podClient.Delete` to delete, and the pair it returned. -/
structure OnRemoveResult where
  ipam : IPAM
  deleted : List (String × String)
  ret : Option IPPool × Option Error

/-- Handler `OnRemove`, run on the allocator state `a`. The key is only logged. -/
def Handler.OnRemove (h : Handler) (a : IPAM) (_key : String) (ipPool : Option IPPool) :
    OnRemoveResult :=
  match ipPool with
  | none => { ipam := a, deleted := [], ret := (none, none) }
  | some ipPool =>
    if h.noAgent then { ipam := a, deleted := [], ret := (some ipPool, none) }
    else
      match ipPool.Status.AgentPodRef with
      | none => { ipam := a, deleted := [], ret := (some ipPool, none) }
      | some ref =>
        match h.podClient.Delete ref.Namespace ref.Name with
        | some err =>
          { ipam := a, deleted := [(ref.Namespace, ref.Name)], ret := (none, some err) }
        | none =>
          { ipam := a.DeleteIPSubnet ipPool.Spec.NetworkName,
            deleted := [(ref.Namespace, ref.Name)], ret := (some ipPool, none) }

/-! ## The agent workload of `pkg/controller/ippool/common.go` -/

/-- Function `prepareAgentPod` of `common.go`. It drops the errors of `json.Marshal`
(the text is then empty) and of `net.ParseCIDR`; after a failed `ParseCIDR` the
network is nil and reading its mask panics, which is the result `none`. -/
def prepareAgentPod (rt : Runtime) (ipPool : IPPool) (noDHCP : Bool) (agentNamespace : String)
    (clusterNetwork : String) (agentServiceAccountName : String) (agentImage : Image) :
    Option Pod :=
  let name := ipPool.ObjectMeta.Namespace ++ "-" ++ ipPool.ObjectMeta.Name ++ "-agent"
  let nad := RSplit ipPool.Spec.NetworkName
  let networks : List Network := [{ Namespace := nad.1, Name := nad.2, InterfaceName := "eth1" }]
  let networksStr :=
    match rt.Marshal networks with
    | .ok text => text
    | .error _ => ""
  match rt.ParseCIDR ipPool.Spec.IPv4Config.CIDR with
  | .error _ => none
  | .ok ipNet =>
    let prefixLength := (IPMaskSize ipNet.Mask).1
    let args := ["--ippool-ref", ipPool.ObjectMeta.Namespace ++ "/" ++ ipPool.ObjectMeta.Name]
    let args := if noDHCP then args ++ ["--dry-run"] else args
    let securityContext : SecurityContext :=
      { RunAsUser := some runAsUserID, RunAsGroup := some runAsGroupID,
        Capabilities := some { Add := ["NET_ADMIN"] } }
    some
      { ObjectMeta :=
          { Annotations := some ((∅ : StringMap).insert multusNetworksAnnotationKey networksStr),
            Labels := some ((((∅ : StringMap).insert vmDHCPControllerLabelKey "agent").insert
              ipPoolNamespaceLabelKey ipPool.ObjectMeta.Namespace).insert
              ipPoolNameLabelKey ipPool.ObjectMeta.Name),
            Name := name,
            Namespace := agentNamespace,
            DeletionTimestamp := none },
        Spec :=
          { Affinity := some { NodeAffinity := some {
              RequiredDuringSchedulingIgnoredDuringExecution := some {
                NodeSelectorTerms := [{ MatchExpressions := [{
                  Key := GroupName ++ "/" ++ clusterNetwork,
                  Operator := "In",
                  Values := ["true"] }] }] } } },
            ServiceAccountName := agentServiceAccountName,
            InitContainers := [{
              Name := "ip-setter",
              Image := "busybox",
              Command := ["/bin/sh", "-c",
                setIPAddrScript ipPool.Spec.IPv4Config.ServerIP prefixLength],
              Args := [],
              Env := [],
              SecurityContext := some securityContext,
              LivenessProbe := none,
              ReadinessProbe := none }],
            Containers := [{
              Name := "agent",
              Image := agentImage.String,
              Command := [],
              Args := args,
              Env := [{ Name := "VM_DHCP_AGENT_NAME", Value := name }],
              SecurityContext := some securityContext,
              LivenessProbe := some { ProbeHandler := { HTTPGet := some {
                Path := "/healthz", Port := IntOrString.FromInt 8080 } } },
              ReadinessProbe := some { ProbeHandler := { HTTPGet := some {
                Path := "/readyz", Port := IntOrString.FromInt 8080 } } } }] },
        Status := { Conditions := [] } }

/-! ## The event fan-out of `Register` -/

/-- Key `relatedresource.Key`. -/
structure Key where
  Namespace : String
  Name : String
deriving DecidableEq, Repr

/-- The label set of the `ippool-trigger` watch (lines 126-128). -/
def agentLabelSet : StringMap :=
  (∅ : StringMap).insert "network.harvesterhci.io/vm-dhcp-controller" "agent"

/-- A label set used as selector (`labels.Set.AsSelector`) matches the labels of an
object when every label of the set is among them with the same value. -/
def SelectorMatches (set : StringMap) (labels : Option StringMap) : Prop :=
  ∀ k ∈ set.keys, lookupIn labels k = set.lookup k

/-- Go `m[k]` on a map that may be nil: the empty string for a missing key. -/
def labelValue (labels : Option StringMap) (k : String) : String :=
  (lookupIn labels k).getD ""

/-- The key the watch derives from one workload (lines 134-137). -/
def keyOfPod (pod : Pod) : Key :=
  { Namespace := labelValue pod.ObjectMeta.Labels ipPoolNamespaceLabelKey,
    Name := labelValue pod.ObjectMeta.Labels ipPoolNameLabelKey }

/-- The resolver of the `ippool-trigger` watch (lines 124-141): one key for every
agent workload the pod cache lists in the namespace. The name and the object
of the event are not used. -/
def Handler.trigger (h : Handler) (ns : String) (_name : String) : Except Error (List Key) :=
  match h.podCache.List ns agentLabelSet with
  | .error err => .error err
  | .ok pods => .ok (pods.map keyOfPod)

/-! ## The validator

File `pkg/webhook/ippool/validator.go` is not among the sources; only its tests
are. The checks follow section 4.3 of the spec, the messages the tests. -/

/-- Modelled from the spec: the validator of `pkg/webhook/ippool/validator.go`, which
is not among the sources. It holds the cache of network-attachment records. -/
structure Validator where
  nadCache : NADCache

/-- Modelled from the spec: the error template of the validator
(`pkg/webhook/ippool/validator.go` is not among the sources),
`could not create IPPool <ns>/<name> because <cause>`. -/
def createErr (ipPool : IPPool) (cause : String) : Error :=
  Errorf ("could not create IPPool " ++ ipPool.ObjectMeta.Namespace ++ "/"
    ++ ipPool.ObjectMeta.Name ++ " because " ++ cause)

/-- Modelled from the spec: check 3 of the validator on one field
(`pkg/webhook/ippool/validator.go` is not among the sources). A non-empty text must
parse as an address, lie inside the CIDR, and differ from the network and the
broadcast address; the result is the cause of the rejection, if any. `field` is
the name of the field in the messages and `same` the wording the tests pin
(`cannot be the same as` for the server address, `is the same as` for the others). -/
def checkAddress (cidr : Prefix) (field same text : String) : Option String :=
  if text = "" then none
  else
    match parseAddr text with
    | .error msg => some ("ParseAddr(\"" ++ text ++ "\"): " ++ msg)
    | .ok ip =>
      if !cidr.Contains ip then some (field ++ " " ++ text ++ " is not within subnet")
      else if ip = cidr.networkIP then some (field ++ " " ++ text ++ " " ++ same ++ " network ip")
      else if ip = cidr.broadcastIP then
        some (field ++ " " ++ text ++ " " ++ same ++ " broadcast ip")
      else none

/-- Modelled from the spec: checks 3 to 5 of the validator on a pool whose CIDR
parsed (`pkg/webhook/ippool/validator.go` is not among the sources): the four
addresses in the order server, router, start, end; server and router differ; on
update a changed server address is not held by a client in
`status.ipv4.allocated`. The result is the cause of the rejection, if any. -/
def checkAddresses (cidr : Prefix) (ipPool : IPPool) (old : Option IPPool) : Option String :=
  let c := ipPool.Spec.IPv4Config
  match checkAddress cidr "server ip" "cannot be the same as" c.ServerIP with
  | some cause => some cause
  | none =>
    match checkAddress cidr "router ip" "is the same as" c.Router with
    | some cause => some cause
    | none =>
      match checkAddress cidr "start ip" "is the same as" c.Pool.Start with
      | some cause => some cause
      | none =>
        match checkAddress cidr "end ip" "is the same as" c.Pool.End with
        | some cause => some cause
        | none =>
          if c.ServerIP ≠ "" ∧ c.ServerIP = c.Router then
            some ("server ip " ++ c.ServerIP ++ " cannot be the same as router ip")
          else
            match old with
            | none => none
            | some old =>
              if old.Spec.IPv4Config.ServerIP ≠ c.ServerIP then
                match ipPool.allocatedAt c.ServerIP with
                | some mac =>
                  if mac ≠ ExcludedMark then
                    some ("server ip " ++ c.ServerIP ++ " is already allocated")
                  else none
                | none => none
              else none

/-- Modelled from the spec: the checks of the validator in order
(`pkg/webhook/ippool/validator.go` is not among the sources): the network name
resolves to a network-attachment record, the CIDR parses, then checks 3 to 5.
`old` is the prior version on update. The result is the rejection, if any. -/
def Validator.check (v : Validator) (ipPool : IPPool) (old : Option IPPool) : Option Error :=
  match v.nadCache.Get (RSplit ipPool.Spec.NetworkName).1 (RSplit ipPool.Spec.NetworkName).2 with
  | .error err => some (createErr ipPool err.message)
  | .ok _ =>
    match parseCIDR ipPool.Spec.IPv4Config.CIDR with
    | .error msg => some (createErr ipPool msg)
    | .ok cidr =>
      match checkAddresses cidr ipPool old with
      | some cause => some (createErr ipPool cause)
      | none => none

/-- Modelled from the spec: the validator on create
(`pkg/webhook/ippool/validator.go` is not among the sources). -/
def Validator.Create (v : Validator) (ipPool : IPPool) : Option Error := v.check ipPool none

/-- Modelled from the spec: the validator on update
(`pkg/webhook/ippool/validator.go` is not among the sources). -/
def Validator.Update (v : Validator) (oldIPPool newIPPool : IPPool) : Option Error :=
  v.check newIPPool (some oldIPPool)

/-! ## Notions used in the statements -/

/-- The arguments of the agent container (lines 381-387 of `controller.go`, lines
44-50 of `common.go`). -/
def agentArgs (p : IPPool) (noDHCP : Bool) : List String :=
  if noDHCP then ["--ippool-ref", p.ObjectMeta.Namespace ++ "/" ++ p.ObjectMeta.Name, "--dry-run"]
  else ["--ippool-ref", p.ObjectMeta.Namespace ++ "/" ++ p.ObjectMeta.Name]

/-- The four addresses of a pool that check 3 of the validator reads. -/
def checkedAddresses (p : IPPool) : List String :=
  [p.Spec.IPv4Config.ServerIP, p.Spec.IPv4Config.Router, p.Spec.IPv4Config.Pool.Start,
    p.Spec.IPv4Config.Pool.End]

/-- The visit `order` lists every entry of the map once: as a multiset it is the
entry set of the map. -/
def Enumerates (order : List (String × String)) (m : StringMap) : Prop :=
  (Multiset.ofList (order.map fun e => (⟨e.1, e.2⟩ : Sigma fun _ : String => String))) = m.entries

/-- The number of entries of `status.ipv4.allocated` that are not marked EXCLUDED. -/
def nonExcludedCount (p : IPPool) : Nat :=
  match p.Status.IPv4 with
  | none => 0
  | some s =>
    match s.Allocated with
    | none => 0
    | some m => Multiset.card (m.entries.filter fun e => e.2 ≠ ExcludedMark)

/-! ## The pod builder of `pkg/controller/ippool/common.go` -/

/-- Builder `podBuilder`: the pod under construction. -/
structure podBuilder where
  pod : Pod
deriving DecidableEq

/-- Function `newPodBuilder`. -/
def newPodBuilder (ns name : String) : podBuilder :=
  { pod :=
      { ObjectMeta := { Name := name, Namespace := ns, Labels := none, Annotations := none,
                        DeletionTimestamp := none },
        Spec := { Affinity := none, ServiceAccountName := "", InitContainers := [],
                  Containers := [] },
        Status := { Conditions := [] } } }

/-- The loop of `PodReady` (lines 356-361): the first condition of type `Ready` gets
the status `ConditionTrue`, then the loop breaks. -/
def setFirstReady : List PodCondition → List PodCondition
  | [] => []
  | c :: cs => if c.Type' == PodReady then { c with Status := "True" } :: cs else c :: setFirstReady cs

/-- Method `podBuilder.PodReady`. The argument `ready` is not read, and `found` keeps
its zero value `false`, so the condition is appended on every call. -/
def podBuilder.PodReady (b : podBuilder) (_ready : String) : podBuilder :=
  let found := false
  let conditions := setFirstReady b.pod.Status.Conditions
  let conditions :=
    if !found then conditions ++ [{ Type' := ippool.PodReady, Status := "True" }] else conditions
  { pod := { b.pod with Status := { Conditions := conditions } } }

/-- Method `podBuilder.Build`. -/
def podBuilder.Build (b : podBuilder) : Pod := b.pod

/-- The conditions of type `Ready` of a pod. -/
def readyConditions (pod : Pod) : List PodCondition :=
  pod.Status.Conditions.filter fun c => c.Type' == PodReady

/-! ## Errors of the attachment cache -/

/-- The error `apierrors.NewNotFound` builds for a network-attachment record whose
name needs no escaping when quoted. -/
def nadNotFound (name : String) : Error :=
  { reason := "NotFound",
    message := "network-attachment-definitions.k8s.cni.cncf.io \"" ++ name ++ "\" not found" }

/-! ## Example values

The pool of the spec's first scenario and collaborators for it. -/

def examplePool : IPPool :=
  { ObjectMeta :=
      { Name := "net-1", Namespace := "default", Labels := none, Annotations := none,
        DeletionTimestamp := none },
    Spec :=
      { IPv4Config :=
          { ServerIP := "192.168.0.2", CIDR := "192.168.0.0/24",
            Pool := { Start := "192.168.0.10", End := "192.168.0.20",
                      Exclude := [{ text := "192.168.0.15" }] },
            Router := "" },
        NetworkName := "default/net-1",
        Paused := none },
    Status := { LastUpdate := 0, IPv4 := none, AgentPodRef := none, Conditions := [] } }

/-- An allocator given by a table of subnets with their `used` and `available`
counters; the queries fail for a name outside the table. -/
def tableAllocator (subnets : List (String × Int × Int)) : IPAllocator :=
  { IsNetworkInitialized := fun name => (subnets.lookup name).isSome,
    GetUsed := fun name =>
      match subnets.lookup name with
      | some c => .ok c.1
      | none => .error (Errorf ("network " ++ name ++ " does not exist")),
    GetAvailable := fun name =>
      match subnets.lookup name with
      | some c => .ok c.2
      | none => .error (Errorf ("network " ++ name ++ " does not exist")) }

/-- A pool client whose `UpdateStatus` succeeds and returns the object it is given. -/
def echoClient : IPPoolClient := { UpdateStatus := fun p => (some p, none) }

/-- A pod client whose `Create` succeeds and returns the object it is given. -/
def acceptingPodClient : PodClient :=
  { Create := fun pod => .ok pod, Delete := fun _ _ => none }

/-- A pod client whose `Create` always reports that the workload exists. -/
def existingPodClient : PodClient :=
  { Create := fun pod =>
      .error { reason := StatusReasonAlreadyExists,
               message := "pods \"" ++ pod.ObjectMeta.Name ++ "\" already exists" },
    Delete := fun _ _ => none }

/-- A pod client whose `Create` always fails for another reason. -/
def failingPodClient : PodClient :=
  { Create := fun _ => .error { reason := "InternalError", message := "etcd unavailable" },
    Delete := fun _ _ => some { reason := "InternalError", message := "etcd unavailable" } }

/-- The attachment `default/net-1` with the cluster-network label `mgmt`. -/
def exampleNAD : NetworkAttachmentDefinition :=
  { ObjectMeta :=
      { Name := "net-1", Namespace := "default",
        Labels := some ((∅ : StringMap).insert clusterNetworkLabelKey "mgmt"),
        Annotations := none, DeletionTimestamp := none } }

/-- The attachment `default/net-1` without any label. -/
def unlabelledNAD : NetworkAttachmentDefinition :=
  { ObjectMeta :=
      { Name := "net-1", Namespace := "default", Labels := none, Annotations := none,
        DeletionTimestamp := none } }

/-- A cache holding one attachment under `default/net-1`. -/
def singleNADCache (nad : NetworkAttachmentDefinition) : NADCache :=
  { Get := fun ns name =>
      if ns = "default" ∧ name = "net-1" then .ok nad
      else .error { reason := "NotFound",
                    message := "network-attachment-definitions.k8s.cni.cncf.io \"" ++ name
                      ++ "\" not found" } }

/-- Clock readings and the two library calls on the texts of the example:
`net.ParseCIDR("192.168.0.0/24")` and `json.Marshal` of a networks list whose
strings need no escaping. -/
def exampleRuntime : Runtime :=
  { Now := 1700000000,
    stamp := "2023-11-14T22:13:20Z",
    ParseCIDR := fun s =>
      if s = "192.168.0.0/24" then .ok { IP := [192, 168, 0, 0], Mask := [255, 255, 255, 0] }
      else .error (Errorf ("invalid CIDR address: " ++ s)),
    Marshal := fun networks =>
      .ok ("[" ++ ",".intercalate (networks.map fun n =>
        "\x7b\"namespace\":\"" ++ n.Namespace ++ "\",\"name\":\"" ++ n.Name
          ++ "\",\"interface\":\"" ++ n.InterfaceName ++ "\"\x7d") ++ "]") }

/-- A pod cache holding the given workloads: `Get` finds one by namespace and name,
`List` returns those of the namespace that carry every label of the set. -/
def podCacheOf (pods : List Pod) : PodCache :=
  { Get := fun ns name =>
      match pods.find? (fun pod => pod.ObjectMeta.Namespace == ns && pod.ObjectMeta.Name == name) with
      | some pod => .ok pod
      | none => .error { reason := "NotFound", message := "pods \"" ++ name ++ "\" not found" },
    List := fun ns set =>
      .ok (pods.filter fun pod =>
        pod.ObjectMeta.Namespace == ns &&
          decide (∀ k ∈ set.keys, lookupIn pod.ObjectMeta.Labels k = set.lookup k)) }

/-- A cache allocator whose `NewMACIPMap` succeeds. -/
def acceptingCacheAllocator : CacheAllocator := { NewMACIPMap := fun _ => none }

/-- A handler over the given allocator, pod client and attachment cache. -/
def exampleHandler (ipAllocator : IPAllocator) (podClient : PodClient) (nadCache : NADCache) :
    Handler :=
  { agentNamespace := "harvester-system",
    agentImage := { text := "rancher/harvester-vm-dhcp-agent:main-head" },
    agentServiceAccountName := "vm-dhcp-agent",
    noAgent := false,
    noDHCP := false,
    cacheAllocator := acceptingCacheAllocator,
    ipAllocator := ipAllocator,
    ippoolClient := echoClient,
    podClient := podClient,
    podCache := podCacheOf [],
    nadCache := nadCache,
    runtime := exampleRuntime }

/-- The handler of the examples before `BuildCache` has run: no subnet is known. -/
def uninitializedHandler : Handler :=
  exampleHandler (tableAllocator []) acceptingPodClient (singleNADCache exampleNAD)

/-- The handler of the examples once the subnet of `default/net-1` exists with
nothing used and ten addresses free. -/
def initializedHandler : Handler :=
  exampleHandler (tableAllocator [("default/net-1", 0, 10)]) acceptingPodClient
    (singleNADCache exampleNAD)

/-- An allocator that knows every network but whose counters cannot be read. -/
def unreadableAllocator : IPAllocator :=
  { IsNetworkInitialized := fun _ => true,
    GetUsed := fun _ => .error (Errorf "ipam is unavailable"),
    GetAvailable := fun _ => .error (Errorf "ipam is unavailable") }

/-- The example pool after the operator emptied `spec.ipv4.pool.exclude`: the
status still carries the mark of `192.168.0.15`, and the subnet, rebuilt without
excludes, has eleven free addresses. -/
def stalePool : IPPool :=
  { examplePool with
    Spec := { examplePool.Spec with
      IPv4Config := { examplePool.Spec.IPv4Config with
        Pool := { examplePool.Spec.IPv4Config.Pool with Exclude := [] } } },
    Status := { examplePool.Status with
      IPv4 := some { Allocated := some ((∅ : StringMap).insert "192.168.0.15" ExcludedMark),
                     Used := 0, Available := 11 } } }

/-- The handler for `stalePool`. -/
def staleHandler : Handler :=
  exampleHandler (tableAllocator [("default/net-1", 0, 11)]) acceptingPodClient
    (singleNADCache exampleNAD)

/-- The handler of the examples when the agent workload already exists. -/
def existingAgentHandler : Handler :=
  exampleHandler (tableAllocator []) existingPodClient (singleNADCache exampleNAD)

/-- The handler of the examples when workload creation fails for another reason. -/
def failingCreateHandler : Handler :=
  exampleHandler (tableAllocator []) failingPodClient (singleNADCache exampleNAD)

/-- The handler of the examples when the attachment carries no label. -/
def unlabelledHandler : Handler :=
  exampleHandler (tableAllocator []) acceptingPodClient (singleNADCache unlabelledNAD)

/-- The agent workload of the example pool on cluster network `mgmt`. -/
def exampleAgent : Pod :=
  { ObjectMeta :=
      { Name := "default-net-1-agent",
        Namespace := "harvester-system",
        Labels := some ((((∅ : StringMap).insert "network.harvesterhci.io/vm-dhcp-controller"
          "agent").insert "network.harvesterhci.io/ippool-namespace" "default").insert
          "network.harvesterhci.io/ippool-name" "net-1"),
        Annotations := some ((∅ : StringMap).insert "k8s.v1.cni.cncf.io/networks"
          "[\x7b\"namespace\":\"default\",\"name\":\"net-1\",\"interface\":\"eth1\"\x7d]"),
        DeletionTimestamp := none },
    Spec :=
      { Affinity := some { NodeAffinity := some {
          RequiredDuringSchedulingIgnoredDuringExecution := some {
            NodeSelectorTerms := [{ MatchExpressions := [{
              Key := "network.harvesterhci.io/mgmt", Operator := "In", Values := ["true"] }] }] } } },
        ServiceAccountName := "vm-dhcp-agent",
        InitContainers := [{
          Name := "ip-setter",
          Image := "busybox",
          Command := ["/bin/sh", "-c",
            "\n#!/usr/bin/env sh\nset -ex\n\nip address flush dev eth1\nip address add 192.168.0.2/24 dev eth1\n"],
          Args := [],
          Env := [],
          SecurityContext := some { RunAsUser := some 0, RunAsGroup := some 0,
                                    Capabilities := some { Add := ["NET_ADMIN"] } },
          LivenessProbe := none,
          ReadinessProbe := none }],
        Containers := [{
          Name := "agent",
          Image := "rancher/harvester-vm-dhcp-agent:main-head",
          Command := [],
          Args := ["--ippool-ref", "default/net-1"],
          Env := [{ Name := "VM_DHCP_AGENT_NAME", Value := "default-net-1-agent" }],
          SecurityContext := some { RunAsUser := some 0, RunAsGroup := some 0,
                                    Capabilities := some { Add := ["NET_ADMIN"] } },
          LivenessProbe := some { ProbeHandler := { HTTPGet := some {
            Path := "/healthz", Port := IntOrString.FromInt 8080 } } },
          ReadinessProbe := some { ProbeHandler := { HTTPGet := some {
            Path := "/readyz", Port := IntOrString.FromInt 8080 } } } }] },
    Status := { Conditions := [] } }

/-- The example pool pointed at an attachment that does not exist. -/
def orphanPool : IPPool :=
  { examplePool with Spec := { examplePool.Spec with NetworkName := "default/nonexist" } }

/-- The example pool with `spec.paused = true`. -/
def pausedPool : IPPool :=
  { examplePool with Spec := { examplePool.Spec with Paused := some true } }

/-- The agent workload of the example pool reporting `Ready=True`. -/
def readyAgent : Pod :=
  { exampleAgent with Status := { Conditions := [{ Type' := "Ready", Status := "True" }] } }

/-- The example pool once its agent is registered in the status. -/
def deployedPool : IPPool :=
  { examplePool with Status := { examplePool.Status with
      AgentPodRef := some { Namespace := "harvester-system", Name := "default-net-1-agent" } } }

/-- The paused example pool with its agent registered in the status. -/
def pausedDeployedPool : IPPool :=
  { deployedPool with Spec := { deployedPool.Spec with Paused := some true } }

/-- The handler of the examples with the ready agent in the pod cache. -/
def monitoringHandler : Handler :=
  { uninitializedHandler with podCache := podCacheOf [readyAgent] }

/-- The handler of the examples with an agent in the pod cache that is not ready. -/
def waitingHandler : Handler :=
  { uninitializedHandler with podCache := podCacheOf [exampleAgent] }

/-- The example pool with the condition `CacheReady=True`. -/
def cacheReadyPool : IPPool :=
  { examplePool with Status := { examplePool.Status with
      Conditions := [{ Type' := "CacheReady", Status := "True", LastUpdateTime := "",
                       LastTransitionTime := "", Reason := "", Message := "" }] } }

/-- The allocator state with the subnet of the example pool: range
`192.168.0.10` to `192.168.0.20`, nothing revoked or allocated. -/
def exampleIPAM : IPAM :=
  IPAM.empty.set "default/net-1" (some
    { cidr := { addr := 3232235520, bits := 24 }, start := 3232235530, End := 3232235540,
      revoked := [], allocated := [], used := 0, available := 11 })

/-- A pod client whose `Delete` reports that the workload does not exist. -/
def missingPodClient : PodClient :=
  { Create := fun pod => .ok pod,
    Delete := fun _ name =>
      some { reason := "NotFound", message := "pods \"" ++ name ++ "\" not found" } }

/-- The handler of the examples when the agent workload is gone. -/
def missingAgentHandler : Handler :=
  { uninitializedHandler with podClient := missingPodClient }

/-- A pool `default/net-1` on network `default/net-1` with the given CIDR, server
address, router and range, as the validator tests build it. -/
def testPool (cidr serverIP router startIP endIP : String) : IPPool :=
  { ObjectMeta := examplePool.ObjectMeta,
    Spec :=
      { IPv4Config :=
          { ServerIP := serverIP, CIDR := cidr,
            Pool := { Start := startIP, End := endIP, Exclude := [] },
            Router := router },
        NetworkName := "default/net-1",
        Paused := none },
    Status := examplePool.Status }

/-- The validator of the tests: its cache holds the attachment `default/net-1`. -/
def testValidator : Validator := { nadCache := singleNADCache unlabelledNAD }

/-- The agent workload of the example pool under `no_dhcp`. -/
def dryRunAgent : Pod :=
  { exampleAgent with Spec := { exampleAgent.Spec with
      Containers := exampleAgent.Spec.Containers.map fun c =>
        { c with Args := ["--ippool-ref", "default/net-1", "--dry-run"] } } }

/-- The pool of the spec's rehydration scenario: the example pool with
`192.168.0.11` held by a client and `192.168.0.15` marked EXCLUDED. -/
def rehydratedPool : IPPool :=
  { examplePool with Status := { examplePool.Status with
      IPv4 := some
        { Allocated := some (((∅ : StringMap).insert "192.168.0.11" "AA:BB:CC:DD:EE:01").insert
            "192.168.0.15" ExcludedMark),
          Used := 1, Available := 9 } } }

/-- A cache allocator whose `NewMACIPMap` fails. -/
def failingCacheAllocator : CacheAllocator :=
  { NewMACIPMap := fun name => some (Errorf ("could not create cache for " ++ name)) }

/-- The handler of the examples when the cache namespace cannot be created. -/
def failingCacheHandler : Handler :=
  { uninitializedHandler with cacheAllocator := failingCacheAllocator }

/-- The example pool whose status records a lease outside the range,
`192.168.0.50`. -/
def strayLeasePool : IPPool :=
  { examplePool with Status := { examplePool.Status with
      IPv4 := some
        { Allocated := some ((∅ : StringMap).insert "192.168.0.50" "AA:BB:CC:DD:EE:02"),
          Used := 1, Available := 9 } } }

/-- The pool of the update test: `192.168.0.0/24`, the given server address, and
`192.168.0.100` held by the client `11:22:33:44:55:66`. -/
def leasedPool (serverIP : String) : IPPool :=
  { testPool "192.168.0.0/24" serverIP "" "" "" with
    Status := { examplePool.Status with
      IPv4 := some
        { Allocated := some ((∅ : StringMap).insert "192.168.0.100" "11:22:33:44:55:66"),
          Used := 1, Available := 0 } } }

/-- A pool of the update test whose status records a lease of `192.168.100.2`, an
address outside `192.168.0.0/24`. -/
def outsideLeasePool (serverIP : String) : IPPool :=
  { testPool "192.168.0.0/24" serverIP "" "" "" with
    Status := { examplePool.Status with
      IPv4 := some
        { Allocated := some ((∅ : StringMap).insert "192.168.100.2" "11:22:33:44:55:66"),
          Used := 1, Available := 0 } } }

/-- The pool of the tests on the given network name. -/
def poolOnNetwork (networkName : String) : IPPool :=
  { testPool "192.168.0.0/24" "" "" "" "" with
    Spec := { (testPool "192.168.0.0/24" "" "" "" "").Spec with NetworkName := networkName } }

/-- An allocator that reports no network as initialized and yet answers the two
counter queries, with `used = 3` and `available = 7`. -/
def answeringAllocator : IPAllocator :=
  { IsNetworkInitialized := fun _ => false,
    GetUsed := fun _ => .ok 3,
    GetAvailable := fun _ => .ok 7 }

/-- The handler of the examples over `answeringAllocator`. -/
def answeringHandler : Handler :=
  exampleHandler answeringAllocator acceptingPodClient (singleNADCache exampleNAD)

/-- The example pool once a first pass of `OnChange` has recorded
`CacheReady=False`, reason `NotInitialized`, on it. -/
def notInitializedPool : IPPool :=
  { examplePool with Status := { examplePool.Status with
      Conditions := [{ Type' := "CacheReady", Status := "False",
                       LastUpdateTime := "2023-11-14T22:13:20Z", LastTransitionTime := "",
                       Reason := "NotInitialized", Message := "" }] } }

/-- The agent workload of the example pool, scheduled but reporting `Ready=False`. -/
def unreadyAgent : Pod :=
  { exampleAgent with Status := { Conditions :=
      [{ Type' := "PodScheduled", Status := "True" }, { Type' := "Ready", Status := "False" }] } }

/-- The agent workload of the example pool with the condition `PodScheduled=True`
only. -/
def scheduledAgent : Pod :=
  { exampleAgent with Status := { Conditions := [{ Type' := "PodScheduled", Status := "True" }] } }

/-- The handler of the examples with the agent reporting `Ready=False` in the pod
cache. -/
def unreadyHandler : Handler :=
  { uninitializedHandler with podCache := podCacheOf [unreadyAgent] }

/-- The handler of the examples with the agent that is scheduled only in the pod
cache. -/
def scheduledHandler : Handler :=
  { uninitializedHandler with podCache := podCacheOf [scheduledAgent] }

/-- A workload of the agent namespace that is no agent: it carries the label
`k8s-app=kube-dns` only. -/
def corednsPod : Pod :=
  { exampleAgent with
    ObjectMeta := { exampleAgent.ObjectMeta with
      Name := "coredns",
      Labels := some ((∅ : StringMap).insert "k8s-app" "kube-dns") } }

/-- The handler of the examples with `corednsPod` and the example agent in the pod
cache. -/
def mixedCacheHandler : Handler :=
  { uninitializedHandler with podCache := podCacheOf [corednsPod, exampleAgent] }

/-! ## Lemmas on maps -/

theorem StringMap.len_eq_zero (m : StringMap) : m.len = 0 ↔ m = ∅ := by
  unfold StringMap.len
  rw [Finset.card_eq_zero]
  constructor
  · intro hk
    apply Finmap.ext_lookup
    intro x
    have hx : x ∉ m := by
      rw [← Finmap.mem_keys, hk]
      exact Finset.not_mem_empty x
    rw [Finmap.lookup_empty]
    exact Finmap.lookup_eq_none.2 hx
  · intro hm
    rw [hm]
    exact Finmap.keys_empty

theorem lookup_foldl_mark (exclude : List IPv4Addr) (m : StringMap) (k : String) :
    (exclude.foldl (fun m v => m.insert v.String ExcludedMark) m).lookup k =
      if k ∈ exclude.map IPv4Addr.String then some ExcludedMark else m.lookup k := by
  induction exclude generalizing m with
  | nil => simp
  | cons v vs ih =>
    rw [List.foldl_cons, ih]
    by_cases hk : k ∈ vs.map IPv4Addr.String
    · simp [hk]
    · by_cases hv : k = v.String
      · subst hv
        simp [hk, Finmap.lookup_insert]
      · have hne : ¬ (k = v.String ∨ k ∈ vs.map IPv4Addr.String) := by
          rintro (h | h)
          · exact hv h
          · exact hk h
        rw [if_neg hk, Finmap.lookup_insert_of_ne _ hv]
        simp only [List.map_cons, List.mem_cons]
        rw [if_neg hne]

theorem lookupIn_markExcluded (exclude : List IPv4Addr) (a : Option StringMap) (k : String) :
    lookupIn (markExcluded exclude a) k =
      if k ∈ exclude.map IPv4Addr.String then some ExcludedMark else lookupIn a k := by
  have hget : (a.getD ∅ : StringMap).lookup k = lookupIn a k := by
    cases a with
    | none => simp [lookupIn, Finmap.lookup_empty]
    | some m => simp [lookupIn]
  unfold markExcluded
  by_cases hz :
      (exclude.foldl (fun m v => m.insert v.String ExcludedMark) (a.getD ∅)).len = 0
  · simp only [hz, if_true]
    have hm := (StringMap.len_eq_zero _).1 hz
    have hl := lookup_foldl_mark exclude (a.getD ∅) k
    rw [hm, Finmap.lookup_empty, hget] at hl
    simpa [lookupIn] using hl
  · simp only [hz, if_false]
    have hl := lookup_foldl_mark exclude (a.getD ∅) k
    rw [hget] at hl
    simpa [lookupIn] using hl

theorem markExcluded_normal (exclude : List IPv4Addr) (a : Option StringMap) :
    NormalMap (markExcluded exclude a) := by
  intro m hm hempty
  unfold markExcluded at hm
  by_cases hz :
      (exclude.foldl (fun m v => m.insert v.String ExcludedMark) (a.getD ∅)).len = 0
  · simp [hz] at hm
  · simp only [hz, if_false, Option.some.injEq] at hm
    apply hz
    rw [hm, hempty]
    exact (StringMap.len_eq_zero _).2 rfl

theorem NormalMap.ext {a b : Option StringMap} (ha : NormalMap a) (hb : NormalMap b)
    (h : ∀ k, lookupIn a k = lookupIn b k) : a = b := by
  cases a with
  | none =>
    cases b with
    | none => rfl
    | some m =>
      exfalso
      apply hb m rfl
      apply Finmap.ext_lookup
      intro x
      have := h x
      simpa [lookupIn, Finmap.lookup_empty] using this.symm
  | some m =>
    cases b with
    | none =>
      exfalso
      apply ha m rfl
      apply Finmap.ext_lookup
      intro x
      have := h x
      simpa [lookupIn, Finmap.lookup_empty] using this
    | some m' =>
      congr 1
      apply Finmap.ext_lookup
      intro x
      have := h x
      simpa [lookupIn] using this

theorem markExcluded_idem (exclude : List IPv4Addr) (a : Option StringMap) :
    markExcluded exclude (markExcluded exclude a) = markExcluded exclude a := by
  apply NormalMap.ext (markExcluded_normal _ _) (markExcluded_normal _ _)
  intro k
  rw [lookupIn_markExcluded, lookupIn_markExcluded]
  by_cases hk : k ∈ exclude.map IPv4Addr.String
  · simp [hk]
  · simp [hk]

/-! ## Lemmas on conditions -/

theorem findCond_isSome_findOrCreateCond (cs : List Condition) (n : String) :
    (findCond (findOrCreateCond cs n) n).isSome = true := by
  unfold findOrCreateCond
  cases h : findCond cs n with
  | some c => simp [h]
  | none =>
    simp only [findCond] at h ⊢
    simp [List.find?_append, h]

theorem findOrCreateCond_of_isSome {cs : List Condition} {n : String}
    (h : (findCond cs n).isSome = true) : findOrCreateCond cs n = cs := by
  unfold findOrCreateCond
  cases hc : findCond cs n with
  | some c => rfl
  | none => rw [hc] at h; simp at h

theorem findCond_modifyCond (n : String) (f : Condition → Condition)
    (hf : ∀ c, (f c).Type' = c.Type') (cs : List Condition) :
    findCond (modifyCond n f cs) n = (findCond cs n).map f := by
  induction cs with
  | nil => rfl
  | cons c cs ih =>
    unfold findCond at ih ⊢
    by_cases hc : c.Type' = n
    · simp [modifyCond, hc, hf]
    · simp [modifyCond, hc, hf, ih]

theorem modifyCond_modifyCond (n : String) (f g : Condition → Condition)
    (hg : ∀ c, (g c).Type' = c.Type') (cs : List Condition) :
    modifyCond n f (modifyCond n g cs) = modifyCond n (fun c => f (g c)) cs := by
  induction cs with
  | nil => rfl
  | cons c cs ih =>
    by_cases hc : c.Type' = n
    · simp [modifyCond, hc, hg]
    · simp [modifyCond, hc, ih]

theorem modifyCond_again (n : String) (f g : Condition → Condition)
    (hf : ∀ c, (f c).Type' = c.Type') (cs : List Condition)
    (hcs : (findCond cs n).isSome = true) :
    modifyCond n g (findOrCreateCond (modifyCond n f cs) n) =
      modifyCond n (fun c => g (f c)) cs := by
  have hsome : (findCond (modifyCond n f cs) n).isSome = true := by
    rw [findCond_modifyCond n f hf]
    simpa using hcs
  rw [findOrCreateCond_of_isSome hsome, modifyCond_modifyCond n g f hf]

theorem filter_modifyCond (n : String) (f : Condition → Condition)
    (hf : ∀ c, (f c).Type' = c.Type') (cs : List Condition) :
    (modifyCond n f cs).filter (fun c => !(c.Type' == n)) =
      cs.filter (fun c => !(c.Type' == n)) := by
  induction cs with
  | nil => rfl
  | cons c cs ih =>
    by_cases hc : c.Type' = n
    · simp [modifyCond, hc, hf]
    · simp [modifyCond, hc, ih]

theorem filter_findOrCreateCond (n : String) (cs : List Condition) :
    (findOrCreateCond cs n).filter (fun c => !(c.Type' == n)) =
      cs.filter (fun c => !(c.Type' == n)) := by
  unfold findOrCreateCond
  cases findCond cs n with
  | some c => rfl
  | none => simp

theorem notInitializedCond_type (stamp : String) (c : Condition) :
    (notInitializedCond stamp c).Type' = c.Type' := by
  unfold notInitializedCond
  by_cases h1 : c.Status = "False" <;> by_cases h2 : c.Message = "" <;> simp [h1, h2]

theorem notInitializedCond_fields (stamp : String) (c : Condition) :
    (notInitializedCond stamp c).Status = "False" ∧
    (notInitializedCond stamp c).Reason = "NotInitialized" ∧
    (notInitializedCond stamp c).Message = "" := by
  unfold notInitializedCond
  by_cases h1 : c.Status = "False" <;> by_cases h2 : c.Message = "" <;> simp [h1, h2]

theorem notInitializedCond_idem (s s' : String) (c : Condition) :
    notInitializedCond s' (notInitializedCond s c) = notInitializedCond s c := by
  unfold notInitializedCond
  by_cases h1 : c.Status = "False" <;> by_cases h2 : c.Message = "" <;> simp [h1, h2]

theorem markNotInitialized_conditions (stamp : String) (p : IPPool) :
    markNotInitialized stamp p =
      p.withConditions (modifyCond CacheReady (notInitializedCond stamp)
        (findOrCreateCond p.Status.Conditions CacheReady)) := by
  have hsome := findCond_isSome_findOrCreateCond p.Status.Conditions CacheReady
  simp only [markNotInitialized, Cond.False, Cond.SetStatus, Cond.Reason, Cond.Message,
    IPPool.withConditions, setStatus, setReason, setMessage]
  rw [modifyCond_again _ _ _ (by intro c; split <;> rfl) _ hsome]
  rw [modifyCond_again _ _ _ (by intro c; (repeat' split) <;> rfl) _ hsome]
  rw [modifyCond_again _ _ _ (by intro c; (repeat' split) <;> rfl) _ hsome]
  rfl

/-! ## The shape of `OnChange` -/

theorem OnChange_initialized (h : Handler) (key : String) (p : IPPool)
    (hlive : p.ObjectMeta.DeletionTimestamp = none)
    (hinit : h.ipAllocator.IsNetworkInitialized p.Spec.NetworkName = true) :
    h.OnChange key (some p) = h.deriveAndWrite p p := by
  unfold Handler.OnChange Handler.deriveAndWrite
  simp only [hlive, hinit, Option.isSome_none, Bool.not_true, Bool.false_and, Bool.false_eq_true, if_false]
  rfl

theorem OnChange_uninitialized (h : Handler) (key : String) (p : IPPool)
    (hlive : p.ObjectMeta.DeletionTimestamp = none)
    (hinit : h.ipAllocator.IsNetworkInitialized p.Spec.NetworkName = false) :
    h.OnChange key (some p) =
      if markNotInitialized h.runtime.stamp p ≠ p then
        { written := [markNotInitialized h.runtime.stamp p],
          ret := h.ippoolClient.UpdateStatus (markNotInitialized h.runtime.stamp p) }
      else h.deriveAndWrite p p := by
  unfold Handler.OnChange Handler.deriveAndWrite
  simp only [hlive, hinit, Option.isSome_none, Bool.not_false, Bool.true_and, Bool.false_eq_true, if_false, if_true]
  by_cases hne : markNotInitialized h.runtime.stamp p = p
  · simp only [hne, ne_eq, not_true_eq_false, decide_False, if_false]
    rfl
  · simp only [hne, ne_eq, not_false_eq_true, decide_True, if_true]

theorem OnChange_deleted (h : Handler) (key : String) (p : IPPool)
    (hdel : p.ObjectMeta.DeletionTimestamp ≠ none) :
    h.OnChange key (some p) = { written := [], ret := (none, none) } := by
  unfold Handler.OnChange
  cases hd : p.ObjectMeta.DeletionTimestamp with
  | none => exact absurd hd hdel
  | some t => simp [hd]

theorem allocatedAt_eq_lookupIn (p : IPPool) (k : String) :
    lookupIn (p.Status.IPv4.getD IPv4Status.zero).Allocated k = p.allocatedAt k := by
  unfold IPPool.allocatedAt
  cases p.Status.IPv4 with
  | none => rfl
  | some s => rfl

theorem allocatedAt_derivedPool (p : IPPool) (used available : Int) (k : String) :
    (derivedPool p p used available).allocatedAt k =
      if k ∈ p.Spec.IPv4Config.Pool.Exclude.map IPv4Addr.String then some ExcludedMark
      else p.allocatedAt k := by
  rw [← allocatedAt_eq_lookupIn p k, ← lookupIn_markExcluded]
  rfl

theorem allocatedAt_withLastUpdate (p : IPPool) (t : Time) (k : String) :
    (p.withLastUpdate t).allocatedAt k = p.allocatedAt k := rfl

/-- With an initialized subnet, the pool `OnChange` leaves behind is the derived
pool, with `last_update` set when it was written. -/
theorem resulting_initialized (h : Handler) (key : String) (p q : IPPool)
    (hinit : h.ipAllocator.IsNetworkInitialized p.Spec.NetworkName = true)
    (hq : (h.OnChange key (some p)).Resulting q) :
    ∃ used available,
      h.ipAllocator.GetUsed p.Spec.NetworkName = .ok used ∧
      h.ipAllocator.GetAvailable p.Spec.NetworkName = .ok available ∧
      (q = derivedPool p p used available ∨
        q = (derivedPool p p used available).withLastUpdate h.runtime.Now) := by
  by_cases hlive : p.ObjectMeta.DeletionTimestamp = none
  · rw [OnChange_initialized h key p hlive hinit] at hq
    unfold Handler.deriveAndWrite at hq
    cases hu : h.ipAllocator.GetUsed p.Spec.NetworkName with
    | error err =>
      rw [hu] at hq
      rcases hq with hq | ⟨_, hq⟩ <;> simp at hq
    | ok used =>
      cases ha : h.ipAllocator.GetAvailable p.Spec.NetworkName with
      | error err =>
        rw [hu, ha] at hq
        rcases hq with hq | ⟨_, hq⟩ <;> simp at hq
      | ok available =>
        rw [hu, ha] at hq
        refine ⟨used, available, rfl, rfl, ?_⟩
        by_cases hd : derivedPool p p used available = p
        · left
          simp only [hd, ne_eq, not_true_eq_false, if_false] at hq
          rcases hq with hq | ⟨_, hq⟩
          · simp at hq
          · simp only [Option.some.injEq] at hq
            rw [hd, hq]
        · right
          simp only [hd, ne_eq, not_false_eq_true, if_true] at hq
          rcases hq with hq | ⟨hq, _⟩
          · simpa using hq
          · simp at hq
  · rw [OnChange_deleted h key p hlive] at hq
    rcases hq with hq | ⟨_, hq⟩ <;> simp at hq

/-- Every write of `OnChange` is answered by the client: the pair returned is the
one `UpdateStatus` gave for the written pool. -/
theorem ret_of_written (h : Handler) (key : String) (p w : IPPool)
    (hw : w ∈ (h.OnChange key (some p)).written) :
    (h.OnChange key (some p)).ret = h.ippoolClient.UpdateStatus w := by
  by_cases hlive : p.ObjectMeta.DeletionTimestamp = none
  · have hshape : ∀ cpy, w ∈ (h.deriveAndWrite p cpy).written →
        (h.deriveAndWrite p cpy).ret = h.ippoolClient.UpdateStatus w := by
      intro cpy
      unfold Handler.deriveAndWrite
      cases h.ipAllocator.GetUsed p.Spec.NetworkName with
      | error err => simp
      | ok used =>
        cases h.ipAllocator.GetAvailable p.Spec.NetworkName with
        | error err => simp
        | ok available =>
          by_cases hd : derivedPool p cpy used available = p
          · simp [hd]
          · simp only [hd, ne_eq, not_false_eq_true, if_true, List.mem_singleton]
            intro hw
            rw [hw]
    cases hinit : h.ipAllocator.IsNetworkInitialized p.Spec.NetworkName with
    | true =>
      rw [OnChange_initialized h key p hlive hinit] at hw ⊢
      exact hshape p hw
    | false =>
      rw [OnChange_uninitialized h key p hlive hinit] at hw ⊢
      by_cases hm : markNotInitialized h.runtime.stamp p = p
      · simp only [hm, ne_eq, not_true_eq_false, if_false] at hw ⊢
        exact hshape p hw
      · simp only [hm, ne_eq, not_false_eq_true, if_true, List.mem_singleton] at hw ⊢
        rw [hw]
  · rw [OnChange_deleted h key p hlive] at hw
    simp at hw

theorem markNotInitialized_idem (s s' : String) (p : IPPool) :
    markNotInitialized s' (markNotInitialized s p) = markNotInitialized s p := by
  rw [markNotInitialized_conditions s p, markNotInitialized_conditions s']
  have hsome := findCond_isSome_findOrCreateCond p.Status.Conditions CacheReady
  simp only [IPPool.withConditions]
  rw [modifyCond_again _ _ _ (notInitializedCond_type s) _ hsome]
  have hfun : (fun c => notInitializedCond s' (notInitializedCond s c)) = notInitializedCond s :=
    funext (notInitializedCond_idem s s')
  rw [hfun]

theorem markNotInitialized_frame (s : String) (p : IPPool) :
    (markNotInitialized s p).ObjectMeta = p.ObjectMeta ∧
    (markNotInitialized s p).Spec = p.Spec ∧
    (markNotInitialized s p).Status.IPv4 = p.Status.IPv4 ∧
    (markNotInitialized s p).Status.AgentPodRef = p.Status.AgentPodRef ∧
    (markNotInitialized s p).Status.LastUpdate = p.Status.LastUpdate ∧
    otherConditions (markNotInitialized s p) = otherConditions p := by
  rw [markNotInitialized_conditions s p]
  refine ⟨rfl, rfl, rfl, rfl, rfl, ?_⟩
  unfold otherConditions
  simp only [IPPool.withConditions]
  rw [filter_modifyCond _ _ (notInitializedCond_type s), filter_findOrCreateCond]

theorem cacheNotInitialized_markNotInitialized (s : String) (p : IPPool) :
    CacheNotInitialized (markNotInitialized s p) := by
  rw [markNotInitialized_conditions s p]
  unfold CacheNotInitialized
  simp only [IPPool.withConditions]
  rw [findCond_modifyCond _ _ (notInitializedCond_type s)]
  have hsome := findCond_isSome_findOrCreateCond p.Status.Conditions CacheReady
  cases hc : findCond (findOrCreateCond p.Status.Conditions CacheReady) CacheReady with
  | none => rw [hc] at hsome; simp at hsome
  | some c =>
    have hf := notInitializedCond_fields s c
    exact ⟨notInitializedCond s c, rfl, hf.1, hf.2.1, hf.2.2⟩

theorem derivedPool_idem (p : IPPool) (used available : Int) (t : Time) :
    derivedPool ((derivedPool p p used available).withLastUpdate t)
      ((derivedPool p p used available).withLastUpdate t) used available =
      (derivedPool p p used available).withLastUpdate t := by
  simp only [derivedPool, IPPool.withLastUpdate, Option.getD_some, markExcluded_idem]

/-- What `OnChange` can write: the copy marked not initialized (only without a
subnet, and only when that changes the pool), or the derived pool with
`last_update` set (only when the derived pool differs from the observed one). -/
theorem written_cases (h : Handler) (key : String) (p w : IPPool)
    (hw : w ∈ (h.OnChange key (some p)).written) :
    (h.ipAllocator.IsNetworkInitialized p.Spec.NetworkName = false ∧
      w = markNotInitialized h.runtime.stamp p ∧ w ≠ p) ∨
    (∃ used available,
      h.ipAllocator.GetUsed p.Spec.NetworkName = .ok used ∧
      h.ipAllocator.GetAvailable p.Spec.NetworkName = .ok available ∧
      derivedPool p p used available ≠ p ∧
      (h.ipAllocator.IsNetworkInitialized p.Spec.NetworkName = false →
        markNotInitialized h.runtime.stamp p = p) ∧
      w = (derivedPool p p used available).withLastUpdate h.runtime.Now) := by
  by_cases hlive : p.ObjectMeta.DeletionTimestamp = none
  · have hshape : w ∈ (h.deriveAndWrite p p).written →
        ∃ used available,
          h.ipAllocator.GetUsed p.Spec.NetworkName = .ok used ∧
          h.ipAllocator.GetAvailable p.Spec.NetworkName = .ok available ∧
          derivedPool p p used available ≠ p ∧
          w = (derivedPool p p used available).withLastUpdate h.runtime.Now := by
      unfold Handler.deriveAndWrite
      cases hu : h.ipAllocator.GetUsed p.Spec.NetworkName with
      | error err => simp
      | ok used =>
        cases ha : h.ipAllocator.GetAvailable p.Spec.NetworkName with
        | error err => simp
        | ok available =>
          by_cases hd : derivedPool p p used available = p
          · simp [hd]
          · simp only [hd, ne_eq, not_false_eq_true, if_true, List.mem_singleton]
            intro hw
            exact ⟨used, available, rfl, rfl, hd, hw⟩
    cases hinit : h.ipAllocator.IsNetworkInitialized p.Spec.NetworkName with
    | true =>
      rw [OnChange_initialized h key p hlive hinit] at hw
      obtain ⟨used, available, hu, ha, hd, hw⟩ := hshape hw
      exact Or.inr ⟨used, available, hu, ha, hd, (fun hc => Bool.noConfusion hc), hw⟩
    | false =>
      rw [OnChange_uninitialized h key p hlive hinit] at hw
      by_cases hm : markNotInitialized h.runtime.stamp p = p
      · simp only [hm, ne_eq, not_true_eq_false, if_false] at hw
        obtain ⟨used, available, hu, ha, hd, hw⟩ := hshape hw
        exact Or.inr ⟨used, available, hu, ha, hd, fun _ => hm, hw⟩
      · simp only [hm, ne_eq, not_false_eq_true, if_true, List.mem_singleton] at hw
        exact Or.inl ⟨rfl, hw, by rw [hw]; exact hm⟩
  · rw [OnChange_deleted h key p hlive] at hw
    simp at hw

theorem live_of_written (h : Handler) (key : String) (p w : IPPool)
    (hw : w ∈ (h.OnChange key (some p)).written) : p.ObjectMeta.DeletionTimestamp = none := by
  by_contra hdel
  rw [OnChange_deleted h key p hdel] at hw
  simp at hw

/-! ## The shape of `DeployAgent` -/

theorem DeployAgent_resolved (h : Handler) (p : IPPool) (status : IPPoolStatus)
    (cn : String) (agent : Pod) (hres : ResolvesTo h p cn)
    (hprep : h.prepareAgentPod p cn = .ok agent) :
    h.DeployAgent p status =
      match h.podClient.Create agent with
      | .error err =>
        if IsAlreadyExists err then { created := [agent], status := status, err := none }
        else { created := [agent], status := status, err := some err }
      | .ok agentPod =>
        { created := [agent],
          status := { status with AgentPodRef := some {
            Namespace := agentPod.ObjectMeta.Namespace,
            Name := agentPod.ObjectMeta.Name } },
          err := none } := by
  obtain ⟨hno, nad, labels, hget, hl, hcn⟩ := hres
  unfold Handler.DeployAgent
  simp only [hno, Bool.false_eq_true, if_false, hget, hl, hcn, hprep]

theorem created_resolved (h : Handler) (p : IPPool) (status : IPPoolStatus) (agent : Pod)
    (hmem : agent ∈ (h.DeployAgent p status).created) :
    ∃ cn, ResolvesTo h p cn ∧ h.prepareAgentPod p cn = .ok agent := by
  unfold Handler.DeployAgent at hmem
  cases hno : h.noAgent with
  | true => simp [hno] at hmem
  | false =>
    simp only [hno, Bool.false_eq_true, if_false] at hmem
    cases hget : h.nadCache.Get (RSplit p.Spec.NetworkName).1 (RSplit p.Spec.NetworkName).2 with
    | error e => simp [hget] at hmem
    | ok nad =>
      simp only [hget] at hmem
      cases hl : nad.ObjectMeta.Labels with
      | none => simp [hl] at hmem
      | some labels =>
        simp only [hl] at hmem
        cases hcn : labels.lookup clusterNetworkLabelKey with
        | none => simp [hcn] at hmem
        | some cn =>
          simp only [hcn] at hmem
          cases hprep : h.prepareAgentPod p cn with
          | error e => simp [hprep] at hmem
          | ok a =>
            simp only [hprep] at hmem
            have ha : agent = a := by
              cases hc : h.podClient.Create a with
              | error e =>
                simp only [hc] at hmem
                by_cases hae : IsAlreadyExists e = true
                · simpa [hae] using hmem
                · simpa [hae] using hmem
              | ok pod =>
                simp only [hc] at hmem
                simpa using hmem
            rw [ha]
            exact ⟨cn, ⟨hno, nad, labels, hget, hl, hcn⟩, hprep⟩

theorem prepareAgentPod_meta (h : Handler) (p : IPPool) (cn : String) (agent : Pod)
    (hprep : h.prepareAgentPod p cn = .ok agent) :
    agent.ObjectMeta.Namespace = h.agentNamespace ∧
    agent.ObjectMeta.Name = p.ObjectMeta.Namespace ++ "-" ++ p.ObjectMeta.Name ++ "-agent" := by
  unfold Handler.prepareAgentPod at hprep
  cases hm : h.runtime.Marshal
      [{ Namespace := (RSplit p.Spec.NetworkName).1, Name := (RSplit p.Spec.NetworkName).2,
         InterfaceName := "eth1" }] with
  | error e => simp [hm] at hprep
  | ok networksStr =>
    cases hc : h.runtime.ParseCIDR p.Spec.IPv4Config.CIDR with
    | error e => simp [hm, hc] at hprep
    | ok ipNet =>
      simp only [hm, hc, Except.ok.injEq] at hprep
      rw [← hprep]
      exact ⟨rfl, rfl⟩

/-! ## OnChange: the claims -/

/-- C1. For a pool whose network has an initialized IPAM subnet, the pool that
`OnChange` writes, or returns when it writes nothing, carries in
`status.ipv4.used` and `status.ipv4.available` the values the allocator reports
for the network; what is returned after a write is the client's answer to that
write; and for a pool that is not being deleted a failing query (the used query,
or the available query after a successful used query) makes `OnChange` return
that error with nothing written. -/
theorem OnChange_reflects_ipam (h : Handler) (key : String) (p : IPPool)
    (hinit : h.ipAllocator.IsNetworkInitialized p.Spec.NetworkName = true) :
    (∀ q, (h.OnChange key (some p)).Resulting q →
        ReflectsIPAM h.ipAllocator p.Spec.NetworkName q) ∧
    (∀ w ∈ (h.OnChange key (some p)).written,
        (h.OnChange key (some p)).ret = h.ippoolClient.UpdateStatus w) ∧
    (p.ObjectMeta.DeletionTimestamp = none →
      ∀ err, (h.ipAllocator.GetUsed p.Spec.NetworkName = .error err ∨
          ((∃ used, h.ipAllocator.GetUsed p.Spec.NetworkName = .ok used) ∧
            h.ipAllocator.GetAvailable p.Spec.NetworkName = .error err)) →
        h.OnChange key (some p) = { written := [], ret := (none, some err) }) := by
  refine ⟨?_, ?_, ?_⟩
  · intro q hq
    obtain ⟨used, available, hu, ha, hcase⟩ := resulting_initialized h key p q hinit hq
    rcases hcase with hcase | hcase
    · exact ⟨_, by rw [hcase]; rfl, hu, ha⟩
    · exact ⟨_, by rw [hcase]; rfl, hu, ha⟩
  · intro w hw
    exact ret_of_written h key p w hw
  · intro hlive err herr
    rw [OnChange_initialized h key p hlive hinit]
    unfold Handler.deriveAndWrite
    rcases herr with hu | ⟨⟨used, hu⟩, ha⟩
    · rw [hu]
    · rw [hu, ha]

/-- Witness of C1 on the example pool with an initialized subnet (the write carries
`used = 0`, `available = 10`), and on an allocator whose counters cannot be read
(the error is returned, nothing is written). -/
theorem OnChange_reflects_ipam_witness :
    (initializedHandler.ipAllocator.IsNetworkInitialized examplePool.Spec.NetworkName = true ∧
      ∃ w, (initializedHandler.OnChange "default/net-1" (some examplePool)).written = [w] ∧
        ReflectsIPAM initializedHandler.ipAllocator "default/net-1" w ∧
        w.Status.IPv4.map (fun s => (s.Used, s.Available)) = some (0, 10)) ∧
    ({ initializedHandler with ipAllocator := unreadableAllocator }.OnChange "default/net-1"
        (some examplePool) =
      { written := [], ret := (none, some (Errorf "ipam is unavailable")) }) := by
  refine ⟨⟨by decide, (derivedPool examplePool examplePool 0 10).withLastUpdate 1700000000,
    by decide, ?_, by decide⟩, ?_⟩
  · exact (OnChange_reflects_ipam initializedHandler "default/net-1" examplePool (by decide)).1 _
      (Or.inl (by decide))
  · exact (OnChange_reflects_ipam { initializedHandler with ipAllocator := unreadableAllocator }
      "default/net-1" examplePool rfl).2.2 rfl _ (Or.inl rfl)

/-- C2, counterexample. On the example pool with no IPAM subnet yet, `OnChange`
completes without error, and the pool it writes does not list the excluded
address `192.168.0.15` in `status.ipv4.allocated`. -/
theorem OnChange_uninitialized_leaves_exclude_unmarked :
    (uninitializedHandler.OnChange "default/net-1" (some examplePool)).ret.2 = none ∧
    ∃ q, (uninitializedHandler.OnChange "default/net-1" (some examplePool)).Resulting q ∧
      ∃ v ∈ examplePool.Spec.IPv4Config.Pool.Exclude,
        q.allocatedAt v.String ≠ some ExcludedMark := by
  refine ⟨by decide, markNotInitialized exampleRuntime.stamp examplePool, Or.inl (by decide),
    { text := "192.168.0.15" }, by decide, by decide⟩

/-- C2, amended. For a pool whose network has an initialized IPAM subnet, in the
pool that `OnChange` writes, or returns when it writes nothing, every address of
`spec.ipv4.pool.exclude` is a key of `status.ipv4.allocated` mapped to the
sentinel, and every other address has the entry it had in the observed pool. -/
theorem OnChange_marks_excluded (h : Handler) (key : String) (p : IPPool)
    (hinit : h.ipAllocator.IsNetworkInitialized p.Spec.NetworkName = true) :
    ∀ q, (h.OnChange key (some p)).Resulting q →
      (∀ v ∈ p.Spec.IPv4Config.Pool.Exclude, q.allocatedAt v.String = some ExcludedMark) ∧
      (∀ ip, ip ∉ p.Spec.IPv4Config.Pool.Exclude.map IPv4Addr.String →
        q.allocatedAt ip = p.allocatedAt ip) := by
  intro q hq
  obtain ⟨used, available, _, _, hcase⟩ := resulting_initialized h key p q hinit hq
  have hall : ∀ k, q.allocatedAt k =
      if k ∈ p.Spec.IPv4Config.Pool.Exclude.map IPv4Addr.String then some ExcludedMark
      else p.allocatedAt k := by
    intro k
    rcases hcase with hcase | hcase
    · rw [hcase, allocatedAt_derivedPool]
    · rw [hcase, allocatedAt_withLastUpdate, allocatedAt_derivedPool]
  constructor
  · intro v hv
    rw [hall, if_pos (List.mem_map_of_mem _ hv)]
  · intro ip hip
    rw [hall, if_neg hip]

/-- Witness of C2 (amended) on the example pool with an initialized subnet: the
written pool maps `192.168.0.15` to the sentinel. -/
theorem OnChange_marks_excluded_witness :
    initializedHandler.ipAllocator.IsNetworkInitialized examplePool.Spec.NetworkName = true ∧
    ∃ w, (initializedHandler.OnChange "default/net-1" (some examplePool)).written = [w] ∧
      w.allocatedAt "192.168.0.15" = some ExcludedMark ∧
      w.allocatedAt "192.168.0.11" = examplePool.allocatedAt "192.168.0.11" := by
  refine ⟨by decide, (derivedPool examplePool examplePool 0 10).withLastUpdate 1700000000,
    by decide, ?_, ?_⟩
  · exact ((OnChange_marks_excluded initializedHandler "default/net-1" examplePool (by decide)
      _ (Or.inl (by decide))).1 { text := "192.168.0.15" } (by decide))
  · exact ((OnChange_marks_excluded initializedHandler "default/net-1" examplePool (by decide)
      _ (Or.inl (by decide))).2 "192.168.0.11" (by decide))

/-- C3, counterexample. On the example pool with no IPAM subnet, `OnChange` writes
a pool `p'`; run again on `p'` it writes nothing, but it does not return `p'`: it
returns the error of the used query. -/
theorem OnChange_second_pass_fails_uninitialized :
    ∃ p', (uninitializedHandler.OnChange "default/net-1" (some examplePool)).written = [p'] ∧
      (uninitializedHandler.OnChange "default/net-1" (some p')).written = [] ∧
      (uninitializedHandler.OnChange "default/net-1" (some p')).ret ≠ (some p', none) ∧
      (uninitializedHandler.OnChange "default/net-1" (some p')).ret =
        (none, some (Errorf "network default/net-1 does not exist")) := by
  refine ⟨markNotInitialized exampleRuntime.stamp examplePool, by decide, by decide, by decide,
    by decide⟩

/-- C3, amended. Let the second pass `h'` see the same IPAM state as the first
pass `h` (the clock and the clients may differ). With an initialized subnet:
if the derived pool equals the observed live pool, `OnChange` writes nothing and
returns the observed pool itself, and if `OnChange` writes `p'`, then `OnChange`
on `p'` writes nothing and returns `p'`. Without a subnet, when the used query
fails: if the marked copy equals the observed live pool, `OnChange` writes
nothing and returns that error, and if `OnChange` writes `p'`, then `OnChange`
on `p'` writes nothing and returns that error. -/
theorem OnChange_idempotent (h h' : Handler) (key key' : String) (p : IPPool)
    (hsame : h'.ipAllocator = h.ipAllocator) :
    (h.ipAllocator.IsNetworkInitialized p.Spec.NetworkName = true →
      (∀ used available, p.ObjectMeta.DeletionTimestamp = none →
        h.ipAllocator.GetUsed p.Spec.NetworkName = .ok used →
        h.ipAllocator.GetAvailable p.Spec.NetworkName = .ok available →
        derivedPool p p used available = p →
        h.OnChange key (some p) = { written := [], ret := (some p, none) }) ∧
      (∀ p' ∈ (h.OnChange key (some p)).written,
        h'.OnChange key' (some p') = { written := [], ret := (some p', none) })) ∧
    (h.ipAllocator.IsNetworkInitialized p.Spec.NetworkName = false →
      ∀ err, h.ipAllocator.GetUsed p.Spec.NetworkName = .error err →
        (p.ObjectMeta.DeletionTimestamp = none → markNotInitialized h.runtime.stamp p = p →
          h.OnChange key (some p) = { written := [], ret := (none, some err) }) ∧
        (∀ p' ∈ (h.OnChange key (some p)).written,
          h'.OnChange key' (some p') = { written := [], ret := (none, some err) })) := by
  refine ⟨fun hinit => ⟨?_, ?_⟩, fun hinit err herr => ⟨?_, ?_⟩⟩
  · intro used available hlive hu ha hd
    rw [OnChange_initialized h key p hlive hinit]
    unfold Handler.deriveAndWrite
    rw [hu, ha]
    simp [hd]
  · intro p' hp'
    have hlive := live_of_written h key p p' hp'
    rcases written_cases h key p p' hp' with ⟨hfalse, _⟩ | ⟨used, available, hu, ha, _, _, hw⟩
    · rw [hinit] at hfalse
      cases hfalse
    · subst hw
      have hlive' : ((derivedPool p p used available).withLastUpdate
          h.runtime.Now).ObjectMeta.DeletionTimestamp = none := hlive
      have hinit' : h'.ipAllocator.IsNetworkInitialized ((derivedPool p p used available).withLastUpdate
          h.runtime.Now).Spec.NetworkName = true := by
        rw [hsame]; exact hinit
      rw [OnChange_initialized h' key' _ hlive' hinit']
      unfold Handler.deriveAndWrite
      have hu' : h'.ipAllocator.GetUsed ((derivedPool p p used available).withLastUpdate
          h.runtime.Now).Spec.NetworkName = .ok used := by
        rw [hsame]; exact hu
      have ha' : h'.ipAllocator.GetAvailable ((derivedPool p p used available).withLastUpdate
          h.runtime.Now).Spec.NetworkName = .ok available := by
        rw [hsame]; exact ha
      rw [hu', ha']
      simp [derivedPool_idem]
  · intro hlive hm
    rw [OnChange_uninitialized h key p hlive hinit]
    simp only [hm, ne_eq, not_true_eq_false, if_false]
    unfold Handler.deriveAndWrite
    rw [herr]
  · intro p' hp'
    have hlive := live_of_written h key p p' hp'
    rcases written_cases h key p p' hp' with ⟨_, hw, _⟩ | ⟨used, available, hu, _⟩
    · subst hw
      have hlive' : (markNotInitialized h.runtime.stamp p).ObjectMeta.DeletionTimestamp = none := by
        rw [(markNotInitialized_frame h.runtime.stamp p).1]; exact hlive
      have hspec := (markNotInitialized_frame h.runtime.stamp p).2.1
      have hinit' : h'.ipAllocator.IsNetworkInitialized
          (markNotInitialized h.runtime.stamp p).Spec.NetworkName = false := by
        rw [hsame, hspec]; exact hinit
      rw [OnChange_uninitialized h' key' _ hlive' hinit']
      simp only [markNotInitialized_idem, ne_eq, not_true_eq_false, if_false]
      unfold Handler.deriveAndWrite
      rw [hsame, hspec, herr]
    · rw [herr] at hu
      cases hu

/-- Witness of C3 (amended): the two passes of the example with an initialized
subnet, and the second pass of the example without one. -/
theorem OnChange_idempotent_witness :
    initializedHandler.ipAllocator = initializedHandler.ipAllocator ∧
    (∃ p', (initializedHandler.OnChange "default/net-1" (some examplePool)).written = [p'] ∧
      initializedHandler.OnChange "default/net-1" (some p') =
        { written := [], ret := (some p', none) }) ∧
    (∃ p', (uninitializedHandler.OnChange "default/net-1" (some examplePool)).written = [p'] ∧
      uninitializedHandler.OnChange "default/net-1" (some p') =
        { written := [],
          ret := (none, some (Errorf "network default/net-1 does not exist")) }) := by
  refine ⟨rfl, ⟨(derivedPool examplePool examplePool 0 10).withLastUpdate 1700000000,
    by decide, ?_⟩, ⟨markNotInitialized exampleRuntime.stamp examplePool, by decide, ?_⟩⟩
  · exact ((OnChange_idempotent initializedHandler initializedHandler "default/net-1"
      "default/net-1" examplePool rfl).1 (by decide)).2 _ (by decide)
  · exact ((OnChange_idempotent uninitializedHandler uninitializedHandler "default/net-1"
      "default/net-1" examplePool rfl).2 (by decide)
      (Errorf "network default/net-1 does not exist") rfl).2 _ (by decide)

/-- C4, counterexample. The allocator reports `default/net-1` as not initialized but
answers the counter queries with 3 and 7. On the example pool that already
carries `CacheReady=False`, reason `NotInitialized`, `OnChange` does not stop: it
writes a status whose `used`, `available` and `allocated` come from the queries
and the excludes, with `last_update` set. -/
theorem OnChange_uninitialized_writes_counters :
    answeringHandler.ipAllocator.IsNetworkInitialized notInitializedPool.Spec.NetworkName = false ∧
    notInitializedPool.Status.IPv4 = none ∧
    ∃ w, (answeringHandler.OnChange "default/net-1" (some notInitializedPool)).written = [w] ∧
      w.Status.IPv4 = some
        { Allocated := some ((∅ : StringMap).insert "192.168.0.15" ExcludedMark),
          Used := 3, Available := 7 } ∧
      w.Status.LastUpdate = 1700000000 := by
  refine ⟨by decide, by decide,
    (derivedPool notInitializedPool notInitializedPool 3 7).withLastUpdate 1700000000,
    by decide, by decide, by decide⟩

/-- C4, amended. For a pool whose network has no initialized IPAM subnet, every pool
`OnChange` writes has the `CacheReady` condition `False` with reason
`NotInitialized` and an empty message. On a live pool on which recording that
condition changes something, `OnChange` stops there: the one pool it writes is
the observed pool with the condition recorded, whose `status.ipv4` (used,
available, allocated) is the observed one. On a pool that already carries the
condition, `OnChange` goes on to the queries: when the used or the available
query fails it writes nothing, and when both answer, every pool it writes has
the counters they report, the excludes marked in `allocated` and `last_update`
set to the current time. -/
theorem OnChange_uninitialized_refuses (h : Handler) (key : String) (p : IPPool)
    (hinit : h.ipAllocator.IsNetworkInitialized p.Spec.NetworkName = false) :
    (∀ w ∈ (h.OnChange key (some p)).written, CacheNotInitialized w) ∧
    (p.ObjectMeta.DeletionTimestamp = none → markNotInitialized h.runtime.stamp p ≠ p →
      (h.OnChange key (some p)).written = [markNotInitialized h.runtime.stamp p] ∧
      (markNotInitialized h.runtime.stamp p).Status.IPv4 = p.Status.IPv4) ∧
    (∀ err, h.ipAllocator.GetUsed p.Spec.NetworkName = .error err ∨
        h.ipAllocator.GetAvailable p.Spec.NetworkName = .error err →
      (∀ w ∈ (h.OnChange key (some p)).written,
        w = markNotInitialized h.runtime.stamp p ∧ w.Status.IPv4 = p.Status.IPv4) ∧
      (markNotInitialized h.runtime.stamp p = p → (h.OnChange key (some p)).written = [])) ∧
    (markNotInitialized h.runtime.stamp p = p →
      ∀ used available, h.ipAllocator.GetUsed p.Spec.NetworkName = .ok used →
        h.ipAllocator.GetAvailable p.Spec.NetworkName = .ok available →
        ∀ w ∈ (h.OnChange key (some p)).written,
          w.Status.IPv4 = some
            { Allocated := markExcluded p.Spec.IPv4Config.Pool.Exclude
                (p.Status.IPv4.getD IPv4Status.zero).Allocated,
              Used := used, Available := available } ∧
          w.Status.LastUpdate = h.runtime.Now) := by
  refine ⟨?_, ?_, ?_, ?_⟩
  · intro w hw
    rcases written_cases h key p w hw with ⟨_, hw, _⟩ | ⟨used, available, _, _, _, hm, hw⟩
    · rw [hw]
      exact cacheNotInitialized_markNotInitialized _ _
    · have hc := cacheNotInitialized_markNotInitialized h.runtime.stamp p
      rw [hm hinit] at hc
      rw [hw]
      exact hc
  · intro hlive hne
    rw [OnChange_uninitialized h key p hlive hinit]
    simp only [hne, ne_eq, not_false_eq_true, if_true, true_and]
    exact (markNotInitialized_frame _ _).2.2.1
  · intro err herr
    constructor
    · intro w hw
      rcases written_cases h key p w hw with ⟨_, hw, _⟩ | ⟨used, available, hu, ha, _⟩
      · refine ⟨hw, ?_⟩
        rw [hw]
        exact (markNotInitialized_frame _ _).2.2.1
      · rcases herr with herr | herr
        · rw [herr] at hu
          cases hu
        · rw [herr] at ha
          cases ha
    · intro hm
      cases hw : (h.OnChange key (some p)).written with
      | nil => rfl
      | cons w ws =>
        exfalso
        have hmem : w ∈ (h.OnChange key (some p)).written := by rw [hw]; exact List.mem_cons_self _ _
        rcases written_cases h key p w hmem with ⟨_, hw', hne⟩ | ⟨used, available, hu, ha, _⟩
        · exact hne (by rw [hw']; exact hm)
        · rcases herr with herr | herr
          · rw [herr] at hu
            cases hu
          · rw [herr] at ha
            cases ha
  · intro hm used available hu ha w hw
    rcases written_cases h key p w hw with ⟨_, hw', hne⟩ | ⟨used', available', hu', ha', _, _, hw'⟩
    · exact absurd (by rw [hw']; exact hm) hne
    · rw [hu] at hu'
      rw [ha] at ha'
      cases hu'
      cases ha'
      rw [hw']
      exact ⟨rfl, rfl⟩

/-- Witness of C4 (amended): the example pool with no IPAM subnet, on the first pass
and once the condition is recorded. -/
theorem OnChange_uninitialized_refuses_witness :
    uninitializedHandler.ipAllocator.IsNetworkInitialized examplePool.Spec.NetworkName = false ∧
    (∃ w, (uninitializedHandler.OnChange "default/net-1" (some examplePool)).written = [w] ∧
      CacheNotInitialized w ∧ w.Status.IPv4 = examplePool.Status.IPv4) ∧
    (uninitializedHandler.OnChange "default/net-1" (some notInitializedPool)).written = [] := by
  have hw := OnChange_uninitialized_refuses uninitializedHandler "default/net-1" examplePool
    (by decide)
  have hw' := OnChange_uninitialized_refuses uninitializedHandler "default/net-1"
    notInitializedPool (by decide)
  refine ⟨by decide, ⟨markNotInitialized exampleRuntime.stamp examplePool,
    (hw.2.1 (by decide) (by decide)).1, hw.1 _ (by decide),
    (hw.2.1 (by decide) (by decide)).2⟩, ?_⟩
  exact (hw'.2.2.1 (Errorf "network default/net-1 does not exist") (Or.inl rfl)).2 (by decide)

/-- C5, the failing input. On the example pool with no IPAM subnet (`last_update`
is the zero time, the clock reads 1700000000), `OnChange` writes the status that
records `CacheReady=False`, and the written pool still has the zero time as
`last_update`. -/
theorem OnChange_notInitialized_write_keeps_last_update :
    exampleRuntime.Now = 1700000000 ∧
    ∃ w, (uninitializedHandler.OnChange "default/net-1" (some examplePool)).written = [w] ∧
      CacheNotInitialized w ∧ w ≠ examplePool ∧ w.Status.LastUpdate = 0 := by
  refine ⟨rfl, markNotInitialized exampleRuntime.stamp examplePool, by decide,
    cacheNotInitialized_markNotInitialized _ _, by decide, by decide⟩

/-- C6. Every pool `OnChange` writes has the metadata (namespace, name) and the
spec of the observed pool, the observed `agent_pod_ref` and the observed
conditions other than `CacheReady`; and a pool it returns is the observed pool
itself or the client's answer to a write. -/
theorem OnChange_preserves_spec (h : Handler) (key : String) (p : IPPool) :
    (∀ w ∈ (h.OnChange key (some p)).written,
      w.ObjectMeta = p.ObjectMeta ∧ w.Spec = p.Spec ∧
      w.Status.AgentPodRef = p.Status.AgentPodRef ∧
      otherConditions w = otherConditions p) ∧
    (∀ q, (h.OnChange key (some p)).ret.1 = some q →
      q = p ∨ ∃ w ∈ (h.OnChange key (some p)).written,
        (h.OnChange key (some p)).ret = h.ippoolClient.UpdateStatus w) := by
  constructor
  · intro w hw
    rcases written_cases h key p w hw with ⟨_, hw, _⟩ | ⟨used, available, _, _, _, _, hw⟩
    · rw [hw]
      have hf := markNotInitialized_frame h.runtime.stamp p
      exact ⟨hf.1, hf.2.1, hf.2.2.2.1, hf.2.2.2.2.2⟩
    · rw [hw]
      exact ⟨rfl, rfl, rfl, rfl⟩
  · intro q hq
    cases hwr : (h.OnChange key (some p)).written with
    | nil =>
      left
      by_cases hlive : p.ObjectMeta.DeletionTimestamp = none
      · have hshape : (h.deriveAndWrite p p).written = [] →
            (h.deriveAndWrite p p).ret.1 = some q → q = p := by
          unfold Handler.deriveAndWrite
          cases h.ipAllocator.GetUsed p.Spec.NetworkName with
          | error err => simp
          | ok used =>
            cases h.ipAllocator.GetAvailable p.Spec.NetworkName with
            | error err => simp
            | ok available =>
              by_cases hd : derivedPool p p used available = p
              · simp only [hd, ne_eq, not_true_eq_false, if_false, Option.some.injEq]
                intro _ hq
                exact hq.symm
              · simp [hd]
        cases hinit : h.ipAllocator.IsNetworkInitialized p.Spec.NetworkName with
        | true =>
          rw [OnChange_initialized h key p hlive hinit] at hq hwr
          exact hshape hwr hq
        | false =>
          rw [OnChange_uninitialized h key p hlive hinit] at hq hwr
          by_cases hm : markNotInitialized h.runtime.stamp p = p
          · simp only [hm, ne_eq, not_true_eq_false, if_false] at hq hwr
            exact hshape hwr hq
          · simp [hm] at hwr
      · rw [OnChange_deleted h key p hlive] at hq
        simp at hq
    | cons w ws =>
      right
      have hw : w ∈ (h.OnChange key (some p)).written := by rw [hwr]; simp
      exact ⟨w, List.mem_cons_self _ _, ret_of_written h key p w hw⟩

/-- C7, counterexample. After the operator removed `192.168.0.15` from
`spec.ipv4.pool.exclude`, `OnChange` completes without error and returns the pool
with that address still marked EXCLUDED, although it is no longer excluded. -/
theorem OnChange_keeps_stale_mark :
    (staleHandler.OnChange "default/net-1" (some stalePool)).ret.2 = none ∧
    ∃ q, (staleHandler.OnChange "default/net-1" (some stalePool)).Resulting q ∧
      ∃ ip, q.allocatedAt ip = some ExcludedMark ∧
        ip ∉ stalePool.Spec.IPv4Config.Pool.Exclude.map IPv4Addr.String := by
  refine ⟨by decide, stalePool, Or.inr ⟨by decide, by decide⟩, "192.168.0.15", by decide,
    by decide⟩

/-- C7, amended. For a pool whose network has an initialized IPAM subnet, the
addresses marked EXCLUDED in the pool that `OnChange` writes, or returns when it
writes nothing, are exactly the addresses of `spec.ipv4.pool.exclude` together
with the addresses the observed pool already marked: marks are only added, and
no address is compared with the range. -/
theorem OnChange_excluded_marks (h : Handler) (key : String) (p : IPPool)
    (hinit : h.ipAllocator.IsNetworkInitialized p.Spec.NetworkName = true) :
    ∀ q, (h.OnChange key (some p)).Resulting q →
      ∀ ip, q.allocatedAt ip = some ExcludedMark ↔
        (ip ∈ p.Spec.IPv4Config.Pool.Exclude.map IPv4Addr.String ∨
          p.allocatedAt ip = some ExcludedMark) := by
  intro q hq ip
  obtain ⟨used, available, _, _, hcase⟩ := resulting_initialized h key p q hinit hq
  have hall : q.allocatedAt ip =
      if ip ∈ p.Spec.IPv4Config.Pool.Exclude.map IPv4Addr.String then some ExcludedMark
      else p.allocatedAt ip := by
    rcases hcase with hcase | hcase
    · rw [hcase, allocatedAt_derivedPool]
    · rw [hcase, allocatedAt_withLastUpdate, allocatedAt_derivedPool]
  rw [hall]
  by_cases hip : ip ∈ p.Spec.IPv4Config.Pool.Exclude.map IPv4Addr.String
  · simp [hip]
  · simp [hip]

/-- Witness of C7 (amended) on the pool whose exclude list was emptied: the
returned pool marks `192.168.0.15` because the observed pool did. -/
theorem OnChange_excluded_marks_witness :
    staleHandler.ipAllocator.IsNetworkInitialized stalePool.Spec.NetworkName = true ∧
    (stalePool.allocatedAt "192.168.0.15" = some ExcludedMark ↔
      ("192.168.0.15" ∈ stalePool.Spec.IPv4Config.Pool.Exclude.map IPv4Addr.String ∨
        stalePool.allocatedAt "192.168.0.15" = some ExcludedMark)) :=
  ⟨by decide, OnChange_excluded_marks staleHandler "default/net-1" stalePool (by decide)
    stalePool (Or.inr ⟨by decide, by decide⟩) "192.168.0.15"⟩

/-! ## DeployAgent: the claims -/

/-- C8. When `DeployAgent` asks to create the agent workload and the creation
fails, the create request was the only request it issued (nothing is updated or
replaced), the status is returned as it was given, and the error returned is
none for an already-exists error and the creation error itself otherwise. -/
theorem DeployAgent_create_error (h : Handler) (p : IPPool) (status : IPPoolStatus)
    (agent : Pod) (err : Error)
    (hmem : agent ∈ (h.DeployAgent p status).created)
    (hfail : h.podClient.Create agent = .error err) :
    (h.DeployAgent p status).created = [agent] ∧
    (h.DeployAgent p status).status = status ∧
    (h.DeployAgent p status).err = if IsAlreadyExists err then none else some err := by
  obtain ⟨cn, hres, hprep⟩ := created_resolved h p status agent hmem
  rw [DeployAgent_resolved h p status cn agent hres hprep, hfail]
  by_cases hae : IsAlreadyExists err = true
  · simp [hae]
  · simp [hae]

/-- Witness of C8 on the example pool: a workload that already exists is treated
as success, another creation error is returned. -/
theorem DeployAgent_create_error_witness :
    (exampleAgent ∈ (existingAgentHandler.DeployAgent examplePool examplePool.Status).created ∧
      existingAgentHandler.podClient.Create exampleAgent =
        .error { reason := "AlreadyExists",
                 message := "pods \"default-net-1-agent\" already exists" } ∧
      (existingAgentHandler.DeployAgent examplePool examplePool.Status).created = [exampleAgent] ∧
      (existingAgentHandler.DeployAgent examplePool examplePool.Status).status =
        examplePool.Status ∧
      (existingAgentHandler.DeployAgent examplePool examplePool.Status).err = none) ∧
    (exampleAgent ∈ (failingCreateHandler.DeployAgent examplePool examplePool.Status).created ∧
      (failingCreateHandler.DeployAgent examplePool examplePool.Status).err =
        some { reason := "InternalError", message := "etcd unavailable" }) := by
  refine ⟨⟨by decide, rfl, ?_⟩, ⟨by decide, ?_⟩⟩
  · exact DeployAgent_create_error existingAgentHandler examplePool examplePool.Status
      exampleAgent _ (by decide) rfl
  · exact (DeployAgent_create_error failingCreateHandler examplePool examplePool.Status
      exampleAgent _ (by decide) rfl).2.2

/-- C9, counterexample. The agent workload of the example pool already exists and
the status given has no `agent_pod_ref`: with `no_agent` false `DeployAgent`
returns without error, and the returned status still has no `agent_pod_ref`. -/
theorem DeployAgent_existing_leaves_ref_unset :
    existingAgentHandler.noAgent = false ∧
    (existingAgentHandler.DeployAgent examplePool examplePool.Status).err = none ∧
    (existingAgentHandler.DeployAgent examplePool examplePool.Status).status.AgentPodRef = none ∧
    (existingAgentHandler.DeployAgent examplePool examplePool.Status).status.AgentPodRef ≠
      some { Namespace := existingAgentHandler.agentNamespace, Name := "default-net-1-agent" } := by
  decide

/-- C9, amended. With `no_agent` false, whenever `DeployAgent` returns without
error it has asked to create exactly one workload, named `<ns>-<name>-agent` in
the agent namespace; when that creation succeeded the returned status is the given
one with `agent_pod_ref` set to the namespace and name of the object the create
call returned, and when it reported already-exists the returned status is the
given one. -/
theorem DeployAgent_success (h : Handler) (p : IPPool) (status : IPPoolStatus)
    (hno : h.noAgent = false) (herr : (h.DeployAgent p status).err = none) :
    ∃ agent, (h.DeployAgent p status).created = [agent] ∧
      agent.ObjectMeta.Namespace = h.agentNamespace ∧
      agent.ObjectMeta.Name = p.ObjectMeta.Namespace ++ "-" ++ p.ObjectMeta.Name ++ "-agent" ∧
      ((∃ agentPod, h.podClient.Create agent = .ok agentPod ∧
          (h.DeployAgent p status).status =
            { status with AgentPodRef := some {
                Namespace := agentPod.ObjectMeta.Namespace,
                Name := agentPod.ObjectMeta.Name } }) ∨
        (∃ e, h.podClient.Create agent = .error e ∧ IsAlreadyExists e = true ∧
          (h.DeployAgent p status).status = status)) := by
  have hreach : ∃ cn agent, ResolvesTo h p cn ∧ h.prepareAgentPod p cn = .ok agent := by
    unfold Handler.DeployAgent at herr
    simp only [hno, Bool.false_eq_true, if_false] at herr
    cases hget : h.nadCache.Get (RSplit p.Spec.NetworkName).1 (RSplit p.Spec.NetworkName).2 with
    | error e => simp [hget] at herr
    | ok nad =>
      simp only [hget] at herr
      cases hl : nad.ObjectMeta.Labels with
      | none => simp [hl] at herr
      | some labels =>
        simp only [hl] at herr
        cases hcn : labels.lookup clusterNetworkLabelKey with
        | none => simp [hcn] at herr
        | some cn =>
          simp only [hcn] at herr
          cases hprep : h.prepareAgentPod p cn with
          | error e => simp [hprep] at herr
          | ok a => exact ⟨cn, a, ⟨hno, nad, labels, hget, hl, hcn⟩, hprep⟩
  obtain ⟨cn, agent, hres, hprep⟩ := hreach
  have hmeta := prepareAgentPod_meta h p cn agent hprep
  rw [DeployAgent_resolved h p status cn agent hres hprep] at herr ⊢
  refine ⟨agent, ?_, hmeta.1, hmeta.2, ?_⟩
  · cases hc : h.podClient.Create agent with
    | error e =>
      by_cases hae : IsAlreadyExists e = true
      · simp [hae]
      · simp [hae]
    | ok pod => rfl
  · cases hc : h.podClient.Create agent with
    | error e =>
      right
      rw [hc] at herr
      by_cases hae : IsAlreadyExists e = true
      · exact ⟨e, rfl, hae, by simp [hae]⟩
      · simp [hae] at herr
    | ok pod =>
      left
      exact ⟨pod, rfl, rfl⟩

/-- Witness of C9 (amended) on the example pool when the creation succeeds: the
returned status refers to `harvester-system/default-net-1-agent`. -/
theorem DeployAgent_success_witness :
    uninitializedHandler.noAgent = false ∧
    (uninitializedHandler.DeployAgent examplePool examplePool.Status).err = none ∧
    (uninitializedHandler.DeployAgent examplePool examplePool.Status).status.AgentPodRef =
      some { Namespace := "harvester-system", Name := "default-net-1-agent" } ∧
    ∃ agent, (uninitializedHandler.DeployAgent examplePool examplePool.Status).created = [agent] ∧
      agent.ObjectMeta.Namespace = uninitializedHandler.agentNamespace ∧
      agent.ObjectMeta.Name =
        examplePool.ObjectMeta.Namespace ++ "-" ++ examplePool.ObjectMeta.Name ++ "-agent" ∧
      ((∃ agentPod, uninitializedHandler.podClient.Create agent = .ok agentPod ∧
          (uninitializedHandler.DeployAgent examplePool examplePool.Status).status =
            { examplePool.Status with AgentPodRef := some {
                Namespace := agentPod.ObjectMeta.Namespace,
                Name := agentPod.ObjectMeta.Name } }) ∨
        (∃ e, uninitializedHandler.podClient.Create agent = .error e ∧
          IsAlreadyExists e = true ∧
          (uninitializedHandler.DeployAgent examplePool examplePool.Status).status =
            examplePool.Status)) :=
  ⟨rfl, by decide, by decide,
    DeployAgent_success uninitializedHandler examplePool examplePool.Status rfl (by decide)⟩

/-- C10. With `no_agent` false: if the attachment of `network_name` is found but
carries no cluster-network label (no label map, or a map without the
`clusternetwork` key), `DeployAgent` fails with
`could not find clusternetwork for nad <network_name>`, asks for no workload and
returns the status as given; if the lookup of the attachment fails, it returns
the lookup error, again with no workload asked for and the status as given. -/
theorem DeployAgent_without_cluster_network (h : Handler) (p : IPPool) (status : IPPoolStatus)
    (hno : h.noAgent = false) :
    (∀ nad,
      h.nadCache.Get (RSplit p.Spec.NetworkName).1 (RSplit p.Spec.NetworkName).2 = .ok nad →
      (∀ labels, nad.ObjectMeta.Labels = some labels →
        labels.lookup clusterNetworkLabelKey = none) →
      h.DeployAgent p status =
        { created := [], status := status,
          err := some (Errorf ("could not find clusternetwork for nad " ++ p.Spec.NetworkName)) }) ∧
    (∀ err,
      h.nadCache.Get (RSplit p.Spec.NetworkName).1 (RSplit p.Spec.NetworkName).2 = .error err →
      h.DeployAgent p status = { created := [], status := status, err := some err }) := by
  constructor
  · intro nad hget hlabel
    unfold Handler.DeployAgent
    simp only [hno, Bool.false_eq_true, if_false, hget]
    cases hl : nad.ObjectMeta.Labels with
    | none => rfl
    | some labels => simp only [hlabel labels hl]
  · intro err hget
    unfold Handler.DeployAgent
    simp only [hno, Bool.false_eq_true, if_false, hget]


/-- Witness of C10 on the example pool: with an attachment without labels the
error names the network and no workload is asked for; with an attachment that
cannot be found the lookup error is returned. -/
theorem DeployAgent_without_cluster_network_witness :
    unlabelledHandler.noAgent = false ∧
    unlabelledHandler.DeployAgent examplePool examplePool.Status =
      { created := [], status := examplePool.Status,
        err := some (Errorf "could not find clusternetwork for nad default/net-1") } ∧
    unlabelledHandler.DeployAgent orphanPool orphanPool.Status =
      { created := [], status := orphanPool.Status,
        err := some { reason := "NotFound",
                      message := "network-attachment-definitions.k8s.cni.cncf.io \"nonexist\" not found" } } := by
  refine ⟨rfl, ?_, ?_⟩
  · exact (DeployAgent_without_cluster_network unlabelledHandler examplePool examplePool.Status
      rfl).1 unlabelledNAD rfl (by intro labels hl; cases hl)
  · exact (DeployAgent_without_cluster_network unlabelledHandler orphanPool orphanPool.Status
      rfl).2 _ rfl

/-! ## Lemmas on the allocator, the workload and the validator -/

theorem IPAM.set_same (a : IPAM) (name : String) (s : Option IPSubnet) :
    (a.set name s) name = s := by
  simp [IPAM.set]

/-- The revocations of `BuildCache`, when none fails, leave the range, the used
counter and the allocated addresses alone, take one off `available` for every
excluded address, and put every excluded address among the revoked ones. -/
theorem revokeExcluded_ok (name : String) (exclude : List IPv4Addr) :
    ∀ (a a' : IPAM) (s : IPSubnet), a name = some s →
      revokeExcluded a name exclude = (a', none) →
      ∃ s', a' name = some s' ∧ s'.start = s.start ∧ s'.End = s.End ∧ s'.used = s.used ∧
        s'.allocated = s.allocated ∧ s'.available = s.available - exclude.length ∧
        (∀ ip ∈ s.revoked, ip ∈ s'.revoked) ∧
        (∀ v ∈ exclude, ∃ ip, parseAddr v.String = .ok ip ∧ ip ∈ s'.revoked) := by
  induction exclude with
  | nil =>
    intro a a' s hs hrun
    simp only [revokeExcluded, Prod.mk.injEq, and_true] at hrun
    subst hrun
    exact ⟨s, hs, rfl, rfl, rfl, rfl, by simp, fun ip h => h, by simp⟩
  | cons v vs ih =>
    intro a a' s hs hrun
    unfold revokeExcluded at hrun
    cases hrev : a.RevokeIP name v.String with
    | error e => simp [hrev] at hrun
    | ok a1 =>
      simp only [hrev] at hrun
      unfold IPAM.RevokeIP at hrev
      simp only [hs] at hrev
      cases hp : parseAddr v.String with
      | error msg => simp [hp] at hrev
      | ok addr =>
        simp only [hp, Except.ok.injEq] at hrev
        have hs1 : a1 name =
            some { s with revoked := addr :: s.revoked, available := s.available - 1 } := by
          rw [← hrev]
          exact IPAM.set_same _ _ _
        obtain ⟨s', hs', hst, hen, hu, hal, hav, hrv, hex⟩ := ih a1 a' _ hs1 hrun
        refine ⟨s', hs', hst, hen, hu, hal, ?_, ?_, ?_⟩
        · rw [hav]
          simp only [List.length_cons, Nat.cast_add, Nat.cast_one]
          ring
        · intro ip hip
          exact hrv ip (List.mem_cons_of_mem _ hip)
        · intro w hw
          rcases List.mem_cons.1 hw with hw | hw
          · rw [hw]
            exact ⟨addr, hp, hrv addr (List.mem_cons_self _ _)⟩
          · exact hex w hw

/-- The allocations of `BuildCache`, when none fails, leave the range and the
revoked addresses alone and move one address from `available` to `used` for
every visited entry that is not marked EXCLUDED. -/
theorem allocateRecorded_ok (name : String) (entries : List (String × String)) :
    ∀ (a a' : IPAM) (s : IPSubnet), a name = some s →
      allocateRecorded a name entries = (a', none) →
      ∃ s', a' name = some s' ∧ s'.start = s.start ∧ s'.End = s.End ∧
        s'.revoked = s.revoked ∧
        s'.used = s.used + (entries.filter fun e => e.2 ≠ ExcludedMark).length ∧
        s'.available = s.available - (entries.filter fun e => e.2 ≠ ExcludedMark).length := by
  induction entries with
  | nil =>
    intro a a' s hs hrun
    simp only [allocateRecorded, Prod.mk.injEq, and_true] at hrun
    subst hrun
    exact ⟨s, hs, rfl, rfl, rfl, by simp, by simp⟩
  | cons e es ih =>
    intro a a' s hs hrun
    obtain ⟨ip, mac⟩ := e
    unfold allocateRecorded at hrun
    by_cases hmac : mac = ExcludedMark
    · simp only [hmac, if_true] at hrun
      obtain ⟨s', hs', hst, hen, hrv, hu, hav⟩ := ih a a' s hs hrun
      refine ⟨s', hs', hst, hen, hrv, ?_, ?_⟩
      · rw [hu]; simp [hmac]
      · rw [hav]; simp [hmac]
    · simp only [hmac, if_false] at hrun
      cases hal : a.AllocateIP name ip with
      | error err => simp [hal] at hrun
      | ok a1 =>
        simp only [hal] at hrun
        unfold IPAM.AllocateIP at hal
        simp only [hs] at hal
        cases hp : parseAddr ip with
        | error msg => simp [hp] at hal
        | ok addr =>
          simp only [hp] at hal
          by_cases hrange : addr < s.start ∨ s.End < addr
          · simp [hrange] at hal
          · simp only [hrange, if_false] at hal
            by_cases hdup : addr ∈ s.allocated
            · simp [hdup] at hal
            · simp only [hdup, if_false, Except.ok.injEq] at hal
              have hs1 : a1 name =
                  some { s with allocated := addr :: s.allocated, used := s.used + 1,
                                available := s.available - 1 } := by
                rw [← hal]
                exact IPAM.set_same _ _ _
              obtain ⟨s', hs', hst, hen, hrv, hu, hav⟩ := ih a1 a' _ hs1 hrun
              refine ⟨s', hs', hst, hen, hrv, ?_, ?_⟩
              · rw [hu]
                simp only [List.filter_cons, hmac, ne_eq, not_false_eq_true, decide_True,
                  if_true, List.length_cons, Nat.cast_add, Nat.cast_one]
                ring
              · rw [hav]
                simp only [List.filter_cons, hmac, ne_eq, not_false_eq_true, decide_True,
                  if_true, List.length_cons, Nat.cast_add, Nat.cast_one]
                ring

/-- A visit order that enumerates the map visits as many entries not marked
EXCLUDED as the map has. -/
theorem enumerates_count (order : List (String × String)) (m : StringMap)
    (h : Enumerates order m) :
    (order.filter fun e => e.2 ≠ ExcludedMark).length =
      Multiset.card (m.entries.filter fun e => e.2 ≠ ExcludedMark) := by
  unfold Enumerates at h
  rw [← h, Multiset.filter_coe, Multiset.coe_card, List.filter_map, List.length_map]
  rfl

theorem visited_count (p : IPPool) (order : List (String × String))
    (horder : ∀ s m, p.Status.IPv4 = some s → s.Allocated = some m → Enumerates order m) :
    ((visitedEntries p order).filter fun e => e.2 ≠ ExcludedMark).length = nonExcludedCount p := by
  unfold visitedEntries nonExcludedCount
  cases hs : p.Status.IPv4 with
  | none => rfl
  | some s =>
    cases hm : s.Allocated with
    | none => simp [hm]
    | some m =>
      simp only [hm]
      exact enumerates_count order m (horder s m hs hm)

theorem NewIPSubnet_ok (a a1 : IPAM) (name cidr start End : String)
    (h : a.NewIPSubnet name cidr start End = .ok a1) :
    ∃ s, a1 name = some s ∧ s.used = 0 ∧ s.available = (s.End : Int) - s.start + 1 ∧
      s.revoked = [] ∧ s.allocated = [] := by
  unfold IPAM.NewIPSubnet at h
  cases ha : a name with
  | some s0 => simp [ha] at h
  | none =>
    simp only [ha] at h
    cases hc : parseCIDR cidr with
    | error msg => simp [hc] at h
    | ok pfx =>
      simp only [hc] at h
      cases hlo : rangeBound pfx start (pfx.networkIP + 1) with
      | error e => simp [hlo] at h
      | ok lo =>
        simp only [hlo] at h
        cases hhi : rangeBound pfx End (pfx.broadcastIP - 1) with
        | error e => simp [hhi] at h
        | ok hi =>
          simp only [hhi, Except.ok.injEq] at h
          rw [← h]
          exact ⟨_, IPAM.set_same _ _ _, rfl, rfl, rfl, rfl⟩

theorem Handler_prepareAgentPod_eq (h : Handler) (p : IPPool) (cn : String) (pod : Pod)
    (hpod : h.prepareAgentPod p cn = .ok pod) :
    prepareAgentPod h.runtime p h.noDHCP h.agentNamespace cn h.agentServiceAccountName
      h.agentImage = some pod := by
  unfold Handler.prepareAgentPod at hpod
  unfold prepareAgentPod
  cases hm : h.runtime.Marshal
      [{ Namespace := (RSplit p.Spec.NetworkName).1, Name := (RSplit p.Spec.NetworkName).2,
         InterfaceName := "eth1" }] with
  | error e => simp [hm] at hpod
  | ok networksStr =>
    cases hc : h.runtime.ParseCIDR p.Spec.IPv4Config.CIDR with
    | error e => simp [hm, hc] at hpod
    | ok ipNet =>
      simp only [hm, hc, Except.ok.injEq] at hpod
      simp only [hm, hc, Option.some.injEq]
      exact hpod

theorem prepareAgentPod_parts (rt : Runtime) (p : IPPool) (noDHCP : Bool)
    (ns cn sa : String) (img : Image) (pod : Pod)
    (hpod : prepareAgentPod rt p noDHCP ns cn sa img = some pod) :
    pod.Spec.Containers.map (fun c => (c.Name, c.Args)) = [("agent", agentArgs p noDHCP)] ∧
    pod.ObjectMeta.Labels =
      some ((((∅ : StringMap).insert vmDHCPControllerLabelKey "agent").insert
        ipPoolNamespaceLabelKey p.ObjectMeta.Namespace).insert
        ipPoolNameLabelKey p.ObjectMeta.Name) := by
  unfold prepareAgentPod at hpod
  cases hc : rt.ParseCIDR p.Spec.IPv4Config.CIDR with
  | error e => simp [hc] at hpod
  | ok ipNet =>
    simp only [hc, Option.some.injEq] at hpod
    rw [← hpod]
    refine ⟨?_, rfl⟩
    cases noDHCP <;> simp [agentArgs]

theorem parseAddr_empty : parseAddr "" = .error "unable to parse IP" := rfl

theorem text_ne_empty_of_parse (text : String) (ip : Nat) (hparse : parseAddr text = .ok ip) :
    text ≠ "" := by
  intro h
  rw [h, parseAddr_empty] at hparse
  cases hparse

theorem checkAddress_reject (cidr : Prefix) (field same text : String) (ip : Nat)
    (hparse : parseAddr text = .ok ip)
    (hbad : cidr.Contains ip = false ∨ ip = cidr.networkIP ∨ ip = cidr.broadcastIP) :
    ∃ cause, checkAddress cidr field same text = some cause := by
  have hne := text_ne_empty_of_parse text ip hparse
  unfold checkAddress
  simp only [hne, if_false, hparse]
  by_cases hc : cidr.Contains ip = true
  · simp only [hc, Bool.not_true, Bool.false_eq_true, if_false]
    by_cases hn : ip = cidr.networkIP
    · exact ⟨_, if_pos hn⟩
    · simp only [if_neg hn]
      by_cases hb : ip = cidr.broadcastIP
      · exact ⟨_, if_pos hb⟩
      · exfalso
        rcases hbad with h | h | h
        · rw [h] at hc
          cases hc
        · exact hn h
        · exact hb h
  · have hf : cidr.Contains ip = false := by
      cases hcc : cidr.Contains ip with
      | true => exact absurd hcc hc
      | false => rfl
    simp only [hf, Bool.not_false, if_true]
    exact ⟨_, rfl⟩

theorem checkAddress_outside (cidr : Prefix) (field same text : String) (ip : Nat)
    (hparse : parseAddr text = .ok ip) (hout : cidr.Contains ip = false) :
    checkAddress cidr field same text = some (field ++ " " ++ text ++ " is not within subnet") := by
  have hne := text_ne_empty_of_parse text ip hparse
  unfold checkAddress
  simp only [hne, if_false, hparse, hout, Bool.not_false, if_true]

/-! ## BuildCache, MonitorAgent, OnRemove: the claims -/

/-- C11, counterexample. The example pool is paused, yet `DeployAgent` asks to
create its agent workload and sets `agent_pod_ref`, `BuildCache` creates the IPAM
subnet and asks for the cache namespace, and `MonitorAgent` looks the workload up. -/
theorem paused_pool_is_reconciled :
    pausedPool.Spec.Paused = some true ∧
    (uninitializedHandler.DeployAgent pausedPool pausedPool.Status).created = [exampleAgent] ∧
    (uninitializedHandler.DeployAgent pausedPool pausedPool.Status).status ≠ pausedPool.Status ∧
    ((uninitializedHandler.BuildCache IPAM.empty [] pausedPool pausedPool.Status).ipam.queries
      ).IsNetworkInitialized "default/net-1" = true ∧
    (uninitializedHandler.BuildCache IPAM.empty [] pausedPool pausedPool.Status).newMaps =
      ["default/net-1"] ∧
    (monitoringHandler.MonitorAgent pausedDeployedPool pausedDeployedPool.Status).inspected =
      [("harvester-system", "default-net-1-agent")] := by
  refine ⟨rfl, by decide, by decide, by rfl, by rfl, by decide⟩

/-- C11, amended. The Registered, CacheReady and AgentReady handlers do not read
`spec.paused`: on a pool with any value of `paused` each of `DeployAgent`,
`BuildCache` and `MonitorAgent` issues the requests and returns the status and
error it does on the same pool with any other value. -/
theorem handlers_ignore_paused (h : Handler) (a : IPAM) (order : List (String × String))
    (p : IPPool) (status : IPPoolStatus) (b : Option Bool) :
    h.DeployAgent { p with Spec := { p.Spec with Paused := b } } status =
      h.DeployAgent p status ∧
    h.BuildCache a order { p with Spec := { p.Spec with Paused := b } } status =
      h.BuildCache a order p status ∧
    h.MonitorAgent { p with Spec := { p.Spec with Paused := b } } status =
      h.MonitorAgent p status :=
  ⟨rfl, rfl, rfl⟩

/-- C12. For a pool whose `CacheReady` condition is `True`, `BuildCache` returns
the given status and no error, leaves the allocator state as it found it and asks
for no cache namespace. -/
theorem BuildCache_one_shot (h : Handler) (a : IPAM) (order : List (String × String))
    (p : IPPool) (status : IPPoolStatus) (hready : Cond.IsTrue CacheReady p = true) :
    h.BuildCache a order p status =
      { ipam := a, newMaps := [], status := status, err := none } := by
  unfold Handler.BuildCache
  simp [hready]

/-- Witness of C12 on the example pool with `CacheReady=True`. -/
theorem BuildCache_one_shot_witness :
    Cond.IsTrue CacheReady cacheReadyPool = true ∧
    uninitializedHandler.BuildCache IPAM.empty [] cacheReadyPool cacheReadyPool.Status =
      { ipam := IPAM.empty, newMaps := [], status := cacheReadyPool.Status, err := none } :=
  ⟨by decide, BuildCache_one_shot uninitializedHandler IPAM.empty [] cacheReadyPool
    cacheReadyPool.Status (by decide)⟩

/-- C13. Let `BuildCache` run on a pool whose `CacheReady` condition is not `True`,
visiting the entries of `status.ipv4.allocated` in any order, and let it return
without error (the allocator then had no subnet for `network_name`, or
`new_subnet` would have failed). Then the allocator holds a subnet for
`network_name` whose `used` is the number of entries of `status.ipv4.allocated` not
marked EXCLUDED, in which every address of `spec.ipv4.pool.exclude` is revoked (it
parses and is not free), and `used + available + |spec.exclude| = end - start + 1`. -/
theorem BuildCache_rehydrates (h : Handler) (a : IPAM) (order : List (String × String))
    (p : IPPool) (status : IPPoolStatus)
    (hnot : Cond.IsTrue CacheReady p = false)
    (horder : ∀ s m, p.Status.IPv4 = some s → s.Allocated = some m → Enumerates order m)
    (hok : (h.BuildCache a order p status).err = none) :
    ∃ s, (h.BuildCache a order p status).ipam p.Spec.NetworkName = some s ∧
      (h.BuildCache a order p status).ipam.queries.GetUsed p.Spec.NetworkName =
        .ok (nonExcludedCount p) ∧
      (h.BuildCache a order p status).ipam.queries.GetAvailable p.Spec.NetworkName =
        .ok s.available ∧
      (∀ v ∈ p.Spec.IPv4Config.Pool.Exclude,
        ∃ ip, parseAddr v.String = .ok ip ∧ ip ∈ s.revoked ∧ s.isFree ip = false) ∧
      (nonExcludedCount p : Int) + s.available + p.Spec.IPv4Config.Pool.Exclude.length =
        (s.End : Int) - s.start + 1 := by
  unfold Handler.BuildCache at hok ⊢
  simp only [hnot, Bool.false_eq_true, if_false] at hok ⊢
  cases hnew : a.NewIPSubnet p.Spec.NetworkName p.Spec.IPv4Config.CIDR
      p.Spec.IPv4Config.Pool.Start p.Spec.IPv4Config.Pool.End with
  | error e => simp [hnew] at hok
  | ok a1 =>
    simp only [hnew] at hok ⊢
    obtain ⟨s0, hs0, hu0, hav0, hrv0, hal0⟩ := NewIPSubnet_ok _ _ _ _ _ _ hnew
    cases hrev : revokeExcluded a1 p.Spec.NetworkName p.Spec.IPv4Config.Pool.Exclude with
    | mk a2 e2 =>
      cases e2 with
      | some e => simp [hrev] at hok
      | none =>
        simp only [hrev] at hok ⊢
        obtain ⟨s1, hs1, hst1, hen1, hu1, hal1, hav1, _, hex1⟩ :=
          revokeExcluded_ok _ _ a1 a2 s0 hs0 hrev
        cases hall : allocateRecorded a2 p.Spec.NetworkName (visitedEntries p order) with
        | mk a3 e3 =>
          cases e3 with
          | some e => simp [hall] at hok
          | none =>
            simp only [hall] at hok ⊢
            obtain ⟨s2, hs2, hst2, hen2, hrv2, hu2, hav2⟩ :=
              allocateRecorded_ok _ _ a2 a3 s1 hs1 hall
            rw [visited_count p order horder] at hu2 hav2
            have hipam : ∀ r : BuildCacheResult, r.ipam = a3 →
                ∃ s, r.ipam p.Spec.NetworkName = some s ∧
                  r.ipam.queries.GetUsed p.Spec.NetworkName = .ok (nonExcludedCount p) ∧
                  r.ipam.queries.GetAvailable p.Spec.NetworkName = .ok s.available ∧
                  (∀ v ∈ p.Spec.IPv4Config.Pool.Exclude,
                    ∃ ip, parseAddr v.String = .ok ip ∧ ip ∈ s.revoked ∧ s.isFree ip = false) ∧
                  (nonExcludedCount p : Int) + s.available +
                      p.Spec.IPv4Config.Pool.Exclude.length =
                    (s.End : Int) - s.start + 1 := by
              intro r hr
              rw [hr]
              have hused : s2.used = (nonExcludedCount p : Int) := by
                rw [hu2, hu1, hu0]; simp
              refine ⟨s2, hs2, ?_, ?_, ?_, ?_⟩
              · simp [IPAM.queries, hs2, hused]
              · simp [IPAM.queries, hs2]
              · intro v hv
                obtain ⟨ip, hip, hmem⟩ := hex1 v hv
                refine ⟨ip, hip, by rw [hrv2]; exact hmem, ?_⟩
                have hmem2 : ip ∈ s2.revoked := by rw [hrv2]; exact hmem
                simp [IPSubnet.isFree, hmem2]
              · rw [hav2, hav1, hav0, hst2, hen2, hst1, hen1]
                ring
            cases hmap : h.cacheAllocator.NewMACIPMap p.Spec.NetworkName with
            | some e => simp [hmap] at hok
            | none => exact hipam _ rfl

/-- Witness of C13 on the spec's rehydration scenario: range `.10` to `.20`, exclude
`.15`, allocated `.11` to a client and `.15` EXCLUDED give `used = 1` and
`available = 9`. -/
theorem BuildCache_rehydrates_witness :
    Cond.IsTrue CacheReady rehydratedPool = false ∧
    (uninitializedHandler.BuildCache IPAM.empty
      [("192.168.0.11", "AA:BB:CC:DD:EE:01"), ("192.168.0.15", "EXCLUDED")]
      rehydratedPool rehydratedPool.Status).err = none ∧
    (uninitializedHandler.BuildCache IPAM.empty
      [("192.168.0.11", "AA:BB:CC:DD:EE:01"), ("192.168.0.15", "EXCLUDED")]
      rehydratedPool rehydratedPool.Status).ipam.queries.GetUsed "default/net-1" = .ok 1 ∧
    (uninitializedHandler.BuildCache IPAM.empty
      [("192.168.0.11", "AA:BB:CC:DD:EE:01"), ("192.168.0.15", "EXCLUDED")]
      rehydratedPool rehydratedPool.Status).ipam.queries.GetAvailable "default/net-1" = .ok 9 ∧
    ∃ s, (uninitializedHandler.BuildCache IPAM.empty
        [("192.168.0.11", "AA:BB:CC:DD:EE:01"), ("192.168.0.15", "EXCLUDED")]
        rehydratedPool rehydratedPool.Status).ipam "default/net-1" = some s ∧
      (nonExcludedCount rehydratedPool : Int) + s.available +
          rehydratedPool.Spec.IPv4Config.Pool.Exclude.length = (s.End : Int) - s.start + 1 := by
  have horder : ∀ s m, rehydratedPool.Status.IPv4 = some s → s.Allocated = some m →
      Enumerates [("192.168.0.11", "AA:BB:CC:DD:EE:01"), ("192.168.0.15", "EXCLUDED")] m := by
    intro s m hs hm
    simp only [rehydratedPool, Option.some.injEq] at hs
    rw [← hs] at hm
    simp only [Option.some.injEq] at hm
    rw [← hm]
    unfold Enumerates
    decide
  obtain ⟨s, hs, _, _, _, hsum⟩ := BuildCache_rehydrates uninitializedHandler IPAM.empty
    [("192.168.0.11", "AA:BB:CC:DD:EE:01"), ("192.168.0.15", "EXCLUDED")]
    rehydratedPool rehydratedPool.Status (by decide) horder (by rfl)
  exact ⟨by decide, by rfl, by rfl, by rfl, s, hs, hsum⟩

/-- Function `isPodReady` holds exactly when the first condition of type `Ready` in
`status.conditions` exists and has the status `True`. -/
theorem isPodReady_iff (pod : Pod) :
    isPodReady pod = true ↔
      ∃ pre c post, pod.Status.Conditions = pre ++ c :: post ∧
        (∀ d ∈ pre, d.Type' ≠ "Ready") ∧ c.Type' = "Ready" ∧ c.Status = "True" := by
  unfold isPodReady
  generalize pod.Status.Conditions = cs
  induction cs with
  | nil =>
    simp only [List.find?_nil, Bool.false_eq_true, false_iff]
    rintro ⟨pre, c, post, h, _⟩
    cases pre <;> simp at h
  | cons d ds ih =>
    by_cases hd : d.Type' = "Ready"
    · have hd' : (d.Type' == PodReady) = true := by simp [PodReady, hd]
      simp only [List.find?_cons, hd']
      constructor
      · intro hs
        exact ⟨[], d, ds, rfl, by simp, hd, by simpa using hs⟩
      · rintro ⟨pre, c, post, h, hpre, hc, hs⟩
        cases pre with
        | nil =>
          simp only [List.nil_append, List.cons.injEq] at h
          rw [h.1]
          simp [hs]
        | cons e es =>
          simp only [List.cons_append, List.cons.injEq] at h
          exact absurd (h.1 ▸ hd) (hpre e (List.mem_cons_self _ _))
    · have hd' : (d.Type' == PodReady) = false := by simp [PodReady, hd]
      simp only [List.find?_cons, hd']
      rw [ih]
      constructor
      · rintro ⟨pre, c, post, h, hpre, hc, hs⟩
        refine ⟨d :: pre, c, post, by simp [h], ?_, hc, hs⟩
        intro e he
        rcases List.mem_cons.1 he with he | he
        · rw [he]; exact hd
        · exact hpre e he
      · rintro ⟨pre, c, post, h, hpre, hc, hs⟩
        cases pre with
        | nil =>
          simp only [List.nil_append, List.cons.injEq] at h
          exact absurd (h.1 ▸ hc) hd
        | cons e es =>
          simp only [List.cons_append, List.cons.injEq] at h
          exact ⟨es, c, post, h.2, fun x hx => hpre x (List.mem_cons_of_mem _ hx), hc, hs⟩

/-- C14. With `no_agent` false, `MonitorAgent` returns without error exactly when
`agent_pod_ref` of the pool is set, the pod cache finds the workload it names,
and the `Ready` condition of that workload (the first condition of type `Ready`
in `status.conditions`) has the status `True`. When `agent_pod_ref` is absent the
error is `agent for ippool <ns>/<name> is not deployed`; when the lookup fails
the error is the one of the lookup; when the workload is found and its `Ready`
condition is missing or not `True` the error is
`agent for ippool <pod ns>/<pod name> is not ready`. The status returned is
always the status given. -/
theorem MonitorAgent_ready_iff (h : Handler) (p : IPPool) (status : IPPoolStatus)
    (hno : h.noAgent = false) :
    ((h.MonitorAgent p status).err = none ↔
      ∃ ref pod, p.Status.AgentPodRef = some ref ∧
        h.podCache.Get ref.Namespace ref.Name = .ok pod ∧
        ∃ pre c post, pod.Status.Conditions = pre ++ c :: post ∧
          (∀ d ∈ pre, d.Type' ≠ "Ready") ∧ c.Type' = "Ready" ∧ c.Status = "True") ∧
    (p.Status.AgentPodRef = none →
      (h.MonitorAgent p status).err =
        some (Errorf ("agent for ippool " ++ p.ObjectMeta.Namespace ++ "/"
          ++ p.ObjectMeta.Name ++ " is not deployed"))) ∧
    (∀ ref err, p.Status.AgentPodRef = some ref →
      h.podCache.Get ref.Namespace ref.Name = .error err →
      (h.MonitorAgent p status).err = some err) ∧
    (∀ ref pod, p.Status.AgentPodRef = some ref →
      h.podCache.Get ref.Namespace ref.Name = .ok pod →
      (∀ c ∈ pod.Status.Conditions, c.Type' = "Ready" → c.Status ≠ "True") →
      (h.MonitorAgent p status).err =
        some (Errorf ("agent for ippool " ++ pod.ObjectMeta.Namespace ++ "/"
          ++ pod.ObjectMeta.Name ++ " is not ready"))) ∧
    (h.MonitorAgent p status).status = status := by
  have hnone : p.Status.AgentPodRef = none →
      h.MonitorAgent p status =
        { inspected := [], status := status,
          err := some (Errorf ("agent for ippool " ++ p.ObjectMeta.Namespace ++ "/"
            ++ p.ObjectMeta.Name ++ " is not deployed")) } := by
    intro href
    unfold Handler.MonitorAgent
    simp only [hno, Bool.false_eq_true, if_false, href]
  have hfail : ∀ ref err, p.Status.AgentPodRef = some ref →
      h.podCache.Get ref.Namespace ref.Name = .error err →
      h.MonitorAgent p status =
        { inspected := [(ref.Namespace, ref.Name)], status := status, err := some err } := by
    intro ref err href hget
    unfold Handler.MonitorAgent
    simp only [hno, Bool.false_eq_true, if_false, href, hget]
  have hfound : ∀ ref pod, p.Status.AgentPodRef = some ref →
      h.podCache.Get ref.Namespace ref.Name = .ok pod →
      h.MonitorAgent p status =
        if isPodReady pod = true then
          { inspected := [(ref.Namespace, ref.Name)], status := status, err := none }
        else
          { inspected := [(ref.Namespace, ref.Name)], status := status,
            err := some (Errorf ("agent for ippool " ++ pod.ObjectMeta.Namespace ++ "/"
              ++ pod.ObjectMeta.Name ++ " is not ready")) } := by
    intro ref pod href hget
    unfold Handler.MonitorAgent
    simp only [hno, Bool.false_eq_true, if_false, href, hget]
    cases isPodReady pod <;> rfl
  refine ⟨⟨?_, ?_⟩, ?_, ?_, ?_, ?_⟩
  · intro hok
    cases href : p.Status.AgentPodRef with
    | none =>
      rw [hnone href] at hok
      cases hok
    | some ref =>
      cases hget : h.podCache.Get ref.Namespace ref.Name with
      | error e =>
        rw [hfail ref e href hget] at hok
        cases hok
      | ok pod =>
        rw [hfound ref pod href hget] at hok
        cases hr : isPodReady pod with
        | true => exact ⟨ref, pod, rfl, hget, (isPodReady_iff pod).1 hr⟩
        | false =>
          simp only [hr, Bool.false_eq_true, if_false] at hok
          cases hok
  · rintro ⟨ref, pod, href, hget, hready⟩
    rw [hfound ref pod href hget, if_pos ((isPodReady_iff pod).2 hready)]
  · intro href
    rw [hnone href]
  · intro ref err href hget
    rw [hfail ref err href hget]
  · intro ref pod href hget hall
    have hr : ¬ isPodReady pod = true := by
      intro hr
      obtain ⟨pre, c, post, hcs, _, hc, hs⟩ := (isPodReady_iff pod).1 hr
      exact hall c (by rw [hcs]; simp) hc hs
    rw [hfound ref pod href hget, if_neg hr]
  · cases href : p.Status.AgentPodRef with
    | none => rw [hnone href]
    | some ref =>
      cases hget : h.podCache.Get ref.Namespace ref.Name with
      | error e => rw [hfail ref e href hget]
      | ok pod =>
        rw [hfound ref pod href hget]
        split <;> rfl

/-- Witness of C14 on the example pool: ready agent; agent without conditions, with
`Ready=False`, and with `PodScheduled=True` only; agent not deployed. -/
theorem MonitorAgent_ready_iff_witness :
    monitoringHandler.noAgent = false ∧
    (monitoringHandler.MonitorAgent deployedPool deployedPool.Status).err = none ∧
    (waitingHandler.MonitorAgent deployedPool deployedPool.Status).err =
      some (Errorf "agent for ippool harvester-system/default-net-1-agent is not ready") ∧
    (unreadyHandler.MonitorAgent deployedPool deployedPool.Status).err =
      some (Errorf "agent for ippool harvester-system/default-net-1-agent is not ready") ∧
    (scheduledHandler.MonitorAgent deployedPool deployedPool.Status).err =
      some (Errorf "agent for ippool harvester-system/default-net-1-agent is not ready") ∧
    (monitoringHandler.MonitorAgent examplePool examplePool.Status).err =
      some (Errorf "agent for ippool default/net-1 is not deployed") ∧
    isPodReady readyAgent = true ∧ isPodReady unreadyAgent = false ∧
    isPodReady scheduledAgent = false := by
  refine ⟨rfl, ?_, by decide, ?_, by decide, ?_, by decide, by decide, by decide⟩
  · exact (MonitorAgent_ready_iff monitoringHandler deployedPool deployedPool.Status rfl).1.2
      ⟨_, readyAgent, rfl, by rfl, [], { Type' := "Ready", Status := "True" }, [], rfl,
        by simp, rfl, rfl⟩
  · exact (MonitorAgent_ready_iff unreadyHandler deployedPool deployedPool.Status rfl).2.2.2.1
      _ unreadyAgent rfl (by rfl) (by decide)
  · exact (MonitorAgent_ready_iff monitoringHandler examplePool examplePool.Status rfl).2.1 rfl

/-- C15, the failing inputs. The allocator holds the subnet of `default/net-1`.
On the example pool without `agent_pod_ref` (and `no_agent` false), and on the
example pool with `agent_pod_ref` set under `no_agent` true, `OnRemove` returns
the pool without error and asks for no deletion, and the allocator still holds
the subnet afterwards. -/
theorem OnRemove_early_return_keeps_subnet :
    exampleIPAM.queries.IsNetworkInitialized "default/net-1" = true ∧
    (uninitializedHandler.OnRemove exampleIPAM "default/net-1" (some examplePool)).ret =
      (some examplePool, none) ∧
    (uninitializedHandler.OnRemove exampleIPAM "default/net-1"
      (some examplePool)).ipam.queries.IsNetworkInitialized "default/net-1" = true ∧
    ({ uninitializedHandler with noAgent := true }.OnRemove exampleIPAM "default/net-1"
      (some deployedPool)).ret = (some deployedPool, none) ∧
    ({ uninitializedHandler with noAgent := true }.OnRemove exampleIPAM "default/net-1"
      (some deployedPool)).ipam.queries.IsNetworkInitialized "default/net-1" = true := by
  refine ⟨by rfl, by decide, by rfl, by decide, by rfl⟩

/-- C16, counterexample. The agent workload named by `agent_pod_ref` of the example
pool is gone, so the delete reports not-found: `OnRemove` returns that error and
the allocator still holds the subnet of `default/net-1`. -/
theorem OnRemove_missing_agent_fails :
    missingAgentHandler.podClient.Delete "harvester-system" "default-net-1-agent" =
      some { reason := "NotFound", message := "pods \"default-net-1-agent\" not found" } ∧
    (missingAgentHandler.OnRemove exampleIPAM "default/net-1" (some deployedPool)).ret =
      (none, some { reason := "NotFound", message := "pods \"default-net-1-agent\" not found" }) ∧
    (missingAgentHandler.OnRemove exampleIPAM "default/net-1"
      (some deployedPool)).ipam.queries.IsNetworkInitialized "default/net-1" = true := by
  refine ⟨by decide, by decide, by rfl⟩

/-- C16, amended. With `no_agent` false and `agent_pod_ref` set, `OnRemove` asks to
delete the workload it names. If that delete fails, with not-found or any other
error, `OnRemove` returns the error and leaves the allocator as it found it. If
the delete succeeds, `OnRemove` returns the pool without error and the allocator
no longer holds a subnet for `network_name`. -/
theorem OnRemove_with_agent (h : Handler) (a : IPAM) (key : String) (p : IPPool)
    (ref : PodReference) (hno : h.noAgent = false) (href : p.Status.AgentPodRef = some ref) :
    (∀ err, h.podClient.Delete ref.Namespace ref.Name = some err →
      h.OnRemove a key (some p) =
        { ipam := a, deleted := [(ref.Namespace, ref.Name)], ret := (none, some err) }) ∧
    (h.podClient.Delete ref.Namespace ref.Name = none →
      (h.OnRemove a key (some p)).ret = (some p, none) ∧
      (h.OnRemove a key (some p)).deleted = [(ref.Namespace, ref.Name)] ∧
      (h.OnRemove a key (some p)).ipam = a.DeleteIPSubnet p.Spec.NetworkName ∧
      (h.OnRemove a key (some p)).ipam.queries.IsNetworkInitialized p.Spec.NetworkName = false) := by
  constructor
  · intro err hdel
    unfold Handler.OnRemove
    simp only [hno, Bool.false_eq_true, if_false, href, hdel]
  · intro hdel
    unfold Handler.OnRemove
    simp [hno, href, hdel, IPAM.queries, IPAM.DeleteIPSubnet, IPAM.set]

/-- Witness of C16 (amended) on the example pool: the delete succeeds and the subnet
is gone; the delete reports not-found and the error comes back. -/
theorem OnRemove_with_agent_witness :
    uninitializedHandler.noAgent = false ∧
    deployedPool.Status.AgentPodRef =
      some { Namespace := "harvester-system", Name := "default-net-1-agent" } ∧
    (uninitializedHandler.OnRemove exampleIPAM "default/net-1" (some deployedPool)).ret =
      (some deployedPool, none) ∧
    (uninitializedHandler.OnRemove exampleIPAM "default/net-1"
      (some deployedPool)).ipam.queries.IsNetworkInitialized "default/net-1" = false ∧
    missingAgentHandler.OnRemove exampleIPAM "default/net-1" (some deployedPool) =
      { ipam := exampleIPAM, deleted := [("harvester-system", "default-net-1-agent")],
        ret := (none, some { reason := "NotFound",
                             message := "pods \"default-net-1-agent\" not found" }) } := by
  have hok := (OnRemove_with_agent uninitializedHandler exampleIPAM "default/net-1" deployedPool
    _ rfl rfl).2 rfl
  exact ⟨rfl, rfl, hok.1, hok.2.2.2,
    (OnRemove_with_agent missingAgentHandler exampleIPAM "default/net-1" deployedPool
      _ rfl rfl).1 _ rfl⟩

/-! ## The agent workload: the claims -/

/-- C17. Whichever of the two constructors builds the agent workload, the method
`Handler.prepareAgentPod` or the function `prepareAgentPod` of `common.go`, the
workload has one main container, `agent`, whose args are exactly
`["--ippool-ref", "<ns>/<name>"]` when `no_dhcp` is false and that list followed
by `"--dry-run"` when it is true. -/
theorem agent_args (h : Handler) (rt : Runtime) (p : IPPool) (noDHCP : Bool)
    (ns cn sa : String) (img : Image) (pod pod' : Pod)
    (hpod : h.prepareAgentPod p cn = .ok pod)
    (hpod' : prepareAgentPod rt p noDHCP ns cn sa img = some pod') :
    pod.Spec.Containers.map (fun c => (c.Name, c.Args)) =
      [("agent", if h.noDHCP then
          ["--ippool-ref", p.ObjectMeta.Namespace ++ "/" ++ p.ObjectMeta.Name, "--dry-run"]
        else ["--ippool-ref", p.ObjectMeta.Namespace ++ "/" ++ p.ObjectMeta.Name])] ∧
    pod'.Spec.Containers.map (fun c => (c.Name, c.Args)) =
      [("agent", if noDHCP then
          ["--ippool-ref", p.ObjectMeta.Namespace ++ "/" ++ p.ObjectMeta.Name, "--dry-run"]
        else ["--ippool-ref", p.ObjectMeta.Namespace ++ "/" ++ p.ObjectMeta.Name])] :=
  ⟨(prepareAgentPod_parts _ _ _ _ _ _ _ _ (Handler_prepareAgentPod_eq h p cn pod hpod)).1,
   (prepareAgentPod_parts _ _ _ _ _ _ _ _ hpod').1⟩

/-- Witness of C17 on the example pool: the method without `no_dhcp`, the function
with it. -/
theorem agent_args_witness :
    uninitializedHandler.prepareAgentPod examplePool "mgmt" = .ok exampleAgent ∧
    prepareAgentPod exampleRuntime examplePool true "harvester-system" "mgmt" "vm-dhcp-agent"
      { text := "rancher/harvester-vm-dhcp-agent:main-head" } = some dryRunAgent ∧
    exampleAgent.Spec.Containers.map (fun c => (c.Name, c.Args)) =
      [("agent", ["--ippool-ref", "default/net-1"])] ∧
    dryRunAgent.Spec.Containers.map (fun c => (c.Name, c.Args)) =
      [("agent", ["--ippool-ref", "default/net-1", "--dry-run"])] := by
  have hw := agent_args uninitializedHandler exampleRuntime examplePool true "harvester-system"
    "mgmt" "vm-dhcp-agent" { text := "rancher/harvester-vm-dhcp-agent:main-head" }
    exampleAgent dryRunAgent (by rfl) (by decide)
  exact ⟨by rfl, by decide, hw.1, hw.2⟩

/-- The label set of the `ippool-trigger` watch selects exactly the objects that
carry `network.harvesterhci.io/vm-dhcp-controller=agent`. -/
theorem agentLabelSet_selects (labels : Option StringMap) :
    SelectorMatches agentLabelSet labels ↔
      lookupIn labels "network.harvesterhci.io/vm-dhcp-controller" = some "agent" := by
  unfold SelectorMatches agentLabelSet
  constructor
  · intro hsel
    have hk := hsel "network.harvesterhci.io/vm-dhcp-controller"
      (by rw [Finmap.mem_keys, Finmap.mem_insert]; exact Or.inl rfl)
    rw [hk, Finmap.lookup_insert]
  · intro hl k hk
    have hk' : k = "network.harvesterhci.io/vm-dhcp-controller" := by
      rw [Finmap.mem_keys, Finmap.mem_insert] at hk
      rcases hk with hk | hk
      · exact hk
      · exact absurd hk (Finmap.not_mem_empty)
    rw [hk', hl, Finmap.lookup_insert]

/-- C18. The watch `ippool-trigger` selects on the label
`network.harvesterhci.io/vm-dhcp-controller=agent`: its label set has that one
entry and matches exactly the objects carrying it. The workload either
constructor builds for a pool carries that label (its key
`network.GroupName + "/vm-dhcp-controller"` is the key the watch spells out), so
the watch selects it; the key the watch derives from its `ippool-namespace` and
`ippool-name` labels is the namespace and name of the pool; and whenever the pod
cache lists workloads for the watch, the watch emits one key for each of them in
order, among them the pool's key when its workload is listed. -/
theorem trigger_round_trip (h : Handler) (rt : Runtime) (p : IPPool) (noDHCP : Bool)
    (ns cn sa : String) (img : Image) (pod : Pod)
    (hpod : h.prepareAgentPod p cn = .ok pod ∨
      prepareAgentPod rt p noDHCP ns cn sa img = some pod) :
    agentLabelSet.entries =
      {⟨"network.harvesterhci.io/vm-dhcp-controller", "agent"⟩} ∧
    vmDHCPControllerLabelKey = "network.harvesterhci.io/vm-dhcp-controller" ∧
    (∀ labels : Option StringMap, SelectorMatches agentLabelSet labels ↔
      lookupIn labels "network.harvesterhci.io/vm-dhcp-controller" = some "agent") ∧
    lookupIn pod.ObjectMeta.Labels "network.harvesterhci.io/vm-dhcp-controller" = some "agent" ∧
    SelectorMatches agentLabelSet pod.ObjectMeta.Labels ∧
    lookupIn pod.ObjectMeta.Labels ipPoolNamespaceLabelKey = some p.ObjectMeta.Namespace ∧
    lookupIn pod.ObjectMeta.Labels ipPoolNameLabelKey = some p.ObjectMeta.Name ∧
    keyOfPod pod = { Namespace := p.ObjectMeta.Namespace, Name := p.ObjectMeta.Name } ∧
    (∀ (h' : Handler) (namespace' name' : String) (pods : List Pod),
      h'.podCache.List namespace' agentLabelSet = .ok pods →
      h'.trigger namespace' name' = .ok (pods.map keyOfPod) ∧
      (pod ∈ pods → ∃ keys, h'.trigger namespace' name' = .ok keys ∧
        ({ Namespace := p.ObjectMeta.Namespace, Name := p.ObjectMeta.Name } : Key) ∈ keys)) := by
  have hlabels : pod.ObjectMeta.Labels =
      some ((((∅ : StringMap).insert vmDHCPControllerLabelKey "agent").insert
        ipPoolNamespaceLabelKey p.ObjectMeta.Namespace).insert
        ipPoolNameLabelKey p.ObjectMeta.Name) := by
    rcases hpod with hpod | hpod
    · exact (prepareAgentPod_parts _ _ _ _ _ _ _ _ (Handler_prepareAgentPod_eq h p cn pod hpod)).2
    · exact (prepareAgentPod_parts _ _ _ _ _ _ _ _ hpod).2
  have h1 : vmDHCPControllerLabelKey ≠ ipPoolNamespaceLabelKey := by decide
  have h2 : vmDHCPControllerLabelKey ≠ ipPoolNameLabelKey := by decide
  have h3 : ipPoolNamespaceLabelKey ≠ ipPoolNameLabelKey := by decide
  have hvm : lookupIn pod.ObjectMeta.Labels vmDHCPControllerLabelKey = some "agent" := by
    rw [hlabels]
    simp only [lookupIn]
    rw [Finmap.lookup_insert_of_ne _ h2, Finmap.lookup_insert_of_ne _ h1, Finmap.lookup_insert]
  have hns : lookupIn pod.ObjectMeta.Labels ipPoolNamespaceLabelKey =
      some p.ObjectMeta.Namespace := by
    rw [hlabels]
    simp only [lookupIn]
    rw [Finmap.lookup_insert_of_ne _ h3, Finmap.lookup_insert]
  have hname : lookupIn pod.ObjectMeta.Labels ipPoolNameLabelKey = some p.ObjectMeta.Name := by
    rw [hlabels]
    simp only [lookupIn]
    rw [Finmap.lookup_insert]
  have hkey : keyOfPod pod =
      { Namespace := p.ObjectMeta.Namespace, Name := p.ObjectMeta.Name } := by
    simp [keyOfPod, labelValue, hns, hname]
  refine ⟨by decide, by decide, agentLabelSet_selects, hvm,
    (agentLabelSet_selects _).2 hvm, hns, hname, hkey, ?_⟩
  intro h' namespace' name' pods hlist
  have htrig : h'.trigger namespace' name' = .ok (pods.map keyOfPod) := by
    unfold Handler.trigger
    rw [hlist]
  refine ⟨htrig, fun hmem => ⟨_, htrig, ?_⟩⟩
  rw [← hkey]
  exact List.mem_map_of_mem _ hmem

/-- Witness of C18 on the example pool: the pod cache holds its agent next to a
workload without the agent label; the cache lists the agent only, and an event in
the agent namespace makes the watch emit `default/net-1` and nothing else. -/
theorem trigger_round_trip_witness :
    uninitializedHandler.prepareAgentPod examplePool "mgmt" = .ok exampleAgent ∧
    ¬ SelectorMatches agentLabelSet corednsPod.ObjectMeta.Labels ∧
    mixedCacheHandler.podCache.List "harvester-system" agentLabelSet = .ok [exampleAgent] ∧
    mixedCacheHandler.trigger "harvester-system" "coredns" =
      .ok [{ Namespace := "default", Name := "net-1" }] := by
  have hw := trigger_round_trip uninitializedHandler exampleRuntime examplePool false
    "harvester-system" "mgmt" "vm-dhcp-agent" { text := "" } exampleAgent (Or.inl (by rfl))
  refine ⟨by rfl, ?_, by rfl, ?_⟩
  · rw [hw.2.2.1]
    decide
  · have ht := (hw.2.2.2.2.2.2.2.2 mixedCacheHandler "harvester-system" "coredns" [exampleAgent]
      (by rfl)).1
    rw [ht]
    rfl

/-! ## The validator: the claims -/

/-- C19. For a pool whose network name resolves, whose CIDR parses and whose server
address parses as an address outside the CIDR, the validator rejects on create,
and on update from any prior version, with exactly
`could not create IPPool <ns>/<name> because server ip <server_ip> is not within subnet`. -/
theorem validator_server_ip_outside (v : Validator) (p old : IPPool)
    (nad : NetworkAttachmentDefinition) (cidr : Prefix) (ip : Nat)
    (hnad : v.nadCache.Get (RSplit p.Spec.NetworkName).1 (RSplit p.Spec.NetworkName).2 = .ok nad)
    (hcidr : parseCIDR p.Spec.IPv4Config.CIDR = .ok cidr)
    (hparse : parseAddr p.Spec.IPv4Config.ServerIP = .ok ip)
    (hout : cidr.Contains ip = false) :
    v.Create p = some (Errorf ("could not create IPPool " ++ p.ObjectMeta.Namespace ++ "/"
      ++ p.ObjectMeta.Name ++ " because server ip " ++ p.Spec.IPv4Config.ServerIP
      ++ " is not within subnet")) ∧
    v.Update old p = some (Errorf ("could not create IPPool " ++ p.ObjectMeta.Namespace ++ "/"
      ++ p.ObjectMeta.Name ++ " because server ip " ++ p.Spec.IPv4Config.ServerIP
      ++ " is not within subnet")) := by
  have hall : ∀ o, v.check p o = some (createErr p
      ("server ip" ++ " " ++ p.Spec.IPv4Config.ServerIP ++ " is not within subnet")) := by
    intro o
    unfold Validator.check
    simp only [hnad, hcidr]
    simp only [checkAddresses,
      checkAddress_outside cidr "server ip" "cannot be the same as" _ ip hparse hout]
  have hmsg : createErr p ("server ip" ++ " " ++ p.Spec.IPv4Config.ServerIP
        ++ " is not within subnet") =
      Errorf ("could not create IPPool " ++ p.ObjectMeta.Namespace ++ "/"
        ++ p.ObjectMeta.Name ++ " because server ip " ++ p.Spec.IPv4Config.ServerIP
        ++ " is not within subnet") := by
    simp only [createErr, Errorf]
    congr 1
    apply String.ext
    simp only [String.data_append, List.append_assoc]
    rfl
  exact ⟨by rw [Validator.Create, hall, hmsg], by rw [Validator.Update, hall, hmsg]⟩

/-- Witness of C19: the pool of the tests, `192.168.100.2` against `192.168.0.0/24`. -/
theorem validator_server_ip_outside_witness :
    parseCIDR "192.168.0.0/24" = .ok { addr := 3232235520, bits := 24 } ∧
    parseAddr "192.168.100.2" = .ok 3232261122 ∧
    Prefix.Contains { addr := 3232235520, bits := 24 } 3232261122 = false ∧
    testValidator.Create (testPool "192.168.0.0/24" "192.168.100.2" "" "" "") =
      some (Errorf
        "could not create IPPool default/net-1 because server ip 192.168.100.2 is not within subnet") ∧
    testValidator.Update (testPool "192.168.0.0/24" "192.168.0.2" "" "" "")
        (testPool "192.168.0.0/24" "192.168.100.2" "" "" "") =
      some (Errorf
        "could not create IPPool default/net-1 because server ip 192.168.100.2 is not within subnet") := by
  have hw := validator_server_ip_outside testValidator
    (testPool "192.168.0.0/24" "192.168.100.2" "" "" "")
    (testPool "192.168.0.0/24" "192.168.0.2" "" "" "") unlabelledNAD
    { addr := 3232235520, bits := 24 } 3232261122 (by rfl) (by rfl) (by rfl) (by decide)
  exact ⟨by rfl, by rfl, by decide, hw.1, hw.2⟩

/-- C20. For a pool whose CIDR parses, if one of `server_ip`, `router`, `pool.start`
and `pool.end` parses as an address that is the network address of the CIDR, its
broadcast address, or outside the CIDR, the validator rejects the pool on create
and on update from any prior version. -/
theorem validator_rejects_bad_address (v : Validator) (p old : IPPool) (cidr : Prefix)
    (text : String) (ip : Nat)
    (hcidr : parseCIDR p.Spec.IPv4Config.CIDR = .ok cidr)
    (hfield : text ∈ checkedAddresses p)
    (hparse : parseAddr text = .ok ip)
    (hbad : ip = cidr.networkIP ∨ ip = cidr.broadcastIP ∨ cidr.Contains ip = false) :
    v.Create p ≠ none ∧ v.Update old p ≠ none := by
  have hbad' : cidr.Contains ip = false ∨ ip = cidr.networkIP ∨ ip = cidr.broadcastIP := by
    rcases hbad with h | h | h
    · exact Or.inr (Or.inl h)
    · exact Or.inr (Or.inr h)
    · exact Or.inl h
  have hrej : ∀ field same, ∃ cause, checkAddress cidr field same text = some cause :=
    fun field same => checkAddress_reject cidr field same text ip hparse hbad'
  have hall : ∀ o, v.check p o ≠ none := by
    intro o
    unfold Validator.check
    cases hnad : v.nadCache.Get (RSplit p.Spec.NetworkName).1 (RSplit p.Spec.NetworkName).2 with
    | error e => simp
    | ok nad =>
      simp only [hcidr]
      have hsome : ∃ cause, checkAddresses cidr p o = some cause := by
        simp only [checkedAddresses, List.mem_cons, List.mem_singleton, List.not_mem_nil,
          or_false] at hfield
        simp only [checkAddresses]
        cases h1 : checkAddress cidr "server ip" "cannot be the same as"
            p.Spec.IPv4Config.ServerIP with
        | some c => exact ⟨c, rfl⟩
        | none =>
          cases h2 : checkAddress cidr "router ip" "is the same as" p.Spec.IPv4Config.Router with
          | some c => exact ⟨c, rfl⟩
          | none =>
            cases h3 : checkAddress cidr "start ip" "is the same as"
                p.Spec.IPv4Config.Pool.Start with
            | some c => exact ⟨c, rfl⟩
            | none =>
              cases h4 : checkAddress cidr "end ip" "is the same as"
                  p.Spec.IPv4Config.Pool.End with
              | some c => exact ⟨c, rfl⟩
              | none =>
                exfalso
                rcases hfield with hf | hf | hf | hf
                · obtain ⟨c, hc⟩ := hrej "server ip" "cannot be the same as"
                  rw [hf, h1] at hc
                  cases hc
                · obtain ⟨c, hc⟩ := hrej "router ip" "is the same as"
                  rw [hf, h2] at hc
                  cases hc
                · obtain ⟨c, hc⟩ := hrej "start ip" "is the same as"
                  rw [hf, h3] at hc
                  cases hc
                · obtain ⟨c, hc⟩ := hrej "end ip" "is the same as"
                  rw [hf, h4] at hc
                  cases hc
      obtain ⟨cause, hcause⟩ := hsome
      simp [hcause]
  exact ⟨hall none, hall (some old)⟩

/-- Witness of C20: the two pools of the claim, server address `192.168.0.127` in
`192.168.0.0/25` (the broadcast address) and `192.168.0.128` in `192.168.0.128/25`
(the network address), with the messages the tests expect. -/
theorem validator_rejects_bad_address_witness :
    (parseCIDR "192.168.0.0/25" = .ok { addr := 3232235520, bits := 25 } ∧
      parseAddr "192.168.0.127" = .ok 3232235647 ∧
      3232235647 = Prefix.broadcastIP { addr := 3232235520, bits := 25 } ∧
      testValidator.Create (testPool "192.168.0.0/25" "192.168.0.127" "" "" "") ≠ none ∧
      testValidator.Create (testPool "192.168.0.0/25" "192.168.0.127" "" "" "") =
        some (Errorf ("could not create IPPool default/net-1 because server ip 192.168.0.127 "
          ++ "cannot be the same as broadcast ip"))) ∧
    (parseCIDR "192.168.0.128/25" = .ok { addr := 3232235648, bits := 25 } ∧
      parseAddr "192.168.0.128" = .ok 3232235648 ∧
      3232235648 = Prefix.networkIP { addr := 3232235648, bits := 25 } ∧
      testValidator.Update (testPool "192.168.0.128/25" "192.168.0.130" "" "" "")
        (testPool "192.168.0.128/25" "192.168.0.128" "" "" "") ≠ none ∧
      testValidator.Create (testPool "192.168.0.128/25" "192.168.0.128" "" "" "") =
        some (Errorf ("could not create IPPool default/net-1 because server ip 192.168.0.128 "
          ++ "cannot be the same as network ip"))) := by
  have h1 := validator_rejects_bad_address testValidator
    (testPool "192.168.0.0/25" "192.168.0.127" "" "" "")
    (testPool "192.168.0.0/25" "192.168.0.2" "" "" "")
    { addr := 3232235520, bits := 25 } "192.168.0.127" 3232235647 (by rfl) (by decide) (by rfl)
    (Or.inr (Or.inl (by decide)))
  have h2 := validator_rejects_bad_address testValidator
    (testPool "192.168.0.128/25" "192.168.0.128" "" "" "")
    (testPool "192.168.0.128/25" "192.168.0.130" "" "" "")
    { addr := 3232235648, bits := 25 } "192.168.0.128" 3232235648 (by rfl) (by decide) (by rfl)
    (Or.inl (by decide))
  exact ⟨⟨by rfl, by rfl, by decide, h1.1, by decide⟩, ⟨by rfl, by rfl, by decide, h2.2, by decide⟩⟩

/-! ## The validator on update and on unknown networks: the claims -/

/-- The update-only rule of the validator (check 5). -/
theorem checkAddresses_update (cidr : Prefix) (p old : IPPool) :
    checkAddresses cidr p (some old) =
      match checkAddresses cidr p none with
      | some cause => some cause
      | none =>
        if old.Spec.IPv4Config.ServerIP ≠ p.Spec.IPv4Config.ServerIP then
          match p.allocatedAt p.Spec.IPv4Config.ServerIP with
          | some mac =>
            if mac ≠ ExcludedMark then
              some ("server ip " ++ p.Spec.IPv4Config.ServerIP ++ " is already allocated")
            else none
          | none => none
        else none := by
  simp only [checkAddresses]
  cases checkAddress cidr "server ip" "cannot be the same as" p.Spec.IPv4Config.ServerIP with
  | some c => rfl
  | none =>
    cases checkAddress cidr "router ip" "is the same as" p.Spec.IPv4Config.Router with
    | some c => rfl
    | none =>
      cases checkAddress cidr "start ip" "is the same as" p.Spec.IPv4Config.Pool.Start with
      | some c => rfl
      | none =>
        cases checkAddress cidr "end ip" "is the same as" p.Spec.IPv4Config.Pool.End with
        | some c => rfl
        | none =>
          by_cases hr : p.Spec.IPv4Config.ServerIP ≠ "" ∧
              p.Spec.IPv4Config.ServerIP = p.Spec.IPv4Config.Router
          · simp only [if_pos hr]
          · simp only [if_neg hr]

theorem createErr_message (p : IPPool) (cause : String) :
    createErr p cause = Errorf ("could not create IPPool " ++ p.ObjectMeta.Namespace ++ "/"
      ++ p.ObjectMeta.Name ++ " because " ++ cause) := rfl

/-- C21, counterexample. On update the server address changes from `192.168.0.2` to
`192.168.100.2`, which `status.ipv4.allocated` maps to a client MAC; the validator
rejects, but with the message of the subnet check, not with
`... is already allocated`. -/
theorem validator_update_reports_earlier_check :
    (outsideLeasePool "192.168.0.2").Spec.IPv4Config.ServerIP ≠
      (outsideLeasePool "192.168.100.2").Spec.IPv4Config.ServerIP ∧
    (outsideLeasePool "192.168.100.2").allocatedAt "192.168.100.2" =
      some "11:22:33:44:55:66" ∧
    "11:22:33:44:55:66" ≠ ExcludedMark ∧
    testValidator.Update (outsideLeasePool "192.168.0.2") (outsideLeasePool "192.168.100.2") =
      some (Errorf
        "could not create IPPool default/net-1 because server ip 192.168.100.2 is not within subnet") ∧
    testValidator.Update (outsideLeasePool "192.168.0.2") (outsideLeasePool "192.168.100.2") ≠
      some (Errorf
        "could not create IPPool default/net-1 because server ip 192.168.100.2 is already allocated") := by
  refine ⟨by decide, by decide, by decide, by decide, by decide⟩

/-- C21, amended. On update, when the server address changed and
`status.ipv4.allocated` maps the new server address to a MAC other than EXCLUDED,
the validator rejects; the message is
`could not create IPPool <ns>/<name> because server ip <server_ip> is already allocated`
when the new pool passes the checks made on create, and the message of the first
failing one of those checks otherwise. When the server address is unchanged, or
the entry is absent or marked EXCLUDED, the verdict on update is the verdict on
create. -/
theorem validator_update_allocated (v : Validator) (old new : IPPool) :
    (old.Spec.IPv4Config.ServerIP ≠ new.Spec.IPv4Config.ServerIP →
      ∀ mac, new.allocatedAt new.Spec.IPv4Config.ServerIP = some mac → mac ≠ ExcludedMark →
        (v.Create new = none →
          v.Update old new = some (Errorf ("could not create IPPool "
            ++ new.ObjectMeta.Namespace ++ "/" ++ new.ObjectMeta.Name ++ " because server ip "
            ++ new.Spec.IPv4Config.ServerIP ++ " is already allocated"))) ∧
        (∀ err, v.Create new = some err → v.Update old new = some err)) ∧
    ((old.Spec.IPv4Config.ServerIP = new.Spec.IPv4Config.ServerIP ∨
        new.allocatedAt new.Spec.IPv4Config.ServerIP = none ∨
        new.allocatedAt new.Spec.IPv4Config.ServerIP = some ExcludedMark) →
      v.Update old new = v.Create new) := by
  unfold Validator.Create Validator.Update Validator.check
  cases v.nadCache.Get (RSplit new.Spec.NetworkName).1 (RSplit new.Spec.NetworkName).2 with
  | error e => simp
  | ok nad =>
    cases parseCIDR new.Spec.IPv4Config.CIDR with
    | error msg => simp
    | ok cidr =>
      simp only [checkAddresses_update cidr new old]
      cases hc : checkAddresses cidr new none with
      | some cause => simp
      | none =>
        constructor
        · intro hchanged mac halloc hmac
          simp only [hchanged, ne_eq, not_false_eq_true, if_true, halloc, hmac, true_implies]
          refine ⟨?_, by simp⟩
          rw [createErr_message]
          congr 2
          apply String.ext
          simp only [String.data_append, List.append_assoc]
          rfl
        · intro hcase
          rcases hcase with h | h | h
          · simp [h]
          · simp [h]
          · simp [h]

/-- Witness of C21 (amended): the update test, where the server address moves to
`192.168.0.100`, held by a client; and an update that keeps the server address. -/
theorem validator_update_allocated_witness :
    testValidator.Create (leasedPool "192.168.0.100") = none ∧
    testValidator.Update (leasedPool "192.168.0.2") (leasedPool "192.168.0.100") =
      some (Errorf
        "could not create IPPool default/net-1 because server ip 192.168.0.100 is already allocated") ∧
    testValidator.Update (leasedPool "192.168.0.100") (leasedPool "192.168.0.100") =
      testValidator.Create (leasedPool "192.168.0.100") := by
  have hw := validator_update_allocated testValidator (leasedPool "192.168.0.2")
    (leasedPool "192.168.0.100")
  have hw' := validator_update_allocated testValidator (leasedPool "192.168.0.100")
    (leasedPool "192.168.0.100")
  exact ⟨by decide, (hw.1 (by decide) "11:22:33:44:55:66" (by decide) (by decide)).1 (by decide),
    hw'.2 (Or.inl rfl)⟩

theorem splitFirst_none (sep : Char) (cs : List Char) (h : sep ∉ cs) :
    splitFirst sep cs = none := by
  induction cs with
  | nil => rfl
  | cons c cs ih =>
    have hc : c ≠ sep := fun hc => h (by rw [hc]; exact List.mem_cons_self _ _)
    have hcs : sep ∉ cs := fun hm => h (List.mem_cons_of_mem _ hm)
    simp [splitFirst, hc, ih hcs]

theorem splitFirst_append (sep : Char) (a b : List Char) (h : sep ∉ a) :
    splitFirst sep (a ++ sep :: b) = some (a, b) := by
  induction a with
  | nil => simp [splitFirst]
  | cons c cs ih =>
    have hc : c ≠ sep := fun hc => h (by rw [hc]; exact List.mem_cons_self _ _)
    have hcs : sep ∉ cs := fun hm => h (List.mem_cons_of_mem _ hm)
    simp [splitFirst, hc, ih hcs]

/-- C22. For a pool whose network name does not resolve (the lookup of its name part
answers with the not-found error of the network-attachment records), the validator
rejects on create, and on update from any prior version, with
`could not create IPPool <ns>/<name> because network-attachment-definitions.k8s.cni.cncf.io "<nad name>" not found`.
The name part is the second result of `kv.RSplit`: the text after the first
separator, or the whole text when there is no separator, in both cases as it
stands when it has no white space at its ends. -/
theorem validator_unknown_network (v : Validator) (p old : IPPool)
    (hget : v.nadCache.Get (RSplit p.Spec.NetworkName).1 (RSplit p.Spec.NetworkName).2 =
      .error (nadNotFound (RSplit p.Spec.NetworkName).2)) :
    v.Create p = some (Errorf ("could not create IPPool " ++ p.ObjectMeta.Namespace ++ "/"
      ++ p.ObjectMeta.Name ++ " because network-attachment-definitions.k8s.cni.cncf.io \""
      ++ (RSplit p.Spec.NetworkName).2 ++ "\" not found")) ∧
    v.Update old p = some (Errorf ("could not create IPPool " ++ p.ObjectMeta.Namespace ++ "/"
      ++ p.ObjectMeta.Name ++ " because network-attachment-definitions.k8s.cni.cncf.io \""
      ++ (RSplit p.Spec.NetworkName).2 ++ "\" not found")) ∧
    (∀ ns name : List Char, '/' ∉ ns → p.Spec.NetworkName.data = ns ++ '/' :: name →
      trimSpace name = name → (RSplit p.Spec.NetworkName).2 = String.mk name) ∧
    ('/' ∉ p.Spec.NetworkName.data → trimSpace p.Spec.NetworkName.data = p.Spec.NetworkName.data →
      (RSplit p.Spec.NetworkName).2 = p.Spec.NetworkName) := by
  have hall : ∀ o, v.check p o = some (Errorf ("could not create IPPool "
      ++ p.ObjectMeta.Namespace ++ "/" ++ p.ObjectMeta.Name
      ++ " because network-attachment-definitions.k8s.cni.cncf.io \""
      ++ (RSplit p.Spec.NetworkName).2 ++ "\" not found")) := by
    intro o
    unfold Validator.check
    simp only [hget, createErr_message, nadNotFound]
    congr 2
    apply String.ext
    simp only [String.data_append, List.append_assoc]
    rfl
  refine ⟨hall none, hall (some old), ?_, ?_⟩
  · intro ns name hns hdata htrim
    unfold RSplit
    rw [hdata, splitFirst_append '/' ns name hns]
    simp [htrim]
  · intro hno htrim
    unfold RSplit
    rw [splitFirst_none '/' _ hno]
    simp [htrim]

/-- Witness of C22: the network names `nonexist` and `default/nonexist` of the tests
and the spec. -/
theorem validator_unknown_network_witness :
    (RSplit "nonexist").2 = "nonexist" ∧ (RSplit "default/nonexist").2 = "nonexist" ∧
    testValidator.Create (poolOnNetwork "nonexist") =
      some (Errorf ("could not create IPPool default/net-1 because "
        ++ "network-attachment-definitions.k8s.cni.cncf.io \"nonexist\" not found")) ∧
    testValidator.Update (poolOnNetwork "default/net-1") (poolOnNetwork "default/nonexist") =
      some (Errorf ("could not create IPPool default/net-1 because "
        ++ "network-attachment-definitions.k8s.cni.cncf.io \"nonexist\" not found")) := by
  have h1 := validator_unknown_network testValidator (poolOnNetwork "nonexist")
    (poolOnNetwork "default/net-1") (by rfl)
  have h2 := validator_unknown_network testValidator (poolOnNetwork "default/nonexist")
    (poolOnNetwork "default/net-1") (by rfl)
  exact ⟨by decide, by decide, h1.1, h2.2.1⟩

/-! ## The two constructors, failures of `BuildCache`, the pod builder: the claims -/

theorem revokeExcluded_keeps (name : String) (exclude : List IPv4Addr) :
    ∀ a : IPAM, (a name).isSome = true →
      ((revokeExcluded a name exclude).1 name).isSome = true := by
  induction exclude with
  | nil => intro a ha; exact ha
  | cons v vs ih =>
    intro a ha
    unfold revokeExcluded
    cases hrev : a.RevokeIP name v.String with
    | error e => exact ha
    | ok a1 =>
      simp only
      apply ih
      unfold IPAM.RevokeIP at hrev
      cases hs : a name with
      | none => simp [hs] at hrev
      | some s =>
        simp only [hs] at hrev
        cases hp : parseAddr v.String with
        | error msg => simp [hp] at hrev
        | ok addr =>
          simp only [hp, Except.ok.injEq] at hrev
          rw [← hrev, IPAM.set_same]
          rfl

theorem allocateRecorded_keeps (name : String) (entries : List (String × String)) :
    ∀ a : IPAM, (a name).isSome = true →
      ((allocateRecorded a name entries).1 name).isSome = true := by
  induction entries with
  | nil => intro a ha; exact ha
  | cons e es ih =>
    intro a ha
    obtain ⟨ip, mac⟩ := e
    unfold allocateRecorded
    by_cases hmac : mac = ExcludedMark
    · simp only [hmac, if_true]
      exact ih a ha
    · simp only [hmac, if_false]
      cases hal : a.AllocateIP name ip with
      | error err => exact ha
      | ok a1 =>
        simp only
        apply ih
        unfold IPAM.AllocateIP at hal
        cases hs : a name with
        | none => simp [hs] at hal
        | some s =>
          simp only [hs] at hal
          cases hp : parseAddr ip with
          | error msg => simp [hp] at hal
          | ok addr =>
            simp only [hp] at hal
            by_cases hrange : addr < s.start ∨ s.End < addr
            · simp [hrange] at hal
            · simp only [hrange, if_false] at hal
              by_cases hdup : addr ∈ s.allocated
              · simp [hdup] at hal
              · simp only [hdup, if_false, Except.ok.injEq] at hal
                rw [← hal, IPAM.set_same]
                rfl

theorem NewIPSubnet_existing (a : IPAM) (name cidr start End : String)
    (h : (a name).isSome = true) :
    a.NewIPSubnet name cidr start End =
      .error (Errorf ("network " ++ name ++ " already exists")) := by
  unfold IPAM.NewIPSubnet
  cases ha : a name with
  | none => simp [ha] at h
  | some s => rfl

theorem NewIPSubnet_fresh (a a1 : IPAM) (name cidr start End : String)
    (h : a.NewIPSubnet name cidr start End = .ok a1) : a name = none := by
  unfold IPAM.NewIPSubnet at h
  cases ha : a name with
  | none => rfl
  | some s => simp [ha] at h

/-- The allocator state `BuildCache` leaves once `new_subnet` has succeeded holds a
subnet for the network, whatever happens afterwards. -/
theorem BuildCache_keeps_subnet (h : Handler) (a a1 : IPAM) (order : List (String × String))
    (p : IPPool) (status : IPPoolStatus) (hnot : Cond.IsTrue CacheReady p = false)
    (hnew : a.NewIPSubnet p.Spec.NetworkName p.Spec.IPv4Config.CIDR
      p.Spec.IPv4Config.Pool.Start p.Spec.IPv4Config.Pool.End = .ok a1) :
    ((h.BuildCache a order p status).ipam p.Spec.NetworkName).isSome = true := by
  obtain ⟨s0, hs0, _⟩ := NewIPSubnet_ok _ _ _ _ _ _ hnew
  have h1 : (a1 p.Spec.NetworkName).isSome = true := by rw [hs0]; rfl
  have h2 := revokeExcluded_keeps p.Spec.NetworkName p.Spec.IPv4Config.Pool.Exclude a1 h1
  unfold Handler.BuildCache
  simp only [hnot, Bool.false_eq_true, if_false, hnew]
  cases hrev : revokeExcluded a1 p.Spec.NetworkName p.Spec.IPv4Config.Pool.Exclude with
  | mk a2 e2 =>
    rw [hrev] at h2
    cases e2 with
    | some e => exact h2
    | none =>
      simp only
      have h3 := allocateRecorded_keeps p.Spec.NetworkName (visitedEntries p order) a2 h2
      cases hall : allocateRecorded a2 p.Spec.NetworkName (visitedEntries p order) with
      | mk a3 e3 =>
        rw [hall] at h3
        cases e3 with
        | some e => exact h3
        | none =>
          simp only
          cases h.cacheAllocator.NewMACIPMap p.Spec.NetworkName with
          | some e => exact h3
          | none => exact h3

/-- C23. For every pool whose CIDR parses (and whose networks list `json.Marshal`
renders, as it does every list of this type) and every cluster network,
`Handler.prepareAgentPod` returns no error, and its workload is the one the
package-level `prepareAgentPod` returns for the handler's `noDHCP`,
`agentNamespace`, `agentServiceAccountName` and `agentImage`: the name
`<ns>-<name>-agent`, the labels, the networks annotation, the node affinity, the
init command with server address and prefix length, the args and the env. -/
theorem constructors_agree (h : Handler) (p : IPPool) (clusterNetwork : String) (ipNet : IPNet)
    (text : String)
    (hcidr : h.runtime.ParseCIDR p.Spec.IPv4Config.CIDR = .ok ipNet)
    (hmarshal : h.runtime.Marshal
      [{ Namespace := (RSplit p.Spec.NetworkName).1, Name := (RSplit p.Spec.NetworkName).2,
         InterfaceName := "eth1" }] = .ok text) :
    ∃ pod, h.prepareAgentPod p clusterNetwork = .ok pod ∧
      prepareAgentPod h.runtime p h.noDHCP h.agentNamespace clusterNetwork
        h.agentServiceAccountName h.agentImage = some pod ∧
      pod.ObjectMeta.Name = p.ObjectMeta.Namespace ++ "-" ++ p.ObjectMeta.Name ++ "-agent" ∧
      pod.ObjectMeta.Namespace = h.agentNamespace ∧
      pod.ObjectMeta.Labels =
        some ((((∅ : StringMap).insert vmDHCPControllerLabelKey "agent").insert
          ipPoolNamespaceLabelKey p.ObjectMeta.Namespace).insert
          ipPoolNameLabelKey p.ObjectMeta.Name) ∧
      pod.ObjectMeta.Annotations =
        some ((∅ : StringMap).insert multusNetworksAnnotationKey text) ∧
      pod.Spec.Affinity = some { NodeAffinity := some {
        RequiredDuringSchedulingIgnoredDuringExecution := some {
          NodeSelectorTerms := [{ MatchExpressions := [{
            Key := GroupName ++ "/" ++ clusterNetwork, Operator := "In",
            Values := ["true"] }] }] } } } ∧
      pod.Spec.InitContainers.map (fun c => c.Command) =
        [["/bin/sh", "-c",
          setIPAddrScript p.Spec.IPv4Config.ServerIP (IPMaskSize ipNet.Mask).1]] ∧
      pod.Spec.Containers.map (fun c => (c.Args, c.Env)) =
        [(agentArgs p h.noDHCP,
          [{ Name := "VM_DHCP_AGENT_NAME",
             Value := p.ObjectMeta.Namespace ++ "-" ++ p.ObjectMeta.Name ++ "-agent" }])] := by
  unfold Handler.prepareAgentPod prepareAgentPod
  simp only [hcidr, hmarshal]
  refine ⟨_, rfl, rfl, rfl, rfl, rfl, rfl, rfl, rfl, ?_⟩
  cases h.noDHCP <;> simp [agentArgs]

/-- Witness of C23: the example pool on cluster network `mgmt`; both constructors
return the example agent. -/
theorem constructors_agree_witness :
    uninitializedHandler.prepareAgentPod examplePool "mgmt" = .ok exampleAgent ∧
    prepareAgentPod exampleRuntime examplePool false "harvester-system" "mgmt" "vm-dhcp-agent"
      { text := "rancher/harvester-vm-dhcp-agent:main-head" } = some exampleAgent ∧
    ∃ pod, uninitializedHandler.prepareAgentPod examplePool "mgmt" = .ok pod ∧
      prepareAgentPod uninitializedHandler.runtime examplePool uninitializedHandler.noDHCP
        uninitializedHandler.agentNamespace "mgmt" uninitializedHandler.agentServiceAccountName
        uninitializedHandler.agentImage = some pod ∧
      pod.ObjectMeta.Name = "default-net-1-agent" := by
  obtain ⟨pod, h1, h2, h3, _⟩ := constructors_agree uninitializedHandler examplePool "mgmt"
    { IP := [192, 168, 0, 0], Mask := [255, 255, 255, 0] }
    "[\x7b\"namespace\":\"default\",\"name\":\"net-1\",\"interface\":\"eth1\"\x7d]"
    (by rfl) (by rfl)
  exact ⟨by rfl, by decide, pod, h1, h2, h3⟩

/-- C24, counterexample. On the example pool, starting from an allocator without
subnets, `BuildCache` fails because the cache namespace cannot be created, and
fails on a pool whose status records a lease outside the range; in both runs the
allocator it leaves holds a subnet for `default/net-1`, which it did not hold
before, and the next run on that state fails in `new_subnet` with
`network default/net-1 already exists`. -/
theorem BuildCache_failure_leaves_subnet :
    (IPAM.empty.queries).IsNetworkInitialized "default/net-1" = false ∧
    (failingCacheHandler.BuildCache IPAM.empty [] examplePool examplePool.Status).err =
      some (Errorf "could not create cache for default/net-1") ∧
    ((failingCacheHandler.BuildCache IPAM.empty [] examplePool examplePool.Status).ipam.queries
      ).IsNetworkInitialized "default/net-1" = true ∧
    (uninitializedHandler.BuildCache
      (failingCacheHandler.BuildCache IPAM.empty [] examplePool examplePool.Status).ipam []
      examplePool examplePool.Status).err =
      some (Errorf "network default/net-1 already exists") ∧
    (uninitializedHandler.BuildCache IPAM.empty [("192.168.0.50", "AA:BB:CC:DD:EE:02")]
      strayLeasePool strayLeasePool.Status).err =
      some (Errorf "ip 192.168.0.50 is out of range of network default/net-1") ∧
    ((uninitializedHandler.BuildCache IPAM.empty [("192.168.0.50", "AA:BB:CC:DD:EE:02")]
      strayLeasePool strayLeasePool.Status).ipam.queries
      ).IsNetworkInitialized "default/net-1" = true := by
  refine ⟨by rfl, by rfl, by rfl, by rfl, by rfl, by rfl⟩

/-- C24, amended. Let `BuildCache` run on a pool whose `CacheReady` condition is not
`True`. If `new_subnet` fails, that error is returned and the allocator is left as
it was. If `new_subnet` succeeds (the allocator then held no subnet for
`network_name`), the allocator the call leaves holds a subnet for `network_name`
also when the call returns an error from a revoke, an allocate or the cache
namespace creation; nothing is undone, so every later run of `BuildCache` on that
state and this pool fails in `new_subnet` with
`network <network_name> already exists` and leaves the state as it is. -/
theorem BuildCache_failure_keeps_subnet (h : Handler) (a : IPAM)
    (order : List (String × String)) (p : IPPool) (status : IPPoolStatus)
    (hnot : Cond.IsTrue CacheReady p = false) :
    (∀ err, a.NewIPSubnet p.Spec.NetworkName p.Spec.IPv4Config.CIDR
        p.Spec.IPv4Config.Pool.Start p.Spec.IPv4Config.Pool.End = .error err →
      (h.BuildCache a order p status).ipam = a ∧
      (h.BuildCache a order p status).err = some err) ∧
    (∀ a1, a.NewIPSubnet p.Spec.NetworkName p.Spec.IPv4Config.CIDR
        p.Spec.IPv4Config.Pool.Start p.Spec.IPv4Config.Pool.End = .ok a1 →
      (a.queries).IsNetworkInitialized p.Spec.NetworkName = false ∧
      ((h.BuildCache a order p status).ipam.queries).IsNetworkInitialized p.Spec.NetworkName
        = true ∧
      ∀ (h' : Handler) (order' : List (String × String)) (status' : IPPoolStatus),
        (h'.BuildCache (h.BuildCache a order p status).ipam order' p status').err =
          some (Errorf ("network " ++ p.Spec.NetworkName ++ " already exists")) ∧
        (h'.BuildCache (h.BuildCache a order p status).ipam order' p status').ipam =
          (h.BuildCache a order p status).ipam ∧
        (h'.BuildCache (h.BuildCache a order p status).ipam order' p status').newMaps = []) := by
  constructor
  · intro err hnew
    unfold Handler.BuildCache
    simp [hnot, hnew]
  · intro a1 hnew
    have hkeep := BuildCache_keeps_subnet h a a1 order p status hnot hnew
    refine ⟨?_, hkeep, ?_⟩
    · simp [IPAM.queries, NewIPSubnet_fresh _ _ _ _ _ _ hnew]
    · intro h' order' status'
      have hex := NewIPSubnet_existing (h.BuildCache a order p status).ipam p.Spec.NetworkName
        p.Spec.IPv4Config.CIDR p.Spec.IPv4Config.Pool.Start p.Spec.IPv4Config.Pool.End hkeep
      generalize (h.BuildCache a order p status).ipam = b at hex
      unfold Handler.BuildCache
      simp [hnot, hex]

/-- Witness of C24 (amended): the example pool, from an allocator without subnets,
when the cache namespace cannot be created. -/
theorem BuildCache_failure_keeps_subnet_witness :
    Cond.IsTrue CacheReady examplePool = false ∧
    (failingCacheHandler.BuildCache IPAM.empty [] examplePool examplePool.Status).err =
      some (Errorf "could not create cache for default/net-1") ∧
    ((failingCacheHandler.BuildCache IPAM.empty [] examplePool examplePool.Status).ipam.queries
      ).IsNetworkInitialized "default/net-1" = true ∧
    (uninitializedHandler.BuildCache
      (failingCacheHandler.BuildCache IPAM.empty [] examplePool examplePool.Status).ipam []
      examplePool examplePool.Status).err =
      some (Errorf ("network " ++ "default/net-1" ++ " already exists")) := by
  have hw := (BuildCache_failure_keeps_subnet failingCacheHandler IPAM.empty [] examplePool
    examplePool.Status (by decide)).2 exampleIPAM (by rfl)
  exact ⟨by decide, by rfl, hw.2.1, (hw.2.2 uninitializedHandler [] examplePool.Status).1⟩

/-- C25, the code at the failing input. The pod built after `PodReady(ConditionFalse)`
has a `Ready` condition with status `True` and `isPodReady` holds of it; after two
calls of `PodReady` the pod has two conditions of type `Ready`. For every builder
and status, `PodReady` leaves one condition more than it found, and one condition
of type `Ready` more. -/
theorem PodReady_ignores_status_and_appends :
    readyConditions ((newPodBuilder "harvester-system" "default-net-1-agent").PodReady
      "False").Build = [{ Type' := "Ready", Status := "True" }] ∧
    isPodReady ((newPodBuilder "harvester-system" "default-net-1-agent").PodReady
      "False").Build = true ∧
    readyConditions (((newPodBuilder "harvester-system" "default-net-1-agent").PodReady
      "True").PodReady "True").Build =
      [{ Type' := "Ready", Status := "True" }, { Type' := "Ready", Status := "True" }] ∧
    ∀ (b : podBuilder) (s : String),
      (readyConditions (b.PodReady s).Build).length = (readyConditions b.Build).length + 1 ∧
      (b.PodReady s).Build.Status.Conditions.length = b.Build.Status.Conditions.length + 1 := by
  refine ⟨by decide, by decide, by decide, ?_⟩
  intro b s
  have hlen : ∀ cs : List PodCondition, (setFirstReady cs).length = cs.length := by
    intro cs
    induction cs with
    | nil => rfl
    | cons c cs ih =>
      unfold setFirstReady
      split <;> simp [ih]
  have hfil : ∀ cs : List PodCondition,
      ((setFirstReady cs).filter fun c => c.Type' == PodReady).length =
        (cs.filter fun c => c.Type' == PodReady).length := by
    intro cs
    induction cs with
    | nil => rfl
    | cons c cs ih =>
      unfold setFirstReady
      by_cases hc : (c.Type' == PodReady) = true
      · simp [hc, List.filter_cons]
      · simp [hc, List.filter_cons, ih]
  constructor
  · simp only [readyConditions, podBuilder.PodReady, podBuilder.Build, Bool.not_false, if_true,
      List.filter_append, List.length_append, hfil]
    rfl
  · simp only [podBuilder.PodReady, podBuilder.Build, Bool.not_false, if_true,
      List.length_append, hlen]
    rfl

end ippool
